import Mathlib

/-!
TCPCI / USB-PD driver (sys/dev/fdt/tcpci.c): embedding and properties.

The driver is embedded as state-passing functions over a `World`:
the software context (`tcpci_softc`), the stream of values the device
will return to the coming register reads, and the trace of everything the
driver has done so far (register reads and writes, GPIO writes, delays,
console lines).  A `panic` ends a run; the world at the moment of the panic
is kept.

Conventions.  Machine integers are natural numbers, reduced mod 2^8 or 2^16
where the C type truncates.  The device is arbitrary: every statement
quantifies over the stream of readings.  A failed bus read returns 0 in
tcpci_read_reg8/16 and is a reading of 0 here.  Byte-order conversions are
those of a little-endian host.  The constants of dev/usb/usbpd.h, which is not
part of the sources, are a parameter `k : usbpd`.
-/

namespace Tcpci

/-! ## Register map (the defines of tcpci.c) -/

@[simp] abbrev TCPC_ALERT : Nat := 0x10
@[simp] abbrev TCPC_ALERT_CC_STATUS : Nat := 1 <<< 0
@[simp] abbrev TCPC_ALERT_POWER_STATUS : Nat := 1 <<< 1
@[simp] abbrev TCPC_ALERT_RX_STATUS : Nat := 1 <<< 2
@[simp] abbrev TCPC_ALERT_RX_HARD_RST : Nat := 1 <<< 3
@[simp] abbrev TCPC_ALERT_TX_FAILED : Nat := 1 <<< 4
@[simp] abbrev TCPC_ALERT_TX_DISCARDED : Nat := 1 <<< 5
@[simp] abbrev TCPC_ALERT_TX_SUCCESS : Nat := 1 <<< 6
@[simp] abbrev TCPC_ALERT_V_ALARM_HI : Nat := 1 <<< 7
@[simp] abbrev TCPC_ALERT_V_ALARM_LO : Nat := 1 <<< 8
@[simp] abbrev TCPC_ALERT_FAULT : Nat := 1 <<< 9
@[simp] abbrev TCPC_ALERT_RX_BUF_OVF : Nat := 1 <<< 10
@[simp] abbrev TCPC_ALERT_VBUS_DISCNCT : Nat := 1 <<< 11
@[simp] abbrev TCPC_ALERT_MASK : Nat := 0x12
@[simp] abbrev TCPC_POWER_STATUS_MASK : Nat := 0x14
@[simp] abbrev TCPC_POWER_STATUS_VBUS_PRES : Nat := 1 <<< 2
@[simp] abbrev TCPC_TCPC_CTRL : Nat := 0x19
@[simp] abbrev TCPC_TCPC_CTRL_ORIENTATION : Nat := 1 <<< 0
@[simp] abbrev TCPC_ROLE_CTRL : Nat := 0x1a
@[simp] abbrev TCPC_ROLE_CTRL_CC1_SHIFT : Nat := 0
@[simp] abbrev TCPC_ROLE_CTRL_CC2_SHIFT : Nat := 2
@[simp] abbrev TCPC_ROLE_CTRL_CC_RA : Nat := 0x0
@[simp] abbrev TCPC_ROLE_CTRL_CC_RP : Nat := 0x1
@[simp] abbrev TCPC_ROLE_CTRL_CC_RD : Nat := 0x2
@[simp] abbrev TCPC_ROLE_CTRL_CC_OPEN : Nat := 0x3
@[simp] abbrev TCPC_ROLE_CTRL_CC_MASK : Nat := 0x3
@[simp] abbrev TCPC_ROLE_CTRL_DRP : Nat := 1 <<< 6
@[simp] abbrev TCPC_POWER_CTRL : Nat := 0x1c
@[simp] abbrev TCPC_POWER_CTRL_VCONN_ENABLE : Nat := 1 <<< 0
@[simp] abbrev TCPC_POWER_CTRL_FORCEDISCH : Nat := 1 <<< 2
@[simp] abbrev TCPC_POWER_CTRL_DIS_VOL_ALARM : Nat := 1 <<< 5
@[simp] abbrev TCPC_CC_STATUS : Nat := 0x1d
@[simp] abbrev TCPC_CC_STATUS_TERM : Nat := 1 <<< 4
@[simp] abbrev TCPC_CC_STATUS_TOGGLING : Nat := 1 <<< 5
@[simp] abbrev TCPC_POWER_STATUS : Nat := 0x1e
@[simp] abbrev TCPC_FAULT_STATUS : Nat := 0x1f
@[simp] abbrev TCPC_FAULT_STATUS_CLEAR : Nat := 1 <<< 7
@[simp] abbrev TCPC_COMMAND : Nat := 0x23
@[simp] abbrev TCPC_COMMAND_DISABLE_SINK_VBUS : Nat := 0x44
@[simp] abbrev TCPC_COMMAND_SINK_VBUS : Nat := 0x55
@[simp] abbrev TCPC_COMMAND_DISABLE_SRC_VBUS : Nat := 0x66
@[simp] abbrev TCPC_COMMAND_SRC_VBUS_DEFAULT : Nat := 0x77
@[simp] abbrev TCPC_COMMAND_SRC_VBUS_HIGH : Nat := 0x88
@[simp] abbrev TCPC_COMMAND_LOOK4CONNECTION : Nat := 0x99
@[simp] abbrev TCPC_MSG_HDR_INFO : Nat := 0x2e
@[simp] abbrev TCPC_MSG_HDR_INFO_PWR_ROLE : Nat := 1 <<< 0
@[simp] abbrev TCPC_MSG_HDR_INFO_PD_REV20 : Nat := 1 <<< 1
@[simp] abbrev TCPC_MSG_HDR_INFO_DATA_ROLE : Nat := 1 <<< 3
@[simp] abbrev TCPC_RX_DETECT : Nat := 0x2f
@[simp] abbrev TCPC_RX_DETECT_SOP : Nat := 1 <<< 0
@[simp] abbrev TCPC_RX_DETECT_SOP_PRIME : Nat := 1 <<< 1
@[simp] abbrev TCPC_RX_DETECT_SOP_PRIME_PRIME : Nat := 1 <<< 2
@[simp] abbrev TCPC_RX_DETECT_SOP_DEBUG_PRIME : Nat := 1 <<< 3
@[simp] abbrev TCPC_RX_DETECT_SOP_DEBUG_PRIME_PRIME : Nat := 1 <<< 4
@[simp] abbrev TCPC_RX_DETECT_HARD_RESET : Nat := 1 <<< 5
@[simp] abbrev TCPC_RX_BYTE_CNT : Nat := 0x30
@[simp] abbrev TCPC_RX_BUF_FRAME_TYPE : Nat := 0x31
@[simp] abbrev TCPC_RX_BUF_FRAME_TYPE_MASK : Nat := 0x7
@[simp] abbrev TCPC_RX_HDR : Nat := 0x32
@[simp] abbrev TCPC_RX_DATA : Nat := 0x34
@[simp] abbrev TCPC_TRANSMIT : Nat := 0x50
@[simp] abbrev TCPC_TRANSMIT_RETRY_DEF : Nat := 3 <<< 4
@[simp] abbrev TCPC_TX_BYTE_CNT : Nat := 0x51
@[simp] abbrev TCPC_TX_HDR : Nat := 0x52
@[simp] abbrev TCPC_TX_DATA : Nat := 0x54
@[simp] abbrev TCPC_VBUS_VOLTAGE_ALARM_LO_CFG : Nat := 0x78

/-! ## Types of dev/usb/usbpd.h

The header is not among the sources.  Its enumerations are rendered as
inductive types with the enumerator names tcpci.c uses; its numeric
constants (header layout, message codes, frame types) are not fixed by
tcpci.c and are taken as a parameter `usbpd`. -/

/-- State of one CC pin (enum used by tcpci_cc_to_typec and the classifiers). -/
inductive typec_cc_status where
  | TYPEC_CC_OPEN
  | TYPEC_CC_RA
  | TYPEC_CC_RD
  | TYPEC_CC_RP_DEF
  | TYPEC_CC_RP_1_5
  | TYPEC_CC_RP_3_0
  deriving DecidableEq, Repr

/-- Data role of the port. -/
inductive typec_data_role where
  | TYPEC_DEVICE
  | TYPEC_HOST
  deriving DecidableEq, Repr

/-- Power role of the port. -/
inductive typec_power_role where
  | TYPEC_SINK
  | TYPEC_SOURCE
  deriving DecidableEq, Repr

/-- Plug orientation. -/
inductive typec_polarity where
  | TYPEC_POLARITY_CC1
  | TYPEC_POLARITY_CC2
  deriving DecidableEq, Repr

open typec_cc_status typec_data_role typec_power_role typec_polarity

/-- Numeric constants of dev/usb/usbpd.h that tcpci.c refers to by name.
The header is absent, so the driver is embedded for every choice of them. -/
structure usbpd where
  PD_HEADER_TYPE_MASK : Nat
  PD_HEADER_DATA_ROLE : Nat
  PD_HEADER_POWER_ROLE : Nat
  PD_HEADER_REV_SHIFT : Nat
  PD_HEADER_REV_MASK : Nat
  PD_HEADER_ID_SHIFT : Nat
  PD_HEADER_ID_MASK : Nat
  PD_HEADER_CNT_SHIFT : Nat
  PD_HEADER_CNT_MASK : Nat
  PD_HEADER_EXT : Nat
  PD_REV10 : Nat
  PD_REV20 : Nat
  PD_PAYLOAD_MAX_LEN : Nat
  PD_CTRL_ACCEPT : Nat
  PD_CTRL_REJECT : Nat
  PD_CTRL_PS_RDY : Nat
  PD_CTRL_GET_SOURCE_CAP : Nat
  PD_CTRL_GET_SINK_CAP : Nat
  PD_DATA_SOURCE_CAP : Nat
  PD_DATA_REQUEST : Nat
  PD_DATA_SINK_CAP : Nat
  PD_DATA_VENDOR_DEF : Nat
  TCPC_TX_SOP : Nat
  TCPC_TX_SOP_DEBUG_PRIME_PRIME : Nat
  deriving DecidableEq, Repr

/-- A PD message (struct pd_message): 16-bit header and 32-bit payload words. -/
structure pd_message where
  header : Nat
  payload : List Nat
  deriving DecidableEq, Repr

/-! ## Driver state and the world around it -/

/-- The fields of struct tcpci_softc the driver logic reads or writes.
Pointers that may be NULL are options. -/
structure tcpci_softc where
  sc_attached : Nat
  sc_try_data : typec_data_role
  sc_try_power : typec_power_role
  sc_data_role : typec_data_role
  sc_power_role : typec_power_role
  sc_message_id : Nat
  sc_source_pdos : Option (List Nat)
  sc_source_pdolen : Nat
  sc_sink_pdos : Option (List Nat)
  sc_sink_pdolen : Nat
  sc_pd_message : pd_message
  sc_ss_sel : Option (List Nat)
  sc_cc : Nat
  sc_vbus_det : Nat
  deriving DecidableEq, Repr

/-- The printf call sites of tcpci.c (DPRINTF is compiled out). -/
inductive LogLine where
  | short_message
  | extended_payload
  | rx_dump
  | rx_dump_word
  | rx_dump_end
  | host_mode
  | device_mode
  | tx_success
  | tx_discarded
  | tx_failed
  | extended_message
  | source_cap
  | request
  | sink_request
  | unknown_type
  | accept
  | reject
  | ready
  | get_source_cap
  | get_sink_cap
  deriving DecidableEq, Repr

/-- One observable action of the driver. -/
inductive Event where
  | read8 (reg val : Nat)
  | read16 (reg val : Nat)
  | readBlock (reg : Nat) (data : List Nat)
  | write8 (reg val : Nat)
  | write16 (reg val : Nat)
  | writeBlock (reg : Nat) (data : List Nat)
  | gpio_set_pin (pin : List Nat) (val : Nat)
  | delay (usecs : Nat)
  | printf (line : LogLine)
  | intr_disable
  | intr_enable
  | task_add
  deriving DecidableEq, Repr

/-- Driver state, the values the device returns to the coming reads (a read
past the end of the stream, like a failed bus read, yields 0), and the trace
of actions so far, oldest first. -/
structure World where
  sc : tcpci_softc
  input : List Nat
  trace : List Event
  deriving DecidableEq, Repr

/-- Result of a run that may hit panic(). -/
inductive Outcome where
  | ok (w : World)
  | panic (w : World)
  deriving DecidableEq, Repr

/-- Sequencing: a panic stops the run. -/
def Outcome.andThen (o : Outcome) (f : World → Outcome) : Outcome :=
  match o with
  | Outcome.ok w => f w
  | Outcome.panic w => Outcome.panic w

/-- The world a run ended in, whether it returned or stopped in panic. -/
def Outcome.world : Outcome → World
  | Outcome.ok w => w
  | Outcome.panic w => w

/-- True when the run stopped in panic. -/
def Outcome.panicked : Outcome → Bool
  | Outcome.ok _ => false
  | Outcome.panic _ => true

/-- Append one action to the trace. -/
def emit (e : Event) (w : World) : World :=
  { w with trace := w.trace ++ [e] }

/-- True for register writes (8-bit, 16-bit and block). -/
def Event.isWrite : Event → Bool
  | Event.write8 _ _ => true
  | Event.write16 _ _ => true
  | Event.writeBlock _ _ => true
  | _ => false

/-- The register writes of a trace, in order. -/
def writes (t : List Event) : List Event := t.filter Event.isWrite

/-! ## Register access (tcpci_read_reg8 .. tcpci_write_block) -/

/-- uint8_t tcpci_read_reg8(sc, reg). -/
def tcpci_read_reg8 (reg : Nat) (w : World) : Nat × World :=
  (w.input.headD 0 % 256,
   { w with input := w.input.tail,
            trace := w.trace ++ [Event.read8 reg (w.input.headD 0 % 256)] })

/-- void tcpci_write_reg8(sc, reg, val): val is a uint8_t. -/
def tcpci_write_reg8 (reg val : Nat) (w : World) : World :=
  emit (Event.write8 reg (val % 256)) w

/-- uint16_t tcpci_read_reg16(sc, reg). -/
def tcpci_read_reg16 (reg : Nat) (w : World) : Nat × World :=
  (w.input.headD 0 % 65536,
   { w with input := w.input.tail,
            trace := w.trace ++ [Event.read16 reg (w.input.headD 0 % 65536)] })

/-- void tcpci_write_reg16(sc, reg, val): val is a uint16_t. -/
def tcpci_write_reg16 (reg val : Nat) (w : World) : World :=
  emit (Event.write16 reg (val % 65536)) w

/-- void tcpci_read_block(sc, reg, data, len): len bytes from the device. -/
def tcpci_read_block (reg len : Nat) (w : World) : List Nat × World :=
  ((List.range len).map (fun i => w.input.getD i 0 % 256),
   { w with input := w.input.drop len,
            trace := w.trace ++
              [Event.readBlock reg ((List.range len).map (fun i => w.input.getD i 0 % 256))] })

/-- void tcpci_write_block(sc, reg, data, len). -/
def tcpci_write_block (reg : Nat) (data : List Nat) (w : World) : World :=
  emit (Event.writeBlock reg data) w

/-- The printf of the kernel console. -/
def printf (l : LogLine) (w : World) : World := emit (Event.printf l) w

/-- The delay(usecs) busy wait. -/
def delay (usecs : Nat) (w : World) : World := emit (Event.delay usecs) w

/-- Complement of an 8-bit mask, as applied to a uint8_t operand. -/
def not8 (m : Nat) : Nat := 0xff ^^^ m

/-- Complement of a 16-bit mask, as applied to a uint16_t operand. -/
def not16 (m : Nat) : Nat := 0xffff ^^^ m

/-! ## CC decoding and classification -/

/-- int tcpci_cc_to_typec(int cc, int sink). -/
def tcpci_cc_to_typec (cc sink : Nat) : typec_cc_status :=
  if sink ≠ 0 then
    if cc = 0x1 then TYPEC_CC_RP_DEF
    else if cc = 0x2 then TYPEC_CC_RP_1_5
    else if cc = 0x3 then TYPEC_CC_RP_3_0
    else TYPEC_CC_OPEN
  else
    if cc = 0x1 then TYPEC_CC_RA
    else if cc = 0x2 then TYPEC_CC_RD
    else TYPEC_CC_OPEN

/-- int tcpci_cc_is_sink(int cc1, int cc2). -/
def tcpci_cc_is_sink (cc1 cc2 : typec_cc_status) : Bool :=
  if (cc1 = TYPEC_CC_RP_DEF ∨ cc1 = TYPEC_CC_RP_1_5 ∨ cc1 = TYPEC_CC_RP_3_0)
      ∧ cc2 = TYPEC_CC_OPEN then true
  else if (cc2 = TYPEC_CC_RP_DEF ∨ cc2 = TYPEC_CC_RP_1_5 ∨ cc2 = TYPEC_CC_RP_3_0)
      ∧ cc1 = TYPEC_CC_OPEN then true
  else false

/-- int tcpci_cc_is_source(int cc1, int cc2). -/
def tcpci_cc_is_source (cc1 cc2 : typec_cc_status) : Bool :=
  if cc1 = TYPEC_CC_RD ∧ cc2 ≠ TYPEC_CC_RD then true
  else if cc2 = TYPEC_CC_RD ∧ cc1 ≠ TYPEC_CC_RD then true
  else false

/-- int tcpci_cc_is_audio(int cc1, int cc2): defined in tcpci.c, called nowhere. -/
def tcpci_cc_is_audio (cc1 cc2 : typec_cc_status) : Bool :=
  if cc1 = TYPEC_CC_RA ∧ cc2 = TYPEC_CC_RA then true
  else false

/-- int tcpci_cc_is_audio_detached(int cc1, int cc2). -/
def tcpci_cc_is_audio_detached (cc1 cc2 : typec_cc_status) : Bool :=
  if cc1 = TYPEC_CC_RA ∧ cc2 = TYPEC_CC_OPEN then true
  else if cc2 = TYPEC_CC_RA ∧ cc1 = TYPEC_CC_OPEN then true
  else false

/-! ## Role, polarity and VBUS side effects -/

/-- void tcpci_set_roles(sc, data, power). -/
def tcpci_set_roles (data : typec_data_role) (power : typec_power_role) (w : World) : World :=
  let reg := TCPC_MSG_HDR_INFO_PD_REV20
  let reg := if power = TYPEC_SOURCE then reg ||| TCPC_MSG_HDR_INFO_PWR_ROLE else reg
  let reg := if data = TYPEC_HOST then reg ||| TCPC_MSG_HDR_INFO_DATA_ROLE else reg
  let w := tcpci_write_reg8 TCPC_MSG_HDR_INFO reg w
  let w := if data = TYPEC_HOST then printf LogLine.host_mode w else printf LogLine.device_mode w
  { w with sc := { w.sc with sc_data_role := data, sc_power_role := power } }

/-- The gpio_controller_set_pin(sc->sc_ss_sel, val) call, made when sc_ss_sel is not NULL. -/
def gpio_ss_sel (val : Nat) (w : World) : World :=
  match w.sc.sc_ss_sel with
  | some pin => emit (Event.gpio_set_pin pin val) w
  | none => w

/-- void tcpci_set_polarity(sc, cc). -/
def tcpci_set_polarity (cc : typec_polarity) (w : World) : World :=
  let w := if cc = TYPEC_POLARITY_CC1 then
      gpio_ss_sel 1 (tcpci_write_reg8 TCPC_TCPC_CTRL 0 w)
    else w
  let w := if cc = TYPEC_POLARITY_CC2 then
      gpio_ss_sel 0 (tcpci_write_reg8 TCPC_TCPC_CTRL TCPC_TCPC_CTRL_ORIENTATION w)
    else w
  w

/-- void tcpci_set_vbus(sc, source, sink). -/
def tcpci_set_vbus (source sink : Nat) (w : World) : World :=
  let w := if source = 0 then
      tcpci_write_reg8 TCPC_COMMAND TCPC_COMMAND_DISABLE_SRC_VBUS w
    else w
  let w := if sink = 0 then
      tcpci_write_reg8 TCPC_COMMAND TCPC_COMMAND_DISABLE_SINK_VBUS w
    else w
  let w := if source = 0 ∧ sink = 0 then
      let w := tcpci_write_reg8 TCPC_VBUS_VOLTAGE_ALARM_LO_CFG 0x1c w
      let r := tcpci_read_reg8 TCPC_POWER_CTRL w
      tcpci_write_reg8 TCPC_POWER_CTRL (r.1 ||| TCPC_POWER_CTRL_FORCEDISCH) r.2
    else w
  let w := if source ≠ 0 then
      tcpci_write_reg8 TCPC_COMMAND TCPC_COMMAND_SRC_VBUS_DEFAULT w
    else w
  let w := if sink ≠ 0 then
      tcpci_write_reg8 TCPC_COMMAND TCPC_COMMAND_SINK_VBUS w
    else w
  w

/-- The RX_DETECT value both attach branches write. -/
def rx_detect_all : Nat :=
  TCPC_RX_DETECT_SOP ||| TCPC_RX_DETECT_SOP_PRIME ||| TCPC_RX_DETECT_SOP_PRIME_PRIME |||
  TCPC_RX_DETECT_SOP_DEBUG_PRIME ||| TCPC_RX_DETECT_SOP_DEBUG_PRIME_PRIME |||
  TCPC_RX_DETECT_HARD_RESET

/-- Assignment sc->sc_attached = v. -/
def set_attached (v : Nat) (w : World) : World :=
  { w with sc := { w.sc with sc_attached := v } }

/-- Assignment sc->sc_message_id = v. -/
def set_message_id (v : Nat) (w : World) : World :=
  { w with sc := { w.sc with sc_message_id := v } }

/-- Assignment sc->sc_cc = v. -/
def set_cc (v : Nat) (w : World) : World :=
  { w with sc := { w.sc with sc_cc := v } }

/-- The if / else-if chain of tcpci_cc_change on the decoded pin states cc1
and cc2, up to (not including) the final sc->sc_cc = cc. -/
def tcpci_cc_change_branches (cc1 cc2 : typec_cc_status) (w : World) : Outcome :=
  if cc1 = TYPEC_CC_OPEN ∧ cc2 = TYPEC_CC_OPEN then
    let w := tcpci_write_reg8 TCPC_RX_DETECT 0 w
    let w := tcpci_set_vbus 0 0 w
    let r := tcpci_read_reg8 TCPC_POWER_CTRL w
    let w := tcpci_write_reg8 TCPC_POWER_CTRL (r.1 &&& not8 TCPC_POWER_CTRL_VCONN_ENABLE) r.2
    let w := tcpci_set_polarity TYPEC_POLARITY_CC1 w
    let w := if w.sc.sc_try_data = TYPEC_HOST then
        tcpci_write_reg8 TCPC_ROLE_CTRL (TCPC_ROLE_CTRL_DRP ||| 0xa) w
      else
        tcpci_write_reg8 TCPC_ROLE_CTRL (TCPC_ROLE_CTRL_DRP ||| 0x5) w
    let w := tcpci_write_reg8 TCPC_COMMAND TCPC_COMMAND_LOOK4CONNECTION w
    Outcome.ok (set_attached 0 w)
  else if tcpci_cc_is_source cc1 cc2 then
    let w := set_message_id 0 w
    let w := if cc1 = TYPEC_CC_RD then tcpci_set_polarity TYPEC_POLARITY_CC1 w
      else tcpci_set_polarity TYPEC_POLARITY_CC2 w
    let w := tcpci_set_roles TYPEC_HOST TYPEC_SOURCE w
    let w := tcpci_write_reg8 TCPC_RX_DETECT rx_detect_all w
    let w := if (cc1 = TYPEC_CC_RD ∧ cc2 = TYPEC_CC_RA) ∨ (cc2 = TYPEC_CC_RD ∧ cc1 = TYPEC_CC_RA) then
        let r := tcpci_read_reg8 TCPC_POWER_CTRL w
        tcpci_write_reg8 TCPC_POWER_CTRL (r.1 ||| TCPC_POWER_CTRL_VCONN_ENABLE) r.2
      else w
    let w := tcpci_set_vbus 1 0 w
    Outcome.ok (set_attached 1 w)
  else if tcpci_cc_is_sink cc1 cc2 then
    let w := set_message_id 0 w
    let w := if cc1 ≠ TYPEC_CC_OPEN then
        let w := tcpci_set_polarity TYPEC_POLARITY_CC1 w
        tcpci_write_reg8 TCPC_ROLE_CTRL
          (TCPC_ROLE_CTRL_CC_RD <<< TCPC_ROLE_CTRL_CC1_SHIFT |||
           TCPC_ROLE_CTRL_CC_OPEN <<< TCPC_ROLE_CTRL_CC2_SHIFT) w
      else
        let w := tcpci_set_polarity TYPEC_POLARITY_CC2 w
        tcpci_write_reg8 TCPC_ROLE_CTRL
          (TCPC_ROLE_CTRL_CC_OPEN <<< TCPC_ROLE_CTRL_CC1_SHIFT |||
           TCPC_ROLE_CTRL_CC_RD <<< TCPC_ROLE_CTRL_CC2_SHIFT) w
    let w := tcpci_set_roles TYPEC_DEVICE TYPEC_SINK w
    let w := tcpci_write_reg8 TCPC_RX_DETECT rx_detect_all w
    let w := tcpci_set_vbus 0 0 w
    Outcome.ok (set_attached 1 w)
  else if tcpci_cc_is_audio_detached cc1 cc2 then
    Outcome.ok w
  else
    Outcome.panic w

/-- void tcpci_cc_change(sc). -/
def tcpci_cc_change (w : World) : Outcome :=
  let r := tcpci_read_reg8 TCPC_CC_STATUS w
  let cc := r.1
  let w := r.2
  if w.sc.sc_cc = cc then Outcome.ok w
  else
    let cc1 := tcpci_cc_to_typec ((cc >>> TCPC_ROLE_CTRL_CC1_SHIFT) &&& TCPC_ROLE_CTRL_CC_MASK)
      (cc &&& TCPC_CC_STATUS_TERM)
    let cc2 := tcpci_cc_to_typec ((cc >>> TCPC_ROLE_CTRL_CC2_SHIFT) &&& TCPC_ROLE_CTRL_CC_MASK)
      (cc &&& TCPC_CC_STATUS_TERM)
    (tcpci_cc_change_branches cc1 cc2 w).andThen (fun w => Outcome.ok (set_cc cc w))

/-! ## PD message engine: send path -/

/-- The htole16 conversion; the driver runs on little-endian hosts (arm64), where it is the identity. -/
def htole16 (x : Nat) : Nat := x

/-- The htole32 conversion on a little-endian host. -/
def htole32 (x : Nat) : Nat := x

/-- The letoh16 conversion on a little-endian host. -/
def letoh16 (x : Nat) : Nat := x

/-- The letoh32 conversion on a little-endian host. -/
def letoh32 (x : Nat) : Nat := x

/-- The four bytes of a uint32_t as they lie in memory on a little-endian host. -/
def bytes_of_u32 (x : Nat) : List Nat :=
  [x % 256, x / 256 % 256, x / 65536 % 256, x / 16777216 % 256]

/-- The uint32_t that four bytes in memory form on a little-endian host. -/
def u32_of_bytes (b0 b1 b2 b3 : Nat) : Nat :=
  b0 + 256 * b1 + 65536 * b2 + 16777216 * b3

/-- The transmit-completion bits of an ALERT reading:
status & (TX_SUCCESS | TX_DISCARDED | TX_FAILED), status being a uint16_t. -/
def alert_tx_bits (reading : Nat) : Nat :=
  (reading % 65536) &&&
    (TCPC_ALERT_TX_SUCCESS ||| TCPC_ALERT_TX_DISCARDED ||| TCPC_ALERT_TX_FAILED)

/-- The register writes of one transmit attempt in tcpci_send_message_hw (from
the TX_BYTE_CNT write to the TRANSMIT write); cnt, type and the converted
header are computed once, before the label again. -/
def tcpci_tx_attempt (k : usbpd) (pd0 : pd_message) (w : World) : World :=
  let cnt := ((pd0.header >>> k.PD_HEADER_CNT_SHIFT) &&& k.PD_HEADER_CNT_MASK) % 65536
  let type := (pd0.header &&& k.PD_HEADER_TYPE_MASK) % 65536
  let header := htole16 pd0.header
  let payload := (List.range cnt).map (fun i => htole32 (pd0.payload.getD i 0))
  let w := tcpci_write_reg8 TCPC_TX_BYTE_CNT (2 + cnt * 4) w
  let w := tcpci_write_reg16 TCPC_TX_HDR header w
  let w := if cnt ≠ 0 then
      tcpci_write_block TCPC_TX_DATA (payload.flatMap bytes_of_u32) w
    else w
  let ftype := k.TCPC_TX_SOP
  let ftype := if cnt ≠ 0 ∧ type = k.PD_DATA_VENDOR_DEF ∧ w.sc.sc_data_role = TYPEC_HOST then
      k.TCPC_TX_SOP_DEBUG_PRIME_PRIME
    else ftype
  tcpci_write_reg8 TCPC_TRANSMIT ((ftype % 256) ||| TCPC_TRANSMIT_RETRY_DEF) w

/-- The polling loop of tcpci_send_message_hw, for (i = 0; i < 1000; i++), with
n the number of passes left.  The result is true when the loop is left by
goto again, false when it is left by break or by running out of passes. -/
def tcpci_tx_poll (k : usbpd) (retry : Nat) : Nat → World → Bool × World
  | 0, w => (false, w)
  | n + 1, w =>
    let r := tcpci_read_reg16 TCPC_ALERT w
    let status := r.1 &&&
      (TCPC_ALERT_TX_SUCCESS ||| TCPC_ALERT_TX_DISCARDED ||| TCPC_ALERT_TX_FAILED)
    let w := r.2
    let w := if status ≠ 0 then tcpci_write_reg16 TCPC_ALERT status w else w
    if status &&& TCPC_ALERT_TX_SUCCESS ≠ 0 then
      let w := printf LogLine.tx_success w
      (false, set_message_id ((w.sc.sc_message_id + 1) &&& k.PD_HEADER_ID_MASK) w)
    else if status &&& TCPC_ALERT_TX_DISCARDED ≠ 0 then
      let w := printf LogLine.tx_discarded w
      if retry ≠ 0 then (true, delay (10 * 1000) w) else (false, w)
    else if status &&& TCPC_ALERT_TX_FAILED ≠ 0 then
      let w := printf LogLine.tx_failed w
      if retry ≠ 0 then (true, delay (10 * 1000) w) else (false, w)
    else
      tcpci_tx_poll k retry n (delay (10 * 1000) w)

/-- The code of tcpci_send_message_hw from the label again on; the argument is
the value of retry on arrival at the label.  retry is a local that starts at
20 and the label is only reached again while it is non-zero, so the first
equation is never used. -/
def tcpci_send_message_hw_again (k : usbpd) (pd0 : pd_message) : Nat → World → World
  | 0, w => w
  | retry + 1, w =>
    let w := tcpci_tx_attempt k pd0 w
    let r := tcpci_tx_poll k retry 1000 w
    if r.1 then tcpci_send_message_hw_again k pd0 retry r.2 else r.2

/-- void tcpci_send_message_hw(sc, pd0). -/
def tcpci_send_message_hw (k : usbpd) (pd0 : pd_message) (w : World) : World :=
  tcpci_send_message_hw_again k pd0 20 w

/-- void tcpci_send_message(sc, type, payload, nwords); the KASSERT is a panic
when it fails. -/
def tcpci_send_message (k : usbpd) (type : Nat) (payload : List Nat) (nwords : Nat)
    (w : World) : Outcome :=
  if ¬ nwords ≤ k.PD_PAYLOAD_MAX_LEN then Outcome.panic w
  else
    let header := type % 65536
    let header := if w.sc.sc_data_role = TYPEC_HOST then
        (header ||| k.PD_HEADER_DATA_ROLE) % 65536 else header
    let header := if w.sc.sc_power_role = TYPEC_SOURCE then
        (header ||| k.PD_HEADER_POWER_ROLE) % 65536 else header
    let header := (header ||| (k.PD_REV20 <<< k.PD_HEADER_REV_SHIFT)) % 65536
    let header := (header ||| (w.sc.sc_message_id <<< k.PD_HEADER_ID_SHIFT)) % 65536
    let header := (header ||| (nwords <<< k.PD_HEADER_CNT_SHIFT)) % 65536
    let pd : pd_message :=
      { header := header, payload := (List.range nwords).map (fun i => payload.getD i 0) }
    let w := { w with sc := { w.sc with sc_pd_message := pd } }
    Outcome.ok (tcpci_send_message_hw k pd w)

/-- void tcpci_send_source_caps(sc). -/
def tcpci_send_source_caps (k : usbpd) (w : World) : Outcome :=
  match w.sc.sc_source_pdos with
  | some pdos =>
    tcpci_send_message k k.PD_DATA_SOURCE_CAP pdos (w.sc.sc_source_pdolen / 4) w
  | none => tcpci_send_message k k.PD_CTRL_REJECT [] 0 w

/-- void tcpci_send_sink_caps(sc). -/
def tcpci_send_sink_caps (k : usbpd) (w : World) : Outcome :=
  match w.sc.sc_sink_pdos with
  | some pdos =>
    tcpci_send_message k k.PD_DATA_SINK_CAP pdos (w.sc.sc_sink_pdolen / 4) w
  | none => tcpci_send_message k k.PD_CTRL_REJECT [] 0 w

/-! ## PD message engine: receive path -/

/-- void tcpci_recv_data(sc, pd). -/
def tcpci_recv_data (k : usbpd) (pd : pd_message) (w : World) : Outcome :=
  let cnt := ((pd.header >>> k.PD_HEADER_CNT_SHIFT) &&& k.PD_HEADER_CNT_MASK) % 65536
  let rev := ((pd.header >>> k.PD_HEADER_REV_SHIFT) &&& k.PD_HEADER_REV_MASK) % 65536
  let type := (pd.header &&& k.PD_HEADER_TYPE_MASK) % 65536
  if type = k.PD_DATA_SOURCE_CAP then
    let w := printf LogLine.source_cap w
    if w.sc.sc_power_role ≠ TYPEC_SINK then Outcome.ok w
    else tcpci_send_message k k.PD_DATA_REQUEST [(1 <<< 25) ||| (1 <<< 28)] 1 w
  else if type = k.PD_DATA_REQUEST then
    let w := printf LogLine.request w
    if w.sc.sc_power_role ≠ TYPEC_SOURCE ∨ cnt ≠ 1 ∨ rev = k.PD_REV10 then
      tcpci_send_message k k.PD_CTRL_REJECT [] 0 w
    else
      let w := printf LogLine.sink_request w
      ((tcpci_send_message k k.PD_CTRL_ACCEPT [] 0 w).andThen
        (tcpci_send_message k k.PD_CTRL_PS_RDY [] 0)).andThen
        (tcpci_send_message k k.PD_DATA_VENDOR_DEF [0x5ac8012, 0x01820306] 2)
  else
    Outcome.ok (printf LogLine.unknown_type w)

/-- void tcpci_recv_ctrl(sc, pd). -/
def tcpci_recv_ctrl (k : usbpd) (pd : pd_message) (w : World) : Outcome :=
  let type := (pd.header &&& k.PD_HEADER_TYPE_MASK) % 65536
  if type = k.PD_CTRL_ACCEPT then Outcome.ok (printf LogLine.accept w)
  else if type = k.PD_CTRL_REJECT then Outcome.ok (printf LogLine.reject w)
  else if type = k.PD_CTRL_PS_RDY then Outcome.ok (printf LogLine.ready w)
  else if type = k.PD_CTRL_GET_SOURCE_CAP then
    tcpci_send_source_caps k (printf LogLine.get_source_cap w)
  else if type = k.PD_CTRL_GET_SINK_CAP then
    tcpci_send_sink_caps k (printf LogLine.get_sink_cap w)
  else Outcome.ok (printf LogLine.unknown_type w)

/-- void tcpci_recv_message(sc, pd). -/
def tcpci_recv_message (k : usbpd) (pd : pd_message) (w : World) : Outcome :=
  if pd.header &&& k.PD_HEADER_EXT ≠ 0 then
    Outcome.ok (printf LogLine.extended_message w)
  else if pd.header &&& (k.PD_HEADER_CNT_MASK <<< k.PD_HEADER_CNT_SHIFT) ≠ 0 then
    tcpci_recv_data k pd w
  else
    tcpci_recv_ctrl k pd w

/-- The 32-bit words that the first n / 4 groups of four bytes of a block form. -/
def words_of_bytes (bytes : List Nat) (n : Nat) : List Nat :=
  (List.range (n / 4)).map (fun i =>
    letoh32 (u32_of_bytes (bytes.getD (4 * i) 0) (bytes.getD (4 * i + 1) 0)
      (bytes.getD (4 * i + 2) 0) (bytes.getD (4 * i + 3) 0)))

/-- The per-word printf loop of tcpci_rx_change. -/
def rx_dump_words : Nat → World → World
  | 0, w => w
  | n + 1, w => rx_dump_words n (printf LogLine.rx_dump_word w)

/-- void tcpci_rx_change(sc).  sizeof(pd.header) is 2 (the header travels
through the 16-bit register accessors); sizeof(pd.payload) is that of
PD_PAYLOAD_MAX_LEN words of 32 bits. -/
def tcpci_rx_change (k : usbpd) (w : World) : Outcome :=
  let r := tcpci_read_reg8 TCPC_RX_BYTE_CNT w
  let len := r.1
  let w := r.2
  if len < 1 + 2 then
    let w := printf LogLine.short_message w
    Outcome.ok (tcpci_write_reg16 TCPC_ALERT TCPC_ALERT_RX_STATUS w)
  else
    let len := len - (1 + 2)
    let r := tcpci_read_reg8 TCPC_RX_BUF_FRAME_TYPE w
    let ftype := r.1 &&& TCPC_RX_BUF_FRAME_TYPE_MASK
    let w := r.2
    let r := tcpci_read_reg16 TCPC_RX_HDR w
    let header := r.1
    let w := r.2
    if len > 4 * k.PD_PAYLOAD_MAX_LEN then
      let w := printf LogLine.extended_payload w
      Outcome.ok (tcpci_write_reg16 TCPC_ALERT TCPC_ALERT_RX_STATUS w)
    else
      let r := tcpci_read_block TCPC_RX_DATA len w
      let w := tcpci_write_reg16 TCPC_ALERT TCPC_ALERT_RX_STATUS r.2
      let pd : pd_message :=
        { header := letoh16 header, payload := words_of_bytes r.1 len }
      let w := printf LogLine.rx_dump w
      let w := rx_dump_words (len / 4) w
      let w := printf LogLine.rx_dump_end w
      if ftype = k.TCPC_TX_SOP then tcpci_recv_message k pd w else Outcome.ok w

/-! ## Alert handling -/

/-- void tcpci_power_change(sc). -/
def tcpci_power_change (k : usbpd) (w : World) : Outcome :=
  let r := tcpci_read_reg8 TCPC_POWER_STATUS_MASK w
  let w := r.2
  let r := tcpci_read_reg8 TCPC_POWER_STATUS w
  let power := r.1 &&& TCPC_POWER_STATUS_VBUS_PRES
  let w := r.2
  if w.sc.sc_vbus_det = power then Outcome.ok w
  else
    let w := { w with sc := { w.sc with sc_vbus_det := power } }
    if power ≠ 0 ∧ w.sc.sc_data_role = TYPEC_HOST then tcpci_send_source_caps k w
    else Outcome.ok w

/-- int tcpci_intr(args). -/
def tcpci_intr (w : World) : Nat × World :=
  (1, emit Event.task_add (emit Event.intr_disable w))

/-- void tcpci_task(args). -/
def tcpci_task (k : usbpd) (w : World) : Outcome :=
  let r := tcpci_read_reg16 TCPC_ALERT w
  let status := r.1
  let w := r.2
  let w := if status &&& not16 TCPC_ALERT_RX_STATUS ≠ 0 then
      tcpci_write_reg16 TCPC_ALERT (status &&& not16 TCPC_ALERT_RX_STATUS) w
    else w
  let o := if status &&& TCPC_ALERT_CC_STATUS ≠ 0 then tcpci_cc_change w else Outcome.ok w
  let o := o.andThen (fun w =>
    if status &&& TCPC_ALERT_POWER_STATUS ≠ 0 then tcpci_power_change k w else Outcome.ok w)
  let o := o.andThen (fun w =>
    if status &&& TCPC_ALERT_RX_STATUS ≠ 0 then tcpci_rx_change k w else Outcome.ok w)
  o.andThen (fun w =>
    let w := if status &&& TCPC_ALERT_V_ALARM_LO ≠ 0 then
        let w := tcpci_write_reg8 TCPC_VBUS_VOLTAGE_ALARM_LO_CFG 0 w
        let r := tcpci_read_reg8 TCPC_POWER_CTRL w
        tcpci_write_reg8 TCPC_POWER_CTRL (r.1 &&& not8 TCPC_POWER_CTRL_FORCEDISCH) r.2
      else w
    let w := if status &&& TCPC_ALERT_FAULT ≠ 0 then
        let r := tcpci_read_reg8 TCPC_FAULT_STATUS w
        tcpci_write_reg8 TCPC_FAULT_STATUS (r.1 ||| TCPC_FAULT_STATUS_CLEAR) r.2
      else w
    Outcome.ok (emit Event.intr_enable w))

/-! ## Observables of a trace -/

/-- True for a write (8-bit, 16-bit or block) to the register reg. -/
def Event.isWriteTo (reg : Nat) : Event → Bool
  | Event.write8 r _ => r == reg
  | Event.write16 r _ => r == reg
  | Event.writeBlock r _ => r == reg
  | _ => false

/-- True for a write to one of the transmit registers TX_BYTE_CNT, TX_HDR,
TX_DATA, TRANSMIT. -/
def Event.isTxWrite (e : Event) : Bool :=
  e.isWriteTo TCPC_TX_BYTE_CNT || e.isWriteTo TCPC_TX_HDR || e.isWriteTo TCPC_TX_DATA ||
    e.isWriteTo TCPC_TRANSMIT

/-- The writes to the transmit registers in a trace, in order. -/
def tx_writes (t : List Event) : List Event := t.filter Event.isTxWrite

/-- Number of writes to TRANSMIT in a trace, i.e. of transmit attempts. -/
def transmit_count (t : List Event) : Nat := t.countP (Event.isWriteTo TCPC_TRANSMIT)

/-- Number of "TX success" console lines in a trace. -/
def success_count (t : List Event) : Nat := t.count (Event.printf LogLine.tx_success)

/-- The GPIO write tcpci_set_polarity makes, as a list of trace entries. -/
def gpio_events (sel : Option (List Nat)) (val : Nat) : List Event :=
  match sel with
  | some pin => [Event.gpio_set_pin pin val]
  | none => []

/-- The trace entries of one transmit attempt of tcpci_send_message_hw for the
message pd0 while the data role is role (what tcpci_tx_attempt appends). -/
def tx_frame_events (k : usbpd) (pd0 : pd_message) (role : typec_data_role) : List Event :=
  (tcpci_tx_attempt k pd0
    { sc := { sc_attached := 0, sc_try_data := role, sc_try_power := TYPEC_SINK,
              sc_data_role := role, sc_power_role := TYPEC_SINK, sc_message_id := 0,
              sc_source_pdos := none, sc_source_pdolen := 0, sc_sink_pdos := none,
              sc_sink_pdolen := 0, sc_pd_message := pd0, sc_ss_sel := none, sc_cc := 0,
              sc_vbus_det := 0 },
      input := [], trace := [] }).trace

/-- Trace of the polling passes that read an ALERT value without a
transmit-completion bit: the read and the delay of each pass. -/
def idle_events (idle : List Nat) : List Event :=
  idle.flatMap (fun r => [Event.read16 TCPC_ALERT (r % 65536), Event.delay (10 * 1000)])

/-- Trace of the polling pass that reads an ALERT value f with TX_DISCARDED or
TX_FAILED and without TX_SUCCESS; more tells whether retries remain. -/
def failure_events (f : Nat) (more : Bool) : List Event :=
  [Event.read16 TCPC_ALERT (f % 65536), Event.write16 TCPC_ALERT (alert_tx_bits f),
   Event.printf (if alert_tx_bits f &&& TCPC_ALERT_TX_DISCARDED ≠ 0 then LogLine.tx_discarded
                 else LogLine.tx_failed)] ++
  (if more then [Event.delay (10 * 1000)] else [])

/-- Trace of the polling pass that reads an ALERT value s with TX_SUCCESS. -/
def success_events (s : Nat) : List Event :=
  [Event.read16 TCPC_ALERT (s % 65536), Event.write16 TCPC_ALERT (alert_tx_bits s),
   Event.printf LogLine.tx_success]

/-- The softc after sc_message_id = (sc_message_id + 1) & PD_HEADER_ID_MASK. -/
def advance_message_id (k : usbpd) (sc : tcpci_softc) : tcpci_softc :=
  { sc with sc_message_id := (sc.sc_message_id + 1) &&& k.PD_HEADER_ID_MASK }

/-- True when the run of tcpci_send_message_hw on pd0 from w observes TX_SUCCESS
(it prints one more "TX success" line). -/
def tx_succeeded (k : usbpd) (pd0 : pd_message) (w : World) : Bool :=
  success_count (tcpci_send_message_hw k pd0 w).trace = success_count w.trace + 1

/-- Successive runs of tcpci_send_message_hw, one per message of the list. -/
def transmits (k : usbpd) : List pd_message → World → World
  | [], w => w
  | pd0 :: pds, w => transmits k pds (tcpci_send_message_hw k pd0 w)

/-- True when each of the successive runs observes TX_SUCCESS. -/
def all_succeeded (k : usbpd) : List pd_message → World → Bool
  | [], _ => true
  | pd0 :: pds, w => tx_succeeded k pd0 w && all_succeeded k pds (tcpci_send_message_hw k pd0 w)

/-! ## Constants of the absent header and sample inputs -/

/-- Modelled from the spec: the macro PD_HEADER_ID_MASK of dev/usb/usbpd.h, a header
that is not among the sources.  The spec describes the message-ID counter as a
"4-bit wraparound". -/
def PD_HEADER_ID_MASK_spec : Nat := 0xf

/-- A sample choice of the constants of dev/usb/usbpd.h, for running the driver
on concrete inputs: the header layout of a USB PD message, a payload limit of
7 words and the TCPCI frame types.  The general statements hold for every
choice; only their instances at concrete inputs use this one. -/
def usbpd0 : usbpd :=
  { PD_HEADER_TYPE_MASK := 0x1f, PD_HEADER_DATA_ROLE := 1 <<< 5,
    PD_HEADER_POWER_ROLE := 1 <<< 8, PD_HEADER_REV_SHIFT := 6, PD_HEADER_REV_MASK := 0x3,
    PD_HEADER_ID_SHIFT := 9, PD_HEADER_ID_MASK := 0x7,
    PD_HEADER_CNT_SHIFT := 12, PD_HEADER_CNT_MASK := 0x7, PD_HEADER_EXT := 1 <<< 15,
    PD_REV10 := 0, PD_REV20 := 1, PD_PAYLOAD_MAX_LEN := 7,
    PD_CTRL_ACCEPT := 3, PD_CTRL_REJECT := 4, PD_CTRL_PS_RDY := 6,
    PD_CTRL_GET_SOURCE_CAP := 7, PD_CTRL_GET_SINK_CAP := 8,
    PD_DATA_SOURCE_CAP := 1, PD_DATA_REQUEST := 2, PD_DATA_SINK_CAP := 4,
    PD_DATA_VENDOR_DEF := 15, TCPC_TX_SOP := 0, TCPC_TX_SOP_DEBUG_PRIME_PRIME := 4 }

/-- Modelled from the spec: the sample constants with the message-ID mask as the
spec describes the counter (4 bits); dev/usb/usbpd.h, which defines
PD_HEADER_ID_MASK, is not among the sources. -/
def usbpd_id4 : usbpd := { usbpd0 with PD_HEADER_ID_MASK := PD_HEADER_ID_MASK_spec }

/-- A sample data message: one payload word. -/
def pd_sample : pd_message := { header := 0x1042, payload := [0x11223344] }

/-- A sample driver context: nothing attached, previous CC byte 0, try-roles as
set by tcpci_attach (host, source), no GPIO and no PDO lists configured. -/
def sc0 : tcpci_softc :=
  { sc_attached := 0, sc_try_data := TYPEC_HOST, sc_try_power := TYPEC_SOURCE,
    sc_data_role := TYPEC_DEVICE, sc_power_role := TYPEC_SINK, sc_message_id := 0,
    sc_source_pdos := none, sc_source_pdolen := 0, sc_sink_pdos := none, sc_sink_pdolen := 0,
    sc_pd_message := { header := 0, payload := [] }, sc_ss_sel := none, sc_cc := 0,
    sc_vbus_det := 0 }

/-- The world of sc0 with the given coming register readings and an empty trace. -/
def world0 (input : List Nat) : World := { sc := sc0, input := input, trace := [] }

/-! ## Description of a run of the transmit loop -/

/-- How the last transmit attempt of a run of tcpci_send_message_hw ends: after
the ALERT readings without a completion bit (idle), either a reading with
TX_SUCCESS, or a reading with TX_DISCARDED or TX_FAILED when no retry is left,
or nothing more because all polling passes are used up. -/
inductive TxEnd where
  | success (idle : List Nat) (s : Nat)
  | exhausted (idle : List Nat) (f : Nat)
  | timeout (idle : List Nat)
  deriving DecidableEq, Repr

/-- The trace entries of the polling of the last attempt. -/
def TxEnd.events : TxEnd → List Event
  | TxEnd.success idle s => idle_events idle ++ success_events s
  | TxEnd.exhausted idle f => idle_events idle ++ failure_events f false
  | TxEnd.timeout idle => idle_events idle

/-- The number of ALERT readings the polling of the last attempt takes. -/
def TxEnd.reads : TxEnd → Nat
  | TxEnd.success idle _ => idle.length + 1
  | TxEnd.exhausted idle _ => idle.length + 1
  | TxEnd.timeout idle => idle.length

/-- The softc after the run: the message-ID is advanced exactly when the run
ends with TX_SUCCESS. -/
def TxEnd.sc (k : usbpd) (sc : tcpci_softc) : TxEnd → tcpci_softc
  | TxEnd.success _ _ => advance_message_id k sc
  | TxEnd.exhausted _ _ => sc
  | TxEnd.timeout _ => sc

/-- An ALERT reading answers an attempt with a failure: TX_DISCARDED or TX_FAILED
is set and TX_SUCCESS is not. -/
def tx_failure_reading (f : Nat) : Prop :=
  alert_tx_bits f &&& TCPC_ALERT_TX_SUCCESS = 0 ∧
  (alert_tx_bits f &&& TCPC_ALERT_TX_DISCARDED ≠ 0 ∨ alert_tx_bits f &&& TCPC_ALERT_TX_FAILED ≠ 0)

/-- Side conditions of an ending, for a polling loop of n passes (1000 in the
driver): fewer than n idle readings before a completion reading, exactly n
when the loop runs out. -/
def TxEnd.valid (n : Nat) : TxEnd → Prop
  | TxEnd.success idle s =>
      idle.length < n ∧ (∀ r ∈ idle, alert_tx_bits r = 0) ∧
      alert_tx_bits s &&& TCPC_ALERT_TX_SUCCESS ≠ 0
  | TxEnd.exhausted idle f =>
      idle.length < n ∧ (∀ r ∈ idle, alert_tx_bits r = 0) ∧ tx_failure_reading f
  | TxEnd.timeout idle => idle.length = n ∧ (∀ r ∈ idle, alert_tx_bits r = 0)

/-- True for the ending by exhausted retries. -/
def TxEnd.isExhausted : TxEnd → Bool
  | TxEnd.exhausted _ _ => true
  | _ => false

/-- True for the ending by TX_SUCCESS. -/
def TxEnd.isSuccess : TxEnd → Bool
  | TxEnd.success _ _ => true
  | _ => false

/-- The trace entries of a whole run: the failed attempts that were retried
(each: the frame, the idle polls, the failure, the backoff delay), then the
last attempt. -/
def run_events (frame : List Event) (fails : List (List Nat × Nat)) (e : TxEnd) : List Event :=
  fails.flatMap (fun a => frame ++ idle_events a.1 ++ failure_events a.2 true) ++
    (frame ++ e.events)

/-- The number of ALERT readings the retried attempts take. -/
def fails_reads (fails : List (List Nat × Nat)) : Nat :=
  (fails.map (fun a => a.1.length + 1)).sum

/-- True for the trace entries the polling loop produces: reads of ALERT, writes
to ALERT that leave the RX_STATUS bit alone, console lines and delays. -/
def Event.isPoll : Event → Bool
  | Event.read16 r _ => r == TCPC_ALERT
  | Event.write16 r v => r == TCPC_ALERT && (v &&& TCPC_ALERT_RX_STATUS == 0)
  | Event.printf _ => true
  | Event.delay _ => true
  | _ => false

/-- True for a write to ALERT that has the RX_STATUS bit set (a block write to
ALERT counts as one). -/
def Event.clearsRx : Event → Bool
  | Event.write8 r v => r == TCPC_ALERT && (v &&& TCPC_ALERT_RX_STATUS != 0)
  | Event.write16 r v => r == TCPC_ALERT && (v &&& TCPC_ALERT_RX_STATUS != 0)
  | Event.writeBlock r _ => r == TCPC_ALERT
  | _ => false

/-! ## The message the send path builds -/

/-- The header tcpci_send_message builds in its local pd from the message
type, the word count and the softc. -/
def sent_header (k : usbpd) (type nwords : Nat) (sc : tcpci_softc) : Nat :=
  let header := type % 65536
  let header := if sc.sc_data_role = TYPEC_HOST then
      (header ||| k.PD_HEADER_DATA_ROLE) % 65536 else header
  let header := if sc.sc_power_role = TYPEC_SOURCE then
      (header ||| k.PD_HEADER_POWER_ROLE) % 65536 else header
  let header := (header ||| (k.PD_REV20 <<< k.PD_HEADER_REV_SHIFT)) % 65536
  let header := (header ||| (sc.sc_message_id <<< k.PD_HEADER_ID_SHIFT)) % 65536
  (header ||| (nwords <<< k.PD_HEADER_CNT_SHIFT)) % 65536

/-- The message tcpci_send_message builds in its local pd and hands to
tcpci_send_message_hw. -/
def sent_message (k : usbpd) (type : Nat) (payload : List Nat) (nwords : Nat)
    (sc : tcpci_softc) : pd_message :=
  { header := sent_header k type nwords sc,
    payload := (List.range nwords).map (fun i => payload.getD i 0) }

/-- Between the worlds w and W exactly the message pd went out through the
transmit registers: the writes to them are n copies of its frame, one per
attempt, with 1 <= n <= 20; the softc holds pd as the last message and a
message-ID that is advanced or not. -/
def sends_one (k : usbpd) (pd : pd_message) (w W : World) : Prop :=
  ∃ (n : Nat) (t : List Event), 1 ≤ n ∧ n ≤ 20 ∧ W.trace = w.trace ++ t ∧
    tx_writes t = (List.replicate n (tx_frame_events k pd w.sc.sc_data_role)).flatten ∧
    (W.sc = { w.sc with sc_pd_message := pd } ∨
     W.sc = advance_message_id k { w.sc with sc_pd_message := pd })

/-- A sequence of calls tcpci_send_message(type, payload, nwords), each of which
returns and sends its message, leads from w to W. -/
def sends_seq (k : usbpd) : List (Nat × List Nat × Nat) → World → World → Prop
  | [], w, W => W = w
  | m :: rest, w, W =>
    ∃ W1, tcpci_send_message k m.1 m.2.1 m.2.2 w = Outcome.ok W1 ∧
      sends_one k (sent_message k m.1 m.2.1 m.2.2 w.sc) w W1 ∧ sends_seq k rest W1 W

/-- The value tcpci_send_message_hw writes to TRANSMIT for the message pd0 while
the data role is role: ftype | TCPC_TRANSMIT_RETRY_DEF, ftype being a uint8_t
that holds TCPC_TX_SOP_DEBUG_PRIME_PRIME for a vendor-defined data message sent
as host and TCPC_TX_SOP otherwise. -/
def transmit_value (k : usbpd) (pd0 : pd_message) (role : typec_data_role) : Nat :=
  (((if ((pd0.header >>> k.PD_HEADER_CNT_SHIFT) &&& k.PD_HEADER_CNT_MASK) % 65536 ≠ 0 ∧
         (pd0.header &&& k.PD_HEADER_TYPE_MASK) % 65536 = k.PD_DATA_VENDOR_DEF ∧
         role = TYPEC_HOST
      then k.TCPC_TX_SOP_DEBUG_PRIME_PRIME else k.TCPC_TX_SOP) % 256) |||
    TCPC_TRANSMIT_RETRY_DEF) % 256

/-- The case labels of the switch statements of tcpci_recv_ctrl and
tcpci_recv_data are pairwise distinct, as C requires of case labels. -/
def usbpd.labels_distinct (k : usbpd) : Prop :=
  [k.PD_CTRL_ACCEPT, k.PD_CTRL_REJECT, k.PD_CTRL_PS_RDY, k.PD_CTRL_GET_SOURCE_CAP,
    k.PD_CTRL_GET_SINK_CAP].Nodup ∧
  k.PD_DATA_SOURCE_CAP ≠ k.PD_DATA_REQUEST

/-- A sample driver context with a configured source PDO list of two words. -/
def sc_with_source_pdos : tcpci_softc :=
  { sc0 with sc_source_pdos := some [0x0801912c, 0x0002d12c], sc_source_pdolen := 8 }

/-! ## Description of the readout of a received frame -/

/-- The payload bytes that the block read of a frame of len payload bytes
returns: the readings that follow byte count, frame type and header. -/
def rx_block (w : World) (len : Nat) : List Nat :=
  (List.range len).map (fun i => (w.input.drop 3).getD i 0 % 256)

/-- The message that the readout of a frame of len payload bytes forms. -/
def rx_message (w : World) (len : Nat) : pd_message :=
  { header := w.input.getD 2 0 % 65536, payload := words_of_bytes (rx_block w len) len }

/-- The actions of the full readout of a frame of len payload bytes: the four
reads, the ALERT write that clears RX_STATUS, and the dump line. -/
def rx_readout_events (w : World) (len : Nat) : List Event :=
  [Event.read8 TCPC_RX_BYTE_CNT (w.input.headD 0 % 256),
   Event.read8 TCPC_RX_BUF_FRAME_TYPE (w.input.getD 1 0 % 256),
   Event.read16 TCPC_RX_HDR (w.input.getD 2 0 % 65536),
   Event.readBlock TCPC_RX_DATA (rx_block w len),
   Event.write16 TCPC_ALERT TCPC_ALERT_RX_STATUS,
   Event.printf LogLine.rx_dump] ++
  List.replicate (len / 4) (Event.printf LogLine.rx_dump_word) ++
  [Event.printf LogLine.rx_dump_end]

/-- The world after the full readout of a frame of len payload bytes. -/
def rx_readout (w : World) (len : Nat) : World :=
  { w with input := w.input.drop (3 + len), trace := w.trace ++ rx_readout_events w len }

/-! ## Layout of the PD header -/

/-- The fields of a PD header, each as the mask of the bits it occupies:
type, data role, power role, revision, message-ID, word count and the
extended flag. -/
def usbpd.header_fields (k : usbpd) : List Nat :=
  [k.PD_HEADER_TYPE_MASK, k.PD_HEADER_DATA_ROLE, k.PD_HEADER_POWER_ROLE,
   k.PD_HEADER_REV_MASK <<< k.PD_HEADER_REV_SHIFT,
   k.PD_HEADER_ID_MASK <<< k.PD_HEADER_ID_SHIFT,
   k.PD_HEADER_CNT_MASK <<< k.PD_HEADER_CNT_SHIFT, k.PD_HEADER_EXT]

/-- The header constants describe a layout: the fields lie within the 16 bits
of the header and no two of them share a bit, the two role flags are not
empty, and PD_REV20 fits the revision field. -/
def usbpd.layout (k : usbpd) : Prop :=
  k.header_fields.Pairwise (fun a b => a &&& b = 0) ∧
  (∀ a ∈ k.header_fields, a < 65536) ∧
  k.PD_HEADER_DATA_ROLE ≠ 0 ∧ k.PD_HEADER_POWER_ROLE ≠ 0 ∧
  k.PD_REV20 &&& k.PD_HEADER_REV_MASK = k.PD_REV20

/-- The header of the normal form: the six parts tcpci_send_message or-s
together, without the truncations to 16 bits. -/
def header_parts (k : usbpd) (type nwords : Nat) (sc : tcpci_softc) : Nat :=
  type ||| (if sc.sc_data_role = TYPEC_HOST then k.PD_HEADER_DATA_ROLE else 0) |||
    (if sc.sc_power_role = TYPEC_SOURCE then k.PD_HEADER_POWER_ROLE else 0) |||
    (k.PD_REV20 <<< k.PD_HEADER_REV_SHIFT) |||
    (sc.sc_message_id <<< k.PD_HEADER_ID_SHIFT) |||
    (nwords <<< k.PD_HEADER_CNT_SHIFT)

/-! ## The alert dispatch in the words of the specification -/

/-- The statements of tcpci_task guarded by TCPC_ALERT_V_ALARM_LO. -/
def task_alarm_lo (w : World) : World :=
  let w := tcpci_write_reg8 TCPC_VBUS_VOLTAGE_ALARM_LO_CFG 0 w
  let r := tcpci_read_reg8 TCPC_POWER_CTRL w
  tcpci_write_reg8 TCPC_POWER_CTRL (r.1 &&& not8 TCPC_POWER_CTRL_FORCEDISCH) r.2

/-- The statement of tcpci_task guarded by TCPC_ALERT_FAULT. -/
def task_fault (w : World) : World :=
  let r := tcpci_read_reg8 TCPC_FAULT_STATUS w
  tcpci_write_reg8 TCPC_FAULT_STATUS (r.1 ||| TCPC_FAULT_STATUS_CLEAR) r.2

/-- The world after the entry of tcpci_task: ALERT has been read and, when a bit
other than RX_STATUS is set in the reading, written back without RX_STATUS. -/
def task_entry (w : World) : World :=
  { w with
    input := w.input.tail,
    trace := w.trace ++ [Event.read16 TCPC_ALERT (w.input.headD 0 % 65536)] ++
      (if (w.input.headD 0 % 65536) &&& not16 TCPC_ALERT_RX_STATUS ≠ 0 then
         [Event.write16 TCPC_ALERT ((w.input.headD 0 % 65536) &&& not16 TCPC_ALERT_RX_STATUS)]
       else []) }

/-- The sub-handlers of the alert task with the ALERT bit of each, in the order
the specification gives: CC status, power status, RX status, low-voltage
alarm, fault. -/
def alert_handlers (k : usbpd) : List (Nat × (World → Outcome)) :=
  [(TCPC_ALERT_CC_STATUS, tcpci_cc_change),
   (TCPC_ALERT_POWER_STATUS, tcpci_power_change k),
   (TCPC_ALERT_RX_STATUS, tcpci_rx_change k),
   (TCPC_ALERT_V_ALARM_LO, fun w => Outcome.ok (task_alarm_lo w)),
   (TCPC_ALERT_FAULT, fun w => Outcome.ok (task_fault w))]

/-- Run the handlers of a list in order, each one exactly when its bit is set
in status; a panic stops the run. -/
def run_handlers (status : Nat) : List (Nat × (World → Outcome)) → World → Outcome
  | [], w => Outcome.ok w
  | h :: rest, w =>
    (if status &&& h.1 ≠ 0 then h.2 w else Outcome.ok w).andThen (run_handlers status rest)

/-- The alert task as the specification words it: read ALERT and clear the
pending bits other than RX_STATUS, run the sub-handlers in their fixed order,
each if and only if its bit is set in the status read, then enable the
interrupt. -/
def tcpci_task_dispatch (k : usbpd) (w : World) : Outcome :=
  (run_handlers (w.input.headD 0 % 65536) (alert_handlers k) (task_entry w)).andThen
    (fun w => Outcome.ok (emit Event.intr_enable w))

/-! ## Extensions of a trace -/

/-- The run from w to W only added actions that satisfy P to the trace. -/
def ext (P : Event → Prop) (w W : World) : Prop :=
  ∃ t, W.trace = w.trace ++ t ∧ ∀ e ∈ t, P e

/-- An action that neither clears RX_STATUS in ALERT nor enables the
interrupt. -/
def Event.isQuiet (e : Event) : Prop := e.clearsRx = false ∧ e ≠ Event.intr_enable

/-- The run from w to W neither cleared RX_STATUS nor enabled the interrupt. -/
def quiet (w W : World) : Prop := ext Event.isQuiet w W

/-! ## Parts of a run of the alert task -/

/-- The four reads of the full readout of a frame of len payload bytes: byte
count, frame type, header and payload block. -/
def rx_reads (w : World) (len : Nat) : List Event :=
  [Event.read8 TCPC_RX_BYTE_CNT (w.input.headD 0 % 256),
   Event.read8 TCPC_RX_BUF_FRAME_TYPE (w.input.getD 1 0 % 256),
   Event.read16 TCPC_RX_HDR (w.input.getD 2 0 % 65536),
   Event.readBlock TCPC_RX_DATA (rx_block w len)]

/-- The actions of tcpci_rx_change, entered in the world w, that come before its
write to ALERT: the byte-count read and the rejection line for a short frame;
the reads of byte count, frame type and header and the rejection line for an
oversized frame; the four reads of the full readout otherwise. -/
def rx_before_clear (k : usbpd) (w : World) : List Event :=
  if w.input.headD 0 % 256 < 3 then
    [Event.read8 TCPC_RX_BYTE_CNT (w.input.headD 0 % 256),
     Event.printf LogLine.short_message]
  else if w.input.headD 0 % 256 - 3 > 4 * k.PD_PAYLOAD_MAX_LEN then
    [Event.read8 TCPC_RX_BYTE_CNT (w.input.headD 0 % 256),
     Event.read8 TCPC_RX_BUF_FRAME_TYPE (w.input.getD 1 0 % 256),
     Event.read16 TCPC_RX_HDR (w.input.getD 2 0 % 65536),
     Event.printf LogLine.extended_payload]
  else rx_reads w (w.input.headD 0 % 256 - 3)

/-- The part of tcpci_task that comes before the test of RX_STATUS: the entry
and the handlers of CC_STATUS and POWER_STATUS. -/
def task_pre (k : usbpd) (w : World) : Outcome :=
  (if (w.input.headD 0 % 65536) &&& TCPC_ALERT_CC_STATUS ≠ 0 then
      tcpci_cc_change (task_entry w)
    else Outcome.ok (task_entry w)).andThen
    (fun w1 => if (w.input.headD 0 % 65536) &&& TCPC_ALERT_POWER_STATUS ≠ 0 then
      tcpci_power_change k w1 else Outcome.ok w1)

/-- The part of tcpci_task that comes after the call of tcpci_rx_change: the
statements guarded by V_ALARM_LO and FAULT, and fdt_intr_enable. -/
def task_tail (status : Nat) (w : World) : World :=
  emit Event.intr_enable
    (if status &&& TCPC_ALERT_FAULT ≠ 0 then
      task_fault (if status &&& TCPC_ALERT_V_ALARM_LO ≠ 0 then task_alarm_lo w else w)
     else (if status &&& TCPC_ALERT_V_ALARM_LO ≠ 0 then task_alarm_lo w else w))

/-! ## The branch chain of tcpci_cc_change as a classification -/

/-- The branches of the if / else-if chain of tcpci_cc_change (the final else,
the panic, is the absence of a branch). -/
inductive cc_class where
  | detached
  | source
  | sink
  | audio_detached
  deriving DecidableEq, Repr

/-- The guards of the chain of tcpci_cc_change, each with the branch it
selects, in the order of the source. -/
def cc_guards (cc1 cc2 : typec_cc_status) : List (Bool × cc_class) :=
  [(decide (cc1 = TYPEC_CC_OPEN ∧ cc2 = TYPEC_CC_OPEN), cc_class.detached),
   (tcpci_cc_is_source cc1 cc2, cc_class.source),
   (tcpci_cc_is_sink cc1 cc2, cc_class.sink),
   (tcpci_cc_is_audio_detached cc1 cc2, cc_class.audio_detached)]

/-- The branch an if / else-if chain takes: that of the first guard that
holds, none when the chain falls into its final else. -/
def first_match (l : List (Bool × cc_class)) : Option cc_class :=
  (l.find? (fun g => g.1)).map (fun g => g.2)

/-- The bodies of the branches of tcpci_cc_change, up to (not including) the
final sc->sc_cc = cc; the final else is the panic. -/
def cc_branch_body (cc1 cc2 : typec_cc_status) : Option cc_class → World → Outcome
  | some cc_class.detached, w =>
    let w := tcpci_write_reg8 TCPC_RX_DETECT 0 w
    let w := tcpci_set_vbus 0 0 w
    let r := tcpci_read_reg8 TCPC_POWER_CTRL w
    let w := tcpci_write_reg8 TCPC_POWER_CTRL (r.1 &&& not8 TCPC_POWER_CTRL_VCONN_ENABLE) r.2
    let w := tcpci_set_polarity TYPEC_POLARITY_CC1 w
    let w := if w.sc.sc_try_data = TYPEC_HOST then
        tcpci_write_reg8 TCPC_ROLE_CTRL (TCPC_ROLE_CTRL_DRP ||| 0xa) w
      else
        tcpci_write_reg8 TCPC_ROLE_CTRL (TCPC_ROLE_CTRL_DRP ||| 0x5) w
    let w := tcpci_write_reg8 TCPC_COMMAND TCPC_COMMAND_LOOK4CONNECTION w
    Outcome.ok (set_attached 0 w)
  | some cc_class.source, w =>
    let w := set_message_id 0 w
    let w := if cc1 = TYPEC_CC_RD then tcpci_set_polarity TYPEC_POLARITY_CC1 w
      else tcpci_set_polarity TYPEC_POLARITY_CC2 w
    let w := tcpci_set_roles TYPEC_HOST TYPEC_SOURCE w
    let w := tcpci_write_reg8 TCPC_RX_DETECT rx_detect_all w
    let w := if (cc1 = TYPEC_CC_RD ∧ cc2 = TYPEC_CC_RA) ∨ (cc2 = TYPEC_CC_RD ∧ cc1 = TYPEC_CC_RA) then
        let r := tcpci_read_reg8 TCPC_POWER_CTRL w
        tcpci_write_reg8 TCPC_POWER_CTRL (r.1 ||| TCPC_POWER_CTRL_VCONN_ENABLE) r.2
      else w
    let w := tcpci_set_vbus 1 0 w
    Outcome.ok (set_attached 1 w)
  | some cc_class.sink, w =>
    let w := set_message_id 0 w
    let w := if cc1 ≠ TYPEC_CC_OPEN then
        let w := tcpci_set_polarity TYPEC_POLARITY_CC1 w
        tcpci_write_reg8 TCPC_ROLE_CTRL
          (TCPC_ROLE_CTRL_CC_RD <<< TCPC_ROLE_CTRL_CC1_SHIFT |||
           TCPC_ROLE_CTRL_CC_OPEN <<< TCPC_ROLE_CTRL_CC2_SHIFT) w
      else
        let w := tcpci_set_polarity TYPEC_POLARITY_CC2 w
        tcpci_write_reg8 TCPC_ROLE_CTRL
          (TCPC_ROLE_CTRL_CC_OPEN <<< TCPC_ROLE_CTRL_CC1_SHIFT |||
           TCPC_ROLE_CTRL_CC_RD <<< TCPC_ROLE_CTRL_CC2_SHIFT) w
    let w := tcpci_set_roles TYPEC_DEVICE TYPEC_SINK w
    let w := tcpci_write_reg8 TCPC_RX_DETECT rx_detect_all w
    let w := tcpci_set_vbus 0 0 w
    Outcome.ok (set_attached 1 w)
  | some cc_class.audio_detached, w => Outcome.ok w
  | none, w => Outcome.panic w

/-- The five classification predicates on a pair of pin states: both open and
the four classifiers of tcpci.c. -/
def cc_predicates (cc1 cc2 : typec_cc_status) : List Bool :=
  [decide (cc1 = TYPEC_CC_OPEN ∧ cc2 = TYPEC_CC_OPEN), tcpci_cc_is_source cc1 cc2,
   tcpci_cc_is_sink cc1 cc2, tcpci_cc_is_audio cc1 cc2, tcpci_cc_is_audio_detached cc1 cc2]

/-! ## Runs that differ in the trace they start from -/

/-- The world w with the actions pre put in front of its trace. -/
def World.shift (pre : List Event) (w : World) : World :=
  { w with trace := pre ++ w.trace }

/-- The result of a run with the actions pre put in front of its trace. -/
def Outcome.shift (pre : List Event) : Outcome → Outcome
  | Outcome.ok w => Outcome.ok (w.shift pre)
  | Outcome.panic w => Outcome.panic (w.shift pre)

/-! ## Polls of ALERT in a trace -/

/-- True for a 16-bit read of ALERT. -/
def Event.isAlertRead : Event → Bool
  | Event.read16 r _ => r == TCPC_ALERT
  | _ => false

/-- Number of reads of ALERT in a trace, i.e. of polls. -/
def alert_polls (t : List Event) : Nat := t.countP Event.isAlertRead

/-! ## lib/libc/arch/vax/gdtoa/hdtoa.c

The headers float.h, math.h, machine/vaxfp.h and gdtoaimp.h are not among the
sources.  Their constants, the classification macro and the allocator are
parameters; the bit-fields of struct vax_d_floating are the fields the code
names.  A char holds a byte; the buffer is a list of bytes and an access
outside it ends the run with a fault. -/

/-- The classes fpclassify tells apart in the switch of __hdtoa. -/
inductive fp_class where
  | FP_NORMAL
  | FP_ZERO
  | FP_OTHER
  deriving DecidableEq, Repr

/-- The fields of struct vax_d_floating (machine/vaxfp.h) that __hdtoa reads. -/
structure vax_d_floating where
  dflt_frach : Nat
  dflt_exp : Nat
  dflt_sign : Nat
  dflt_fracm : Nat
  dflt_fracl : Nat
  deriving DecidableEq, Repr

/-- What hdtoa.c takes from the headers that are not among the sources:
DBL_MANT_DIG, DBL_MAX_EXP and FLT_ROUNDS (float.h), DFLT_FRACLBITS
(machine/vaxfp.h) and fpclassify (math.h). -/
structure vaxfp where
  DBL_MANT_DIG : Int
  DBL_MAX_EXP : Int
  FLT_ROUNDS : Int
  DFLT_FRACLBITS : Int
  fpclassify : vax_d_floating → fp_class

/-- The macro DBL_ADJ: DBL_MAX_EXP - 2 + ((DBL_MANT_DIG - 1) % 4), with the
remainder of C (truncated division). -/
def DBL_ADJ (k : vaxfp) : Int :=
  k.DBL_MAX_EXP - 2 + Int.tmod (k.DBL_MANT_DIG - 1) 4

/-- A store *p = v through a char pointer at offset i of the buffer; none when
the offset is outside the buffer. -/
def store (b : List Nat) (i : Nat) (v : Nat) : Option (List Nat) :=
  if i < b.length then some (b.set i (v % 256)) else none

/-- The loop of roundup with s at offset s of the buffer:
for (...; *s == 0xf; s--) followed by ++*s. -/
def roundup_at : Nat → List Nat → Option (List Nat × Nat)
  | 0, b =>
    match b[0]? with
    | none => none
    | some v =>
      if v = 0xf then (store b 0 1).map (fun b => (b, 1))
      else (store b 0 (v + 1)).map (fun b => (b, 0))
  | s + 1, b =>
    match b[s + 1]? with
    | none => none
    | some v =>
      if v = 0xf then (store b (s + 1) 0).bind (roundup_at s)
      else (store b (s + 1) (v + 1)).map (fun b => (b, 0))

/-- static int roundup(char *s0, int ndigits): the buffer after the call and the
value returned.  For ndigits = 0 the first read is at s0 - 1, outside the
buffer. -/
def roundup (s0 : List Nat) (ndigits : Nat) : Option (List Nat × Nat) :=
  match ndigits with
  | 0 => none
  | n + 1 => roundup_at n s0

/-- The value of a char of the buffer in a comparison: char is signed on the
VAX, so a byte above 0x7f is a negative number. -/
def char_val (v : Nat) : Int :=
  if v % 256 < 128 then ((v % 256 : Nat) : Int) else ((v % 256 : Nat) : Int) - 256

/-- static void dorounding(char *s0, int ndigits, int sign, int *decpt): the
buffer and *decpt after the call.  The comparisons of s0[ndigits] with 8 are
made on the signed value of the char. -/
def dorounding (k : vaxfp) (s0 : List Nat) (ndigits : Nat) (sign : Nat) (decpt : Int) :
    Option (List Nat × Int) :=
  let adjust : Option (List Nat × Nat) :=
    if k.FLT_ROUNDS = 1 then
      match s0[ndigits]? with
      | none => none
      | some v =>
        if char_val v > 8 then roundup s0 ndigits
        else if char_val v = 8 then
          match s0[ndigits + 1]? with
          | none => none
          | some v1 => if v1 &&& 1 ≠ 0 then roundup s0 ndigits else some (s0, 0)
        else some (s0, 0)
    else if k.FLT_ROUNDS = 2 then
      if sign = 0 then roundup s0 ndigits else some (s0, 0)
    else if k.FLT_ROUNDS = 3 then
      if sign ≠ 0 then roundup s0 ndigits else some (s0, 0)
    else some (s0, 0)
  adjust.map (fun r => (r.1, if r.2 ≠ 0 then decpt + 4 else decpt))

/-- The first fill loop of __hdtoa, with s at offset s:
for (...; s > s0 + sigfigs - 1; s--) *s = 0.  The result is the buffer and the
offset of s after the loop; none when an access leaves the buffer (with
sigfigs < 1 the loop would take s below s0). -/
def fill_pad (sigfigs : Int) : Nat → List Nat → Option (List Nat × Nat)
  | 0, b => if (0 : Int) > sigfigs - 1 then none else some (b, 0)
  | s + 1, b =>
    if ((s + 1 : Nat) : Int) > sigfigs - 1 then (store b (s + 1) 0).bind (fill_pad sigfigs s)
    else some (b, s + 1)

/-- The second fill loop of __hdtoa:
for (; s > s0 + sigfigs - (DFLT_FRACLBITS / 4) - 1 && s > s0; s--), which stores
the low nibble of dflt_fracl and shifts the field right by 4.  The result is
the buffer, the offset of s and the field after the loop. -/
def fill_fracl (bound : Int) : Nat → List Nat → Nat → Option (List Nat × Nat × Nat)
  | 0, b, f => some (b, 0, f)
  | s + 1, b, f =>
    if ((s + 1 : Nat) : Int) > bound then
      (store b (s + 1) (f &&& 0xf)).bind (fun b => fill_fracl bound s b (f >>> 4))
    else some (b, s + 1, f)

/-- The third and the fourth fill loop of __hdtoa, both of the form
for (; s > s0; s--) { *s = field & 0xf; field >>= 4; }.  The result is the
buffer, the offset of s and the field after the loop. -/
def fill_down : Nat → List Nat → Nat → Option (List Nat × Nat × Nat)
  | 0, b, f => some (b, 0, f)
  | s + 1, b, f =>
    (store b (s + 1) (f &&& 0xf)).bind (fun b => fill_down s b (f >>> 4))

/-- The fill phase of __hdtoa (from the first fill loop to the store of the
leading nibble) on a buffer of bufsize digits: the buffer after it. -/
def hdtoa_fill (k : vaxfp) (d : vax_d_floating) (bufsize : Int) (s0 : List Nat) :
    Option (List Nat) :=
  let sigfigs := (k.DBL_MANT_DIG + 3).tdiv 4
  if bufsize - 1 < 0 then none
  else
    (fill_pad sigfigs (bufsize - 1).toNat s0).bind (fun r1 =>
    (fill_fracl (sigfigs - k.DFLT_FRACLBITS.tdiv 4 - 1) r1.2 r1.1 d.dflt_fracl).bind (fun r2 =>
    (fill_down r2.2.1 r2.1 d.dflt_fracm).bind (fun r3 =>
    (fill_down r3.2.1 r3.1 d.dflt_frach).bind (fun r4 =>
    store r4.1 r4.2.1
      (r4.2.2 ||| (1 <<< (Int.tmod (k.DBL_MANT_DIG - 1) 4).toNat))))))

/-- The auto-size loop of __hdtoa:
for (ndigits = sigfigs; s0[ndigits - 1] == 0; ndigits--), entered with the
given value of ndigits; the value of ndigits after it. -/
def hdtoa_autosize (s0 : List Nat) : Nat → Option Nat
  | 0 => none
  | n + 1 =>
    match s0[n]? with
    | none => none
    | some v => if v = 0 then hdtoa_autosize s0 n else some (n + 1)

/-- The final loop of __hdtoa, for (; s >= s0; s--) *s = xdigs[(unsigned int)*s],
with n positions left to convert; none when a lookup is outside xdigs. -/
def hdtoa_convert (xdigs : List Nat) : Nat → List Nat → Option (List Nat)
  | 0, b => some b
  | n + 1, b =>
    match b[n]? with
    | none => none
    | some v =>
      match xdigs[v]? with
      | none => none
      | some c => (store b n c).bind (hdtoa_convert xdigs n)

/-- How a call of __hdtoa ends. -/
inductive hdtoa_result where
  | abort
  | null
  | fault
  | zero (decpt : Int) (sign : Nat)
  | ok (s0 : List Nat) (rve : Nat) (decpt : Int) (sign : Nat)
  deriving DecidableEq, Repr

/-- Result of a step that may leave the buffer. -/
def hdtoa_result.ofOption : Option hdtoa_result → hdtoa_result
  | some r => r
  | none => hdtoa_result.fault

/-- The function __hdtoa(d, xdigs, ndigits, decpt, sign, rve).  rv_alloc is the
allocator of gdtoaimp.h: the block it returns for a size, with the bytes that
happen to be in it, or none for NULL.  The results: abort() was called; NULL
was returned; an access left the buffer or xdigs; nrv_alloc("0", rve, 1) was
returned with the given *decpt and *sign; or the buffer s0 was returned, with
the terminating NUL at offset rve and the given *decpt and *sign. -/
def __hdtoa (k : vaxfp) (rv_alloc : Int → Option (List Nat)) (d : vax_d_floating)
    (xdigs : List Nat) (ndigits : Int) : hdtoa_result :=
  let sigfigs := (k.DBL_MANT_DIG + 3).tdiv 4
  let sign := d.dflt_sign
  match k.fpclassify d with
  | fp_class.FP_OTHER => hdtoa_result.abort
  | fp_class.FP_ZERO => hdtoa_result.zero 1 sign
  | fp_class.FP_NORMAL =>
    let decpt := (d.dflt_exp : Int) - DBL_ADJ k
    let ndigits := if ndigits = 0 then 1 else ndigits
    let bufsize := if sigfigs > ndigits then sigfigs else ndigits
    match rv_alloc bufsize with
    | none => hdtoa_result.null
    | some s0 =>
      hdtoa_result.ofOption (
        (hdtoa_fill k d bufsize s0).bind (fun s0 =>
        (if ndigits < 0 then hdtoa_autosize s0 sigfigs.toNat else some ndigits.toNat).bind
          (fun ndigits =>
        (if sigfigs > (ndigits : Int) ∧ s0[ndigits]? ≠ some 0 then
            match s0[ndigits]? with
            | none => none
            | some _ => dorounding k s0 ndigits sign decpt
          else some (s0, decpt)).bind (fun r =>
        (store r.1 ndigits 0).bind (fun s0 =>
        (hdtoa_convert xdigs ndigits s0).map (fun s0 =>
          hdtoa_result.ok s0 ndigits r.2 sign))))))

/-- The header constants of the VAX D_floating format, for running __hdtoa on
concrete inputs: 56 significand bits, of which dflt_fracl holds the low 32,
a largest exponent of 127, rounding to nearest; a value with exponent field 0
is zero (or, with the sign bit set, a reserved operand). -/
def vax0 : vaxfp :=
  { DBL_MANT_DIG := 56, DBL_MAX_EXP := 127, FLT_ROUNDS := 1, DFLT_FRACLBITS := 32,
    fpclassify := fun d =>
      if d.dflt_exp = 0 then (if d.dflt_sign = 0 then fp_class.FP_ZERO else fp_class.FP_OTHER)
      else fp_class.FP_NORMAL }

/-- A sample allocator: a block of one byte more than asked for, filled with
the byte 0xaa. -/
def rv_alloc0 (n : Int) : Option (List Nat) := some (List.replicate (n.toNat + 1) 0xaa)

/-- The array "0123456789abcdef" with its terminating NUL. -/
def xdigs_lower : List Nat :=
  [0x30, 0x31, 0x32, 0x33, 0x34, 0x35, 0x36, 0x37, 0x38, 0x39,
   0x61, 0x62, 0x63, 0x64, 0x65, 0x66, 0]

/-- The value of a digit string read as a hexadecimal number. -/
def hexval (ds : List Nat) : Nat := ds.foldl (fun a x => 16 * a + x) 0

/-- The 56-bit significand of a D_floating value: the implicit normalization
bit followed by the fraction bits of dflt_frach (7 bits), dflt_fracm (16 bits)
and dflt_fracl (32 bits), in order of significance. -/
def significand (d : vax_d_floating) : Nat :=
  2 ^ 55 + d.dflt_frach * 2 ^ 48 + d.dflt_fracm * 2 ^ 32 + d.dflt_fracl

/-- A D_floating value with fraction 0x01 0000 00000000: significand
0x81000000000000. -/
def d_frach_1 : vax_d_floating :=
  { dflt_frach := 1, dflt_exp := 129, dflt_sign := 0, dflt_fracm := 0, dflt_fracl := 0 }

/-- A D_floating value with fraction 0x10 0000 00000000: significand
0x90000000000000. -/
def d_frach_16 : vax_d_floating :=
  { dflt_frach := 0x10, dflt_exp := 129, dflt_sign := 0, dflt_fracm := 0, dflt_fracl := 0 }

/-- A D_floating value with fraction 0x00 8200 00000000: significand
0x80820000000000. -/
def d_above_half : vax_d_floating :=
  { dflt_frach := 0, dflt_exp := 129, dflt_sign := 0, dflt_fracm := 0x8200, dflt_fracl := 0 }

/-- A D_floating value with fraction 0x00 1800 00000000: significand
0x80180000000000. -/
def d_half_odd : vax_d_floating :=
  { dflt_frach := 0, dflt_exp := 129, dflt_sign := 0, dflt_fracm := 0x1800, dflt_fracl := 0 }

/-! ## Memory-mapped devices (apldwusb.c, aplpmgr.c, aplintc.c)

The drivers reach their device through bus_space_read_4 and
bus_space_write_4.  As for the Type-C controller, the values the device
returns come from a stream of coming readings and every action is recorded
in a trace. -/

/-- The device-tree actions of aplpmgr.c. -/
inductive pmgr_action where
  | pre_up
  | post_up
  | pre_down
  | post_down
  deriving DecidableEq, Repr

/-- The printf call sites of apldwusb.c, aplpmgr.c and aplintc_attach. -/
inductive BusLine where
  | utmi_timeout
  | pipe_phy_timeout
  | unknown_range
  | enable_timeout
  | disable_timeout
  | invalid_action (action : pmgr_action)
  | nirq (n : Nat)
  deriving DecidableEq, Repr

/-- One observable action of a driver of a memory-mapped device; ioh tells the
bus_space handle apart (for aplpmgr.c the index into sc_ioh). -/
inductive BusEvent where
  | read4 (ioh off val : Nat)
  | write4 (ioh off val : Nat)
  | delay (usecs : Nat)
  | printf (line : BusLine)
  | clock_enable_all
  | membar_sync
  deriving DecidableEq, Repr

/-- The values the device returns to the coming reads (a read past the end of
the stream yields 0) and the trace of actions so far, oldest first. -/
structure Bus where
  input : List Nat
  trace : List BusEvent
  deriving DecidableEq, Repr

/-- Result of a run that may hit panic(). -/
inductive BusOutcome where
  | ok (w : Bus)
  | panic (w : Bus)
  deriving DecidableEq, Repr

/-- The world a run ended in. -/
def BusOutcome.world : BusOutcome → Bus
  | BusOutcome.ok w => w
  | BusOutcome.panic w => w

/-- Append one action to the trace. -/
def Bus.emit (e : BusEvent) (w : Bus) : Bus := { w with trace := w.trace ++ [e] }

/-- uint32_t bus_space_read_4(iot, ioh, off). -/
def bus_space_read_4 (ioh off : Nat) (w : Bus) : Nat × Bus :=
  (w.input.headD 0 % 4294967296,
   { input := w.input.tail,
     trace := w.trace ++ [BusEvent.read4 ioh off (w.input.headD 0 % 4294967296)] })

/-- void bus_space_write_4(iot, ioh, off, val): val is a uint32_t. -/
def bus_space_write_4 (ioh off val : Nat) (w : Bus) : Bus :=
  w.emit (BusEvent.write4 ioh off (val % 4294967296))

/-- Complement of a 32-bit mask, as applied to a uint32_t operand. -/
def not32 (m : Nat) : Nat := 0xffffffff ^^^ (m % 4294967296)

/-- A device-tree property as OF_getproplen and OF_getpropintarray report it:
the length in bytes (negative when the property is absent) and the cells. -/
structure fdt_prop where
  len : Int
  seq : List Nat
  deriving DecidableEq, Repr

/-! ### aplintc.c -/

@[simp] abbrev AIC_INFO : Nat := 0x0004

/-- The macro IRQ_TO_REG32(i). -/
def IRQ_TO_REG32 (i : Nat) : Nat := (i >>> 5) &&& 0x7

/-- The macro AIC_IRQ_AFFINITY(i). -/
def AIC_IRQ_AFFINITY (i : Nat) : Nat := 0x3000 + i * 4

/-- The macro AIC_IRQ_CLEAR(i). -/
def AIC_IRQ_CLEAR (i : Nat) : Nat := 0x4080 + IRQ_TO_REG32 i * 4

/-- The macro AIC_IRQ_DISABLE(i). -/
def AIC_IRQ_DISABLE (i : Nat) : Nat := 0x4100 + IRQ_TO_REG32 i * 4

/-- The macro AIC_IRQ_ENABLE(i). -/
def AIC_IRQ_ENABLE (i : Nat) : Nat := 0x4180 + IRQ_TO_REG32 i * 4

/-- The macro IRQ_TO_REG32BIT(i). -/
def IRQ_TO_REG32BIT (i : Nat) : Nat := i &&& 0x1f

@[simp] abbrev AIC_NUM_FIQ : Nat := 2
@[simp] abbrev AIC_NUM_IPI : Nat := 2

/-- What aplintc.c takes from headers that are not among the sources: the
interrupt priority levels and flags of machine/intr.h (non-negative ints), the
macro roundup of sys/param.h, and whether the kernel is built with the option
MULTIPROCESSOR. -/
structure aplintc_env where
  IPL_NONE : Nat
  IPL_HIGH : Nat
  IPL_IPI : Nat
  IPL_MPSAFE : Nat
  IPL_IRQMASK : Nat
  NIPL : Nat
  roundup : Nat → Nat → Nat
  MULTIPROCESSOR : Bool

/-- The part of struct intrq that aplintc.c reads: of each handler on iq_list
its ih_ipl, in list order; iq_ci (none for a null pointer, else the number of
the CPU); iq_irq_max and iq_irq_min. -/
structure intrq where
  iq_list : List Nat
  iq_ci : Option Nat
  iq_irq_max : Nat
  iq_irq_min : Nat
  deriving DecidableEq, Repr

/-- The part of struct aplintc_softc that decides the register accesses:
sc_imask is the array of roundup(sc_hwnintr, 32) / 32 words for each of the
NIPL levels, level after level. -/
structure aplintc_softc where
  sc_nintr : Nat
  sc_hwnintr : Nat
  sc_handler : List intrq
  sc_imask : List Nat
  deriving DecidableEq, Repr

/-- The state the functions of aplintc.c work on: the softc aplintc_sc, the
level curcpu()->ci_cpl and the device.  The interrupt flags of the CPU
(disable_interrupts, enable_interrupts, restore_interrupts, __isb) are not
recorded. -/
structure aplintc_world where
  sc : aplintc_softc
  ci_cpl : Nat
  bus : Bus
  deriving DecidableEq, Repr

/-- void aplintc_setipl(int ipl): ci_cpl = ipl, then for every word i below
roundup(sc_hwnintr, 32) / 32 the writes of ~imask[i] to AIC_IRQ_DISABLE(i * 32)
and of imask[i] to AIC_IRQ_ENABLE(i * 32), imask being the words of level ipl. -/
def aplintc_setipl (k : aplintc_env) (ipl : Nat) (s : aplintc_world) : aplintc_world :=
  let words := k.roundup s.sc.sc_hwnintr 32 / 32
  let imask := fun i => s.sc.sc_imask.getD (ipl * words + i) 0
  let bus := (List.range words).foldl (fun w i =>
    let w := bus_space_write_4 0 (AIC_IRQ_DISABLE (i * 32)) (not32 (imask i)) w
    bus_space_write_4 0 (AIC_IRQ_ENABLE (i * 32)) (imask i) w) s.bus
  { s with ci_cpl := ipl, bus := bus }

/-- void aplintc_intr_enable(sc, irq, ipl). -/
def aplintc_intr_enable (k : aplintc_env) (irq ipl : Nat) (sc : aplintc_softc) :
    aplintc_softc :=
  if irq ≥ sc.sc_hwnintr then sc
  else
    let idx := ipl * (k.roundup sc.sc_hwnintr 32 / 32) + IRQ_TO_REG32 irq
    let word := (sc.sc_imask.getD idx 0 ||| (1 <<< IRQ_TO_REG32BIT irq)) % 4294967296
    { sc with sc_imask := sc.sc_imask.set idx word }

/-- void aplintc_intr_disable(sc, irq, ipl). -/
def aplintc_intr_disable (k : aplintc_env) (irq ipl : Nat) (sc : aplintc_softc) :
    aplintc_softc :=
  if irq ≥ sc.sc_hwnintr then sc
  else
    let idx := ipl * (k.roundup sc.sc_hwnintr 32 / 32) + IRQ_TO_REG32 irq
    let word := sc.sc_imask.getD idx 0 &&& not32 (1 <<< IRQ_TO_REG32BIT irq)
    { sc with sc_imask := sc.sc_imask.set idx word }

/-- An entry of sc_handler as mallocarray with M_ZERO leaves it and TAILQ_INIT
initialises it. -/
def intrq_zero : intrq := { iq_list := [], iq_ci := none, iq_irq_max := 0, iq_irq_min := 0 }

/-- void aplintc_calc_irq(sc, irq), for an irq below sc_nintr (as at every call
in the file): the highest and lowest ih_ipl on the list, the early return when
both are the stored ones, else the update of the masks of all levels and
aplintc_setipl(curcpu()->ci_cpl). -/
def aplintc_calc_irq (k : aplintc_env) (irq : Nat) (s : aplintc_world) : aplintc_world :=
  let q := s.sc.sc_handler.getD irq intrq_zero
  let max := q.iq_list.foldl (fun m ipl => if ipl > m then ipl else m) k.IPL_NONE
  let min := q.iq_list.foldl (fun m ipl => if ipl < m then ipl else m) k.IPL_HIGH
  let min := if max = k.IPL_NONE then k.IPL_NONE else min
  if q.iq_irq_max = max ∧ q.iq_irq_min = min then s
  else
    let q := { q with iq_irq_max := max, iq_irq_min := min }
    let sc := { s.sc with sc_handler := s.sc.sc_handler.set irq q }
    let sc := (List.range min).foldl (fun sc i => aplintc_intr_enable k irq i sc) sc
    let sc := (List.range' min (k.IPL_HIGH + 1 - min)).foldl
      (fun sc i => aplintc_intr_disable k irq i sc) sc
    aplintc_setipl k s.ci_cpl { s with sc := sc }

/-- void aplintc_calc_mask(sc). -/
def aplintc_calc_mask (k : aplintc_env) (s : aplintc_world) : aplintc_world :=
  (List.range s.sc.sc_nintr).foldl (fun s irq => aplintc_calc_irq k irq s) s

/-- void *aplintc_intr_establish(irqno, type, level, ci, func, arg, name), with
ci none for a null pointer (cpu_info_primary is CPU 0): none when it panics on
a bogus irqnumber; the handle it returns is not kept. -/
def aplintc_intr_establish (k : aplintc_env) (irqno level : Nat) (ci : Option Nat)
    (s : aplintc_world) : Option aplintc_world :=
  if irqno ≥ s.sc.sc_nintr then none
  else
    let ci := ci.getD 0
    let q := s.sc.sc_handler.getD irqno intrq_zero
    if q.iq_list ≠ [] ∧ q.iq_ci ≠ some ci then some s
    else
      let q := { q with iq_list := q.iq_list ++ [level &&& k.IPL_IRQMASK], iq_ci := some ci }
      let sc := { s.sc with sc_handler := s.sc.sc_handler.set irqno q }
      some (aplintc_calc_irq k irqno { s with sc := sc })

/-- void aplintc_attach(parent, self, aux) from the read of AIC_INFO on (the
mapping of the registers succeeded), entered at level cpl: the count
nintr = AIC_INFO_NIRQ(reading), the line " nirq %d", the loop "Disable all
interrupts, clear all pending" (for (i = 0; i < nintr / 32; i++)), the loop
"Target primary CPU" (for (i = 0; i < nintr; i++)), the zeroed sc_handler and
sc_imask, aplintc_setipl(IPL_HIGH), aplintc_calc_mask and, under
MULTIPROCESSOR, the two aplintc_intr_establish calls of the IPIs.  The value
~0 is written as a uint32_t; none when a call panics. -/
def aplintc_attach (k : aplintc_env) (cpl : Nat) (w : Bus) : Option aplintc_world :=
  let r := bus_space_read_4 0 AIC_INFO w
  let nintr := (r.1 >>> 0) &&& 0xffff
  let w := r.2.emit (BusEvent.printf (BusLine.nirq nintr))
  let w := (List.range (nintr / 32)).foldl (fun w i =>
    let w := bus_space_write_4 0 (AIC_IRQ_DISABLE (i * 32)) 0xffffffff w
    bus_space_write_4 0 (AIC_IRQ_CLEAR (i * 32)) 0xffffffff w) w
  let w := (List.range nintr).foldl (fun w i =>
    bus_space_write_4 0 (AIC_IRQ_AFFINITY i) (1 <<< 0) w) w
  let sc : aplintc_softc :=
    { sc_nintr := nintr + AIC_NUM_FIQ + AIC_NUM_IPI,
      sc_hwnintr := nintr,
      sc_handler := List.replicate (nintr + AIC_NUM_FIQ + AIC_NUM_IPI) intrq_zero,
      sc_imask := List.replicate ((k.roundup nintr 32 / 32) * k.NIPL) 0 }
  let s := aplintc_setipl k k.IPL_HIGH { sc := sc, ci_cpl := cpl, bus := w }
  let s := aplintc_calc_mask k s
  if k.MULTIPROCESSOR then
    (aplintc_intr_establish k (s.sc.sc_hwnintr + AIC_NUM_FIQ + 0)
      (k.IPL_IPI ||| k.IPL_MPSAFE) none s).bind
      (fun s => aplintc_intr_establish k (s.sc.sc_hwnintr + AIC_NUM_FIQ + 1)
        (k.IPL_IPI ||| k.IPL_MPSAFE) none s)
  else some s

/-- The levels of machine/intr.h as OpenBSD/arm64 has them, with the macro
roundup of sys/param.h, for a kernel without MULTIPROCESSOR. -/
def arm64_env : aplintc_env :=
  { IPL_NONE := 0, IPL_HIGH := 11, IPL_IPI := 12, IPL_MPSAFE := 0x100, IPL_IRQMASK := 0xf,
    NIPL := 13, roundup := fun x y => ((x + (y - 1)) / y) * y, MULTIPROCESSOR := false }

/-- The same for a kernel with MULTIPROCESSOR. -/
def arm64_mp_env : aplintc_env := { arm64_env with MULTIPROCESSOR := true }

/-- A device that reports 40 interrupts in AIC_INFO. -/
def aic40 : Bus := { input := [40], trace := [] }

/-- The writes of one call of aplintc_setipl on 40 interrupts while every
word of the level is 0. -/
def setipl40_events : List BusEvent :=
  [BusEvent.write4 0 0x4100 0xffffffff, BusEvent.write4 0 0x4180 0,
   BusEvent.write4 0 0x4104 0xffffffff, BusEvent.write4 0 0x4184 0]

/-- True of the writes aplintc_setipl makes: a write to a word of
AIC_IRQ_DISABLE or of AIC_IRQ_ENABLE. -/
def BusEvent.isMaskWrite (e : BusEvent) : Prop :=
  ∃ i v, e = BusEvent.write4 0 (AIC_IRQ_DISABLE i) v ∨ e = BusEvent.write4 0 (AIC_IRQ_ENABLE i) v

/-- From s to t the counts of the softc stay, the device input stays, and the
trace grows by mask writes only. -/
def mask_steps (s t : aplintc_world) : Prop :=
  t.sc.sc_nintr = s.sc.sc_nintr ∧ t.sc.sc_hwnintr = s.sc.sc_hwnintr ∧
    t.bus.input = s.bus.input ∧
    ∃ added, t.bus.trace = s.bus.trace ++ added ∧ ∀ e ∈ added, e.isMaskWrite

/-- True for a write to the register at offset off of handle 0. -/
def BusEvent.isWriteAt (off : Nat) : BusEvent → Bool
  | BusEvent.write4 ioh o _ => ioh == 0 && o == off
  | _ => false

/-! ### aplpmgr.c -/

@[simp] abbrev REG0 : Nat := 0x00
@[simp] abbrev REG0_ENABLE : Nat := 0xf <<< 0
@[simp] abbrev REG0_OFF : Nat := 0x0 <<< 4
@[simp] abbrev REG0_ON : Nat := 0xf <<< 4
@[simp] abbrev REG0_STATUS : Nat := 0xf <<< 4
@[simp] abbrev REG0_DISABLE : Nat := 0x3 <<< 8
@[simp] abbrev REG0_POSTENABLE : Nat := 1 <<< 28

/-- The macro HREAD4(sc, reg): a read at offset 0 of the handle sc_ioh[reg]. -/
def HREAD4 (reg : Nat) (w : Bus) : Nat × Bus := bus_space_read_4 reg 0 w

/-- The macro HWRITE4(sc, reg, val). -/
def HWRITE4 (reg val : Nat) (w : Bus) : Bus := bus_space_write_4 reg 0 val w

/-- What aplpmgr.c reads from its softc and its device-tree node: sc_nreg and
the four action properties. -/
structure aplpmgr_softc where
  sc_nreg : Nat
  pre_up : fdt_prop
  post_up : fdt_prop
  pre_down : fdt_prop
  post_down : fdt_prop
  deriving DecidableEq, Repr

/-- The property of the node that an action names. -/
def aplpmgr_softc.prop (sc : aplpmgr_softc) : pmgr_action → fdt_prop
  | pmgr_action.pre_up => sc.pre_up
  | pmgr_action.post_up => sc.post_up
  | pmgr_action.pre_down => sc.pre_down
  | pmgr_action.post_down => sc.post_down

/-- The loop of aplpmgr_run_seq, for (i = 0; i < len / sizeof(uint32_t); i += 3),
with n passes left and i the index of the pass; the sum seq[i] + seq[i + 1] is
one of uint32_t and the KASSERT is a panic when it fails. -/
def aplpmgr_seq_loop (nreg : Nat) (seq : List Nat) : Nat → Nat → Bus → BusOutcome
  | 0, _, w => BusOutcome.ok w
  | n + 1, i, w =>
    let idx := (seq.getD i 0 + seq.getD (i + 1) 0) % 4294967296
    if ¬ idx < nreg then BusOutcome.panic w
    else aplpmgr_seq_loop nreg seq n (i + 3) (HWRITE4 idx (seq.getD (i + 2) 0) w)

/-- void aplpmgr_run_seq(sc, action); the loop over i < len / 4 in steps of 3
makes (len / 4 + 2) / 3 passes. -/
def aplpmgr_run_seq (sc : aplpmgr_softc) (action : pmgr_action) (w : Bus) : BusOutcome :=
  let len := (sc.prop action).len
  if len ≤ 0 ∨ len % 12 ≠ 0 then
    BusOutcome.ok (w.emit (BusEvent.printf (BusLine.invalid_action action)))
  else
    aplpmgr_seq_loop sc.sc_nreg (sc.prop action).seq (((len / 4).toNat + 2) / 3) 0 w

/-- The polling loops of aplpmgr_enable, for (i = 10000; i > 0; i--), which are
left by break when the status field of REG0 reads target; membar tells the
loop of the enable path (which calls membar_sync) from that of the disable
path.  The result is i and reg after the loop. -/
def aplpmgr_poll (target : Nat) (membar : Bool) : Nat → Nat → Bus → Nat × Nat × Bus
  | 0, reg, w => (0, reg, w)
  | i + 1, _, w =>
    let w := if membar then w.emit BusEvent.membar_sync else w
    let r := HREAD4 REG0 w
    if r.1 &&& REG0_STATUS = target then (i + 1, r.1, r.2)
    else aplpmgr_poll target membar i r.1 r.2

/-- void aplpmgr_enable(cookie, cells, on); the argument on is on_ here. -/
def aplpmgr_enable (sc : aplpmgr_softc) (on_ : Int) (w : Bus) : BusOutcome :=
  let r := HREAD4 REG0 w
  let reg := r.1
  let w := r.2
  if (on_ ≠ 0 ∧ reg &&& REG0_STATUS = REG0_ON) ∨ (¬ on_ ≠ 0 ∧ reg &&& REG0_STATUS = REG0_OFF) then
    BusOutcome.ok w
  else if on_ ≠ 0 then
    let w := w.emit BusEvent.clock_enable_all
    match aplpmgr_run_seq sc pmgr_action.pre_up w with
    | BusOutcome.panic w => BusOutcome.panic w
    | BusOutcome.ok w =>
      let r := HREAD4 REG0 w
      let reg := r.1 ||| REG0_ENABLE
      let w := HWRITE4 REG0 reg r.2
      let p := aplpmgr_poll REG0_ON true 10000 reg w
      if p.1 = 0 then
        BusOutcome.ok (p.2.2.emit (BusEvent.printf BusLine.enable_timeout))
      else
        let reg := p.2.1 ||| REG0_POSTENABLE
        let w := HWRITE4 REG0 reg p.2.2
        aplpmgr_run_seq sc pmgr_action.post_up w
  else
    match aplpmgr_run_seq sc pmgr_action.pre_down w with
    | BusOutcome.panic w => BusOutcome.panic w
    | BusOutcome.ok w =>
      let r := HREAD4 REG0 w
      let reg := r.1 ||| REG0_DISABLE
      let reg := reg &&& not32 REG0_ON
      let w := HWRITE4 REG0 reg r.2
      let p := aplpmgr_poll REG0_OFF false 10000 reg w
      if p.1 = 0 then
        BusOutcome.ok (p.2.2.emit (BusEvent.printf BusLine.disable_timeout))
      else
        aplpmgr_run_seq sc pmgr_action.post_down p.2.2

/-- A sample clock gate: one register block, pre-up and post-up sequences of
one write each, no pre-down and post-down properties. -/
def pmgr0 : aplpmgr_softc :=
  { sc_nreg := 1,
    pre_up := { len := 12, seq := [0, 0, 0x11] },
    post_up := { len := 12, seq := [0, 0, 0x22] },
    pre_down := { len := -1, seq := [] },
    post_down := { len := -1, seq := [] } }

/-- The trace of polling passes of aplpmgr_enable that read the values rs. -/
def poll_events (membar : Bool) (rs : List Nat) : List BusEvent :=
  rs.flatMap (fun r =>
    (if membar then [BusEvent.membar_sync] else []) ++ [BusEvent.read4 REG0 0 (r % 4294967296)])

/-- Number of reads of REG0 in a trace. -/
def reg0_reads (t : List BusEvent) : Nat :=
  t.countP (fun e => match e with
    | BusEvent.read4 ioh off _ => ioh == REG0 && off == 0
    | _ => false)

/-! ### apldwusb.c -/

@[simp] abbrev USBCORE_PIPEPHY_STATUS : Nat := 0x200020
@[simp] abbrev USBCORE_PIPEPHY_STATUS_READY : Nat := 1 <<< 30
@[simp] abbrev USBCORE_AUSBEVT_USB2CTL : Nat := 0x800000
@[simp] abbrev USBCORE_AUSBEVT_USB2CTL_EVT_EN : Nat := 1 <<< 0
@[simp] abbrev USBCORE_AUSBEVT_USB2CTL_LOAD_CNT : Nat := 1 <<< 3
@[simp] abbrev USBCORE_AUSBEVT_UTMIACT_EVTCNT : Nat := 0x800020
@[simp] abbrev USBCORE_PIPEHDLR_MUXSEL : Nat := 0xa8400c
@[simp] abbrev USBCORE_PIPEHDLR_MUXSEL_MODE_MASK : Nat := 3 <<< 0
@[simp] abbrev USBCORE_PIPEHDLR_MUXSEL_MODE_USB2 : Nat := 2 <<< 0
@[simp] abbrev USBCORE_PIPEHDLR_AON_GEN : Nat := 0xa8401c
@[simp] abbrev USBCORE_PIPEHDLR_AON_GEN_DRD_FORCE_CLAMP_EN : Nat := 1 <<< 4
@[simp] abbrev USBCORE_PIPEHDLR_AON_GEN_DRD_SW_VCC_RESET : Nat := 1 <<< 0
@[simp] abbrev USBCORE_USB2PHY_USBCTL : Nat := 0xa90000
@[simp] abbrev USBCORE_USB2PHY_USBCTL_MODE_MASK : Nat := 7 <<< 0
@[simp] abbrev USBCORE_USB2PHY_USBCTL_MODE_USB2 : Nat := 2 <<< 0
@[simp] abbrev USBCORE_USB2PHY_CTL : Nat := 0xa90004
@[simp] abbrev USBCORE_USB2PHY_CTL_RESET : Nat := 1 <<< 0
@[simp] abbrev USBCORE_USB2PHY_CTL_PORT_RESET : Nat := 1 <<< 1
@[simp] abbrev USBCORE_USB2PHY_CTL_APB_RESETN : Nat := 1 <<< 2
@[simp] abbrev USBCORE_USB2PHY_CTL_SIDDQ : Nat := 1 <<< 3
@[simp] abbrev USBCORE_USB2PHY_SIG : Nat := 0xa90008
@[simp] abbrev USBCORE_USB2PHY_SIG_VBUSDET_FORCE_VAL : Nat := 1 <<< 0
@[simp] abbrev USBCORE_USB2PHY_SIG_VBUSDET_FORCE_EN : Nat := 1 <<< 1
@[simp] abbrev USBCORE_USB2PHY_SIG_VBUSVLDEXT_FORCE_VAL : Nat := 1 <<< 2
@[simp] abbrev USBCORE_USB2PHY_SIG_VBUSVLDEXT_FORCE_EN : Nat := 1 <<< 3
@[simp] abbrev USBCORE_USB2PHY_SIG_MODE_HOST : Nat := 7 <<< 12
@[simp] abbrev USBCORE_USB2PHY_MISCTUNE : Nat := 0xa9001c
@[simp] abbrev USBCORE_USB2PHY_MISCTUNE_APBCLK_GATE_OFF : Nat := 1 <<< 29
@[simp] abbrev USBCORE_USB2PHY_MISCTUNE_REFCLK_GATE_OFF : Nat := 1 <<< 30
@[simp] abbrev USB3_GCTL : Nat := 0x28c110
@[simp] abbrev USB3_GCTL_GBLHIBERNATIONEN : Nat := 1 <<< 1
@[simp] abbrev USB3_GCTL_PRTCAPDIR_MASK : Nat := 0x3 <<< 12
@[simp] abbrev USB3_GCTL_PRTCAPDIR_HOST : Nat := 0x1 <<< 12
@[simp] abbrev USB3_GCTL_PWRDNSCALE_MASK : Nat := 0x1fff <<< 19
@[simp] abbrev USB3_GUSB2PHYCFG0 : Nat := 0x28c200
@[simp] abbrev USB3_GUSB2PHYCFG0_SUSPENDUSB20 : Nat := 1 <<< 6
@[simp] abbrev USB3_GUSB3PIPECTL0 : Nat := 0x28c2c0
@[simp] abbrev USB3_GUSB3PIPECTL0_SUSPENDENABLE : Nat := 1 <<< 17

/-- The handle sc_phy_ioh. -/
@[simp] abbrev sc_phy_ioh : Nat := 0

/-- The handle sc_usb_ioh. -/
@[simp] abbrev sc_usb_ioh : Nat := 1

/-- The largest value of an int. -/
@[simp] abbrev INT_MAX : Int := 2147483647

/-- The delay(usecs) busy wait. -/
def Bus.delay (usecs : Nat) (w : Bus) : Bus := w.emit (BusEvent.delay usecs)

/-- A read-modify-write of a register of sc_usb_ioh:
reg = bus_space_read_4(...); reg = f(reg); bus_space_write_4(..., reg). -/
def usb_update (off : Nat) (f : Nat → Nat) (w : Bus) : Bus :=
  let r := bus_space_read_4 sc_usb_ioh off w
  bus_space_write_4 sc_usb_ioh off (f r.1) r.2

/-- How a wait loop of apldwusb_init is left: with the value of i (the loop
test failed or break was taken); by i++ at INT_MAX, which C leaves undefined;
or not within the passes the model was given. -/
inductive WaitResult where
  | left (i : Int) (w : Bus)
  | overflow (w : Bus)
  | spin (w : Bus)
  deriving DecidableEq, Repr

/-- The wait loops of apldwusb_init,
for (i = 100; i > 0; i++) { reg = read(off); if (ready(reg)) break; delay(100); },
entered with the given i; the first argument bounds the number of passes. -/
def apldwusb_wait (ready : Nat → Bool) (off : Nat) : Nat → Int → Bus → WaitResult
  | 0, _, w => WaitResult.spin w
  | fuel + 1, i, w =>
    if i > 0 then
      let r := bus_space_read_4 sc_usb_ioh off w
      if ready r.1 then WaitResult.left i r.2
      else
        let w := r.2.delay 100
        if i = INT_MAX then WaitResult.overflow w
        else apldwusb_wait ready off fuel (i + 1) w
    else WaitResult.left i w

/-- The loop of apldwusb_tunable, for (i = 0; i < len / sizeof(uint32_t); i += 3),
with n passes left; the result is error and the world at the label out. -/
def apldwusb_tunable_loop (seq : List Nat) : Nat → Nat → Bus → Int × Bus
  | 0, _, w => (0, w)
  | n + 1, i, w =>
    let range := (seq.getD i 0 >>> 28) &&& 0xf
    let addr := (seq.getD i 0 >>> 0) &&& 0xfffffff
    if range = 0 ∨ range = 1 then
      let ioh := if range = 0 then sc_phy_ioh else sc_usb_ioh
      let r := bus_space_read_4 ioh addr w
      let reg := r.1 &&& not32 (seq.getD (i + 1) 0)
      let reg := reg ||| seq.getD (i + 2) 0
      apldwusb_tunable_loop seq n (i + 3) (bus_space_write_4 ioh addr reg r.2)
    else (1, w.emit (BusEvent.printf BusLine.unknown_range))

/-- int apldwusb_tunable(sc, tunable), for the property the name refers to. -/
def apldwusb_tunable (p : fdt_prop) (w : Bus) : Int × Bus :=
  if p.len = 0 then (0, w)
  else if p.len ≤ 0 ∨ p.len % 12 ≠ 0 then (1, w)
  else apldwusb_tunable_loop p.seq (((p.len / 4).toNat + 2) / 3) 0 w

/-- How a call of apldwusb_init ends: it returns a value; or a wait loop
overflows i or does not end within the passes the model follows. -/
inductive InitResult where
  | ret (code : Int) (w : Bus)
  | overflow (w : Bus)
  | spin (w : Bus)
  deriving DecidableEq, Repr

/-- The world a call of apldwusb_init ended in. -/
def InitResult.world : InitResult → Bus
  | InitResult.ret _ w => w
  | InitResult.overflow w => w
  | InitResult.spin w => w

/-- A wait loop of apldwusb_init with the test of i == 0 and the statements
that follow: after the loop, i == 0 prints the line and returns 1. -/
def apldwusb_wait_then (ready : Nat → Bool) (off : Nat) (line : BusLine)
    (rest : Bus → InitResult) (w : Bus) : InitResult :=
  match apldwusb_wait ready off 2147483648 100 w with
  | WaitResult.left i w =>
    if i = 0 then InitResult.ret 1 (w.emit (BusEvent.printf line)) else rest w
  | WaitResult.overflow w => InitResult.overflow w
  | WaitResult.spin w => InitResult.spin w

/-- The statements of apldwusb_init before its first wait loop. -/
def apldwusb_init_phy (w : Bus) : Bus :=
  let w := usb_update USBCORE_USB2PHY_SIG (fun reg =>
    reg ||| (USBCORE_USB2PHY_SIG_MODE_HOST ||| USBCORE_USB2PHY_SIG_VBUSDET_FORCE_VAL |||
      USBCORE_USB2PHY_SIG_VBUSDET_FORCE_EN ||| USBCORE_USB2PHY_SIG_VBUSVLDEXT_FORCE_VAL |||
      USBCORE_USB2PHY_SIG_VBUSVLDEXT_FORCE_EN)) w
  let w := usb_update USBCORE_USB2PHY_CTL (fun reg =>
    reg &&& not32 USBCORE_USB2PHY_CTL_SIDDQ) w
  let w := w.delay 10
  let w := usb_update USBCORE_USB2PHY_CTL (fun reg =>
    reg &&& not32 (USBCORE_USB2PHY_CTL_RESET ||| USBCORE_USB2PHY_CTL_PORT_RESET)) w
  let w := usb_update USBCORE_AUSBEVT_USB2CTL (fun reg =>
    (reg ||| USBCORE_AUSBEVT_USB2CTL_EVT_EN) ||| USBCORE_AUSBEVT_USB2CTL_LOAD_CNT) w
  let w := usb_update USBCORE_USB2PHY_CTL (fun reg =>
    reg ||| USBCORE_USB2PHY_CTL_APB_RESETN) w
  let w := usb_update USBCORE_USB2PHY_MISCTUNE (fun reg =>
    (reg &&& not32 USBCORE_USB2PHY_MISCTUNE_APBCLK_GATE_OFF) &&&
      not32 USBCORE_USB2PHY_MISCTUNE_REFCLK_GATE_OFF) w
  w.delay 30

/-- The statements of apldwusb_init between its first wait loop and the read
of USBCORE_PIPEHDLR_MUXSEL: the writes of USB2PHY_USBCTL, PIPEHDLR_AON_GEN and
GCTL. -/
def apldwusb_init_mode (w : Bus) : Bus :=
  let w := usb_update USBCORE_USB2PHY_USBCTL (fun reg =>
    (reg &&& not32 USBCORE_USB2PHY_USBCTL_MODE_MASK) ||| USBCORE_USB2PHY_USBCTL_MODE_USB2) w
  let w := usb_update USBCORE_PIPEHDLR_AON_GEN (fun reg =>
    (reg &&& not32 USBCORE_PIPEHDLR_AON_GEN_DRD_FORCE_CLAMP_EN) |||
      USBCORE_PIPEHDLR_AON_GEN_DRD_SW_VCC_RESET) w
  usb_update USB3_GCTL (fun reg =>
    (reg &&& not32 USB3_GCTL_PRTCAPDIR_MASK) ||| USB3_GCTL_PRTCAPDIR_HOST) w

/-- The statements of apldwusb_init after the second tunable. -/
def apldwusb_init_core (w : Bus) : Bus :=
  let w := usb_update USB3_GCTL (fun reg =>
    ((reg &&& not32 USB3_GCTL_PWRDNSCALE_MASK) ||| (13 <<< 19)) |||
      USB3_GCTL_GBLHIBERNATIONEN) w
  let w := usb_update USB3_GUSB2PHYCFG0 (fun reg =>
    reg &&& not32 USB3_GUSB2PHYCFG0_SUSPENDUSB20) w
  usb_update USB3_GUSB3PIPECTL0 (fun reg =>
    reg &&& not32 USB3_GUSB3PIPECTL0_SUSPENDENABLE) w

/-- int apldwusb_init(sc), with the two tunable properties of the node. -/
def apldwusb_init (tunable_atc tunable : fdt_prop) (w : Bus) : InitResult :=
  let t := apldwusb_tunable tunable_atc w
  if t.1 ≠ 0 then InitResult.ret t.1 t.2
  else
    let w := apldwusb_init_phy t.2
    apldwusb_wait_then (fun reg => reg ≠ 0) USBCORE_AUSBEVT_UTMIACT_EVTCNT
      BusLine.utmi_timeout (fun w =>
      let w := apldwusb_init_mode w
      let r := bus_space_read_4 sc_usb_ioh USBCORE_PIPEHDLR_MUXSEL w
      let after_pipe : Bus → InitResult := fun w =>
        apldwusb_wait_then (fun reg => reg ≠ 0) USBCORE_AUSBEVT_UTMIACT_EVTCNT
          BusLine.utmi_timeout (fun w =>
          let t := apldwusb_tunable tunable w
          if t.1 ≠ 0 then InitResult.ret t.1 t.2
          else InitResult.ret 0 (apldwusb_init_core t.2)) w
      if r.1 &&& USBCORE_PIPEHDLR_MUXSEL_MODE_MASK ≠ USBCORE_PIPEHDLR_MUXSEL_MODE_USB2 then
        apldwusb_wait_then
          (fun reg => reg &&& USBCORE_PIPEPHY_STATUS_READY = USBCORE_PIPEPHY_STATUS_READY)
          USBCORE_PIPEPHY_STATUS BusLine.pipe_phy_timeout after_pipe r.2
      else after_pipe r.2) w

/-- A property that is present and empty: OF_getproplen returns 0. -/
def prop_empty : fdt_prop := { len := 0, seq := [] }

/-- The actions of n passes of a wait loop of apldwusb_init in which the
register at off reads 0: the read and the delay(100) of each pass. -/
def wait_polls (off n : Nat) : List BusEvent :=
  (List.replicate n [BusEvent.read4 sc_usb_ioh off 0, BusEvent.delay 100]).flatten

/-- A device all of whose registers read 0 at every access. -/
def usb_silent : Bus := { input := [], trace := [] }

/-- A device on which the UTMI activity counter reads 1 at the first poll and
every other access reads 0: the six reads before the first wait loop, the
counter, and from then on 0 (so MUXSEL is not in USB2 mode and the ready bit
of PIPEPHY_STATUS never sets). -/
def usb_pipe_silent : Bus := { input := [0, 0, 0, 0, 0, 0, 1], trace := [] }

/-- The actions of the statements of apldwusb_init before its first wait loop
when every register reads 0. -/
def phy_zero_events : List BusEvent :=
  [BusEvent.read4 sc_usb_ioh USBCORE_USB2PHY_SIG 0,
   BusEvent.write4 sc_usb_ioh USBCORE_USB2PHY_SIG 0x700f,
   BusEvent.read4 sc_usb_ioh USBCORE_USB2PHY_CTL 0,
   BusEvent.write4 sc_usb_ioh USBCORE_USB2PHY_CTL 0,
   BusEvent.delay 10,
   BusEvent.read4 sc_usb_ioh USBCORE_USB2PHY_CTL 0,
   BusEvent.write4 sc_usb_ioh USBCORE_USB2PHY_CTL 0,
   BusEvent.read4 sc_usb_ioh USBCORE_AUSBEVT_USB2CTL 0,
   BusEvent.write4 sc_usb_ioh USBCORE_AUSBEVT_USB2CTL 9,
   BusEvent.read4 sc_usb_ioh USBCORE_USB2PHY_CTL 0,
   BusEvent.write4 sc_usb_ioh USBCORE_USB2PHY_CTL 4,
   BusEvent.read4 sc_usb_ioh USBCORE_USB2PHY_MISCTUNE 0,
   BusEvent.write4 sc_usb_ioh USBCORE_USB2PHY_MISCTUNE 0,
   BusEvent.delay 30]

/-- The actions of apldwusb_init from a first poll of the UTMI activity counter
that reads 1 to the read of MUXSEL, when every other register reads 0. -/
def mode_zero_events : List BusEvent :=
  [BusEvent.read4 sc_usb_ioh USBCORE_AUSBEVT_UTMIACT_EVTCNT 1,
   BusEvent.read4 sc_usb_ioh USBCORE_USB2PHY_USBCTL 0,
   BusEvent.write4 sc_usb_ioh USBCORE_USB2PHY_USBCTL 2,
   BusEvent.read4 sc_usb_ioh USBCORE_PIPEHDLR_AON_GEN 0,
   BusEvent.write4 sc_usb_ioh USBCORE_PIPEHDLR_AON_GEN 1,
   BusEvent.read4 sc_usb_ioh USB3_GCTL 0,
   BusEvent.write4 sc_usb_ioh USB3_GCTL 0x1000,
   BusEvent.read4 sc_usb_ioh USBCORE_PIPEHDLR_MUXSEL 0]

/-! ## Auxiliary facts -/

theorem gpio_ss_sel_eq (v : Nat) (w : World) :
    gpio_ss_sel v w = { w with trace := w.trace ++ gpio_events w.sc.sc_ss_sel v } := by
  unfold gpio_ss_sel gpio_events
  cases h : w.sc.sc_ss_sel <;> simp [emit]

theorem writes_gpio_events (sel : Option (List Nat)) (v : Nat) :
    writes (gpio_events sel v) = [] := by
  cases sel <;> simp [gpio_events, writes, Event.isWrite]

theorem writes_append (s t : List Event) : writes (s ++ t) = writes s ++ writes t := by
  simp [writes]

theorem mem_gpio_events_not_write (sel : Option (List Nat)) (v r x : Nat) :
    Event.write8 r x ∉ gpio_events sel v := by
  cases sel <;> simp [gpio_events]

theorem count_gpio_events_write (sel : Option (List Nat)) (v r x : Nat) :
    (gpio_events sel v).count (Event.write8 r x) = 0 :=
  List.count_eq_zero.mpr (mem_gpio_events_not_write sel v r x)

theorem byte_or_lt (p m : Nat) (hm : m < 256) : (p % 256 ||| m) % 256 = p % 256 ||| m :=
  Nat.mod_eq_of_lt (Nat.or_lt_two_pow (n := 8) (Nat.mod_lt _ (by decide)) hm)

theorem byte_and_lt (p m : Nat) : (p % 256 &&& m) % 256 = p % 256 &&& m :=
  Nat.mod_eq_of_lt (lt_of_le_of_lt Nat.and_le_left (Nat.mod_lt _ (by decide)))

theorem tail_tail_eq_drop (l : List Nat) : l.tail.tail = l.drop 2 := by
  cases l with
  | nil => rfl
  | cons a l => cases l <;> rfl

theorem tail_tail_tail_eq_drop (l : List Nat) : l.tail.tail.tail = l.drop 3 := by
  rcases l with _ | ⟨a, _ | ⟨b, _ | ⟨c, l⟩⟩⟩ <;> rfl

theorem and3_le (b : Nat) : b &&& 3 ≤ 3 := Nat.and_le_right

/-- Decoding with the termination flag clear. -/
theorem cc_to_typec_src (c : Nat) (hc : c ≤ 3) :
    tcpci_cc_to_typec c 0 =
      if c = 1 then TYPEC_CC_RA else if c = 2 then TYPEC_CC_RD else TYPEC_CC_OPEN := by
  unfold tcpci_cc_to_typec
  interval_cases c <;> simp

/-- Decoding with the termination flag set. -/
theorem cc_to_typec_snk (c s : Nat) (hs : s ≠ 0) :
    tcpci_cc_to_typec c s =
      if c = 1 then TYPEC_CC_RP_DEF else if c = 2 then TYPEC_CC_RP_1_5
      else if c = 3 then TYPEC_CC_RP_3_0 else TYPEC_CC_OPEN := by
  unfold tcpci_cc_to_typec
  simp [hs]

/-- The first step of tcpci_cc_change on a changed byte: decode and branch. -/
theorem cc_change_changed (w : World) (b : Nat)
    (hb : w.input.headD 0 % 256 = b) (hchg : w.sc.sc_cc ≠ b) :
    tcpci_cc_change w =
      (tcpci_cc_change_branches
        (tcpci_cc_to_typec (b &&& 3) (b &&& 0x10))
        (tcpci_cc_to_typec ((b >>> 2) &&& 3) (b &&& 0x10))
        { w with input := w.input.tail,
                 trace := w.trace ++ [Event.read8 TCPC_CC_STATUS b] }).andThen
        (fun w => Outcome.ok (set_cc b w)) := by
  unfold tcpci_cc_change
  simp only [tcpci_read_reg8, hb]
  rw [if_neg hchg]
  rfl

/-- The detach branch, in full. -/
theorem cc_branches_detach (w : World) :
    tcpci_cc_change_branches TYPEC_CC_OPEN TYPEC_CC_OPEN w = Outcome.ok
      { sc := { w.sc with sc_attached := 0 },
        input := w.input.drop 2,
        trace := w.trace ++ ([
          Event.write8 TCPC_RX_DETECT 0,
          Event.write8 TCPC_COMMAND TCPC_COMMAND_DISABLE_SRC_VBUS,
          Event.write8 TCPC_COMMAND TCPC_COMMAND_DISABLE_SINK_VBUS,
          Event.write8 TCPC_VBUS_VOLTAGE_ALARM_LO_CFG 0x1c,
          Event.read8 TCPC_POWER_CTRL (w.input.headD 0 % 256),
          Event.write8 TCPC_POWER_CTRL (w.input.headD 0 % 256 ||| TCPC_POWER_CTRL_FORCEDISCH),
          Event.read8 TCPC_POWER_CTRL (w.input.getD 1 0 % 256),
          Event.write8 TCPC_POWER_CTRL
            (w.input.getD 1 0 % 256 &&& not8 TCPC_POWER_CTRL_VCONN_ENABLE),
          Event.write8 TCPC_TCPC_CTRL 0] ++ gpio_events w.sc.sc_ss_sel 1 ++ [
          Event.write8 TCPC_ROLE_CTRL
            (if w.sc.sc_try_data = TYPEC_HOST then TCPC_ROLE_CTRL_DRP ||| 0xa
             else TCPC_ROLE_CTRL_DRP ||| 0x5),
          Event.write8 TCPC_COMMAND TCPC_COMMAND_LOOK4CONNECTION]) } := by
  unfold tcpci_cc_change_branches
  by_cases ht : w.sc.sc_try_data = TYPEC_HOST <;>
  simp [ht, tcpci_write_reg8, tcpci_read_reg8, emit, tcpci_set_vbus, tcpci_set_polarity,
    gpio_ss_sel_eq, set_attached, byte_or_lt, byte_and_lt, tail_tail_eq_drop]

/-- C4: detach.  When the CC byte changed and both pins decode to open, the
register writes of tcpci_cc_change are exactly RX_DETECT <- 0, COMMAND <-
DISABLE_SRC_VBUS, COMMAND <- DISABLE_SINK_VBUS, VBUS_VOLTAGE_ALARM_LO_CFG <-
0x1c, POWER_CTRL <- (first read | FORCEDISCH), POWER_CTRL <- (second read &
~VCONN_ENABLE), TCPC_CTRL <- 0, ROLE_CTRL <- DRP|0x0a (try-role host) or
DRP|0x05, COMMAND <- LOOK4CONNECTION, in this order; afterwards sc_attached = 0
and sc_cc is the new byte. -/
theorem cc_change_detach (w : World) (b : Nat)
    (hb : w.input.headD 0 % 256 = b) (hchg : w.sc.sc_cc ≠ b)
    (hopen : (b &&& 0x10 = 0 ∧ (b &&& 3 = 0 ∨ b &&& 3 = 3) ∧
                ((b >>> 2) &&& 3 = 0 ∨ (b >>> 2) &&& 3 = 3)) ∨
             (b &&& 0x10 ≠ 0 ∧ b &&& 3 = 0 ∧ (b >>> 2) &&& 3 = 0)) :
    ∃ t, tcpci_cc_change w = Outcome.ok
        { sc := { w.sc with sc_attached := 0, sc_cc := b },
          input := w.input.drop 3,
          trace := w.trace ++ t } ∧
      writes t = [
        Event.write8 TCPC_RX_DETECT 0,
        Event.write8 TCPC_COMMAND TCPC_COMMAND_DISABLE_SRC_VBUS,
        Event.write8 TCPC_COMMAND TCPC_COMMAND_DISABLE_SINK_VBUS,
        Event.write8 TCPC_VBUS_VOLTAGE_ALARM_LO_CFG 0x1c,
        Event.write8 TCPC_POWER_CTRL (w.input.getD 1 0 % 256 ||| TCPC_POWER_CTRL_FORCEDISCH),
        Event.write8 TCPC_POWER_CTRL
          (w.input.getD 2 0 % 256 &&& not8 TCPC_POWER_CTRL_VCONN_ENABLE),
        Event.write8 TCPC_TCPC_CTRL 0,
        Event.write8 TCPC_ROLE_CTRL
          (if w.sc.sc_try_data = TYPEC_HOST then TCPC_ROLE_CTRL_DRP ||| 0xa
           else TCPC_ROLE_CTRL_DRP ||| 0x5),
        Event.write8 TCPC_COMMAND TCPC_COMMAND_LOOK4CONNECTION] := by
  have h1 : tcpci_cc_to_typec (b &&& 3) (b &&& 0x10) = TYPEC_CC_OPEN := by
    rcases hopen with ⟨hs, hc | hc, _⟩ | ⟨hs, hc, _⟩
    · rw [hs, cc_to_typec_src _ (and3_le b), hc]; rfl
    · rw [hs, cc_to_typec_src _ (and3_le b), hc]; rfl
    · rw [cc_to_typec_snk _ _ hs, hc]; rfl
  have h2 : tcpci_cc_to_typec ((b >>> 2) &&& 3) (b &&& 0x10) = TYPEC_CC_OPEN := by
    rcases hopen with ⟨hs, _, hc | hc⟩ | ⟨hs, _, hc⟩
    · rw [hs, cc_to_typec_src _ (and3_le _), hc]; rfl
    · rw [hs, cc_to_typec_src _ (and3_le _), hc]; rfl
    · rw [cc_to_typec_snk _ _ hs, hc]; rfl
  refine ⟨[Event.read8 TCPC_CC_STATUS b,
          Event.write8 TCPC_RX_DETECT 0,
          Event.write8 TCPC_COMMAND TCPC_COMMAND_DISABLE_SRC_VBUS,
          Event.write8 TCPC_COMMAND TCPC_COMMAND_DISABLE_SINK_VBUS,
          Event.write8 TCPC_VBUS_VOLTAGE_ALARM_LO_CFG 0x1c,
          Event.read8 TCPC_POWER_CTRL (w.input.getD 1 0 % 256),
          Event.write8 TCPC_POWER_CTRL (w.input.getD 1 0 % 256 ||| TCPC_POWER_CTRL_FORCEDISCH),
          Event.read8 TCPC_POWER_CTRL (w.input.getD 2 0 % 256),
          Event.write8 TCPC_POWER_CTRL
            (w.input.getD 2 0 % 256 &&& not8 TCPC_POWER_CTRL_VCONN_ENABLE),
          Event.write8 TCPC_TCPC_CTRL 0] ++ gpio_events w.sc.sc_ss_sel 1 ++ [
          Event.write8 TCPC_ROLE_CTRL
            (if w.sc.sc_try_data = TYPEC_HOST then TCPC_ROLE_CTRL_DRP ||| 0xa
             else TCPC_ROLE_CTRL_DRP ||| 0x5),
          Event.write8 TCPC_COMMAND TCPC_COMMAND_LOOK4CONNECTION], ?_, ?_⟩
  · rw [cc_change_changed w b hb hchg, h1, h2, cc_branches_detach]
    simp [Outcome.andThen, set_cc, tail_tail_tail_eq_drop]
  · simp only [writes_append, writes_gpio_events]
    simp [writes, Event.isWrite]

/-- C4 at a concrete input: previous byte 0x11, CC_STATUS now reads 0x00, POWER_CTRL
reads 0x05 and then 0x07; the try-role is host. -/
theorem cc_change_detach_witness :
    ∃ t, tcpci_cc_change { sc := { sc0 with sc_cc := 0x11, sc_attached := 1 },
                           input := [0x00, 0x05, 0x07], trace := [] } = Outcome.ok
        { sc := { sc0 with sc_attached := 0, sc_cc := 0x00 },
          input := [],
          trace := [] ++ t } ∧
      writes t = [
        Event.write8 0x2f 0, Event.write8 0x23 0x66, Event.write8 0x23 0x44,
        Event.write8 0x78 0x1c, Event.write8 0x1c 0x05, Event.write8 0x1c 0x06,
        Event.write8 0x19 0, Event.write8 0x1a 0x4a, Event.write8 0x23 0x99] :=
  cc_change_detach { sc := { sc0 with sc_cc := 0x11, sc_attached := 1 },
                     input := [0x00, 0x05, 0x07], trace := [] } 0x00
    (by decide) (by decide) (by decide)

/-- C3: source attach.  When the CC byte changed, the termination flag is clear
and exactly one pin code is Rd (2), tcpci_cc_change resets sc_message_id to 0,
writes TCPC_CTRL <- 0 when pin 1 is the Rd pin and ORIENTATION otherwise, sets
the roles (host, source) with MSG_HDR_INFO <- 0x0b, writes RX_DETECT <- 0x3f,
ORs VCONN_ENABLE into POWER_CTRL exactly when the other pin reads Ra (1),
issues SRC_VBUS_DEFAULT exactly once and never DISABLE_SRC_VBUS, and ends with
sc_attached = 1 and sc_cc the new byte. -/
theorem cc_change_source_attach (w : World) (b : Nat)
    (hb : w.input.headD 0 % 256 = b) (hchg : w.sc.sc_cc ≠ b)
    (hterm : b &&& 0x10 = 0)
    (hone : (b &&& 3 = 2 ∧ (b >>> 2) &&& 3 ≠ 2) ∨ (b &&& 3 ≠ 2 ∧ (b >>> 2) &&& 3 = 2)) :
    ∃ t, tcpci_cc_change w = Outcome.ok
        { sc := { w.sc with sc_message_id := 0, sc_data_role := TYPEC_HOST,
                            sc_power_role := TYPEC_SOURCE, sc_attached := 1, sc_cc := b },
          input := w.input.drop
            (if (b &&& 3 = 2 ∧ (b >>> 2) &&& 3 = 1) ∨ ((b >>> 2) &&& 3 = 2 ∧ b &&& 3 = 1)
             then 2 else 1),
          trace := w.trace ++ t } ∧
      writes t = [
          Event.write8 TCPC_TCPC_CTRL (if b &&& 3 = 2 then 0 else TCPC_TCPC_CTRL_ORIENTATION),
          Event.write8 TCPC_MSG_HDR_INFO 0x0b,
          Event.write8 TCPC_RX_DETECT 0x3f] ++
        (if (b &&& 3 = 2 ∧ (b >>> 2) &&& 3 = 1) ∨ ((b >>> 2) &&& 3 = 2 ∧ b &&& 3 = 1)
         then [Event.write8 TCPC_POWER_CTRL
                 (w.input.getD 1 0 % 256 ||| TCPC_POWER_CTRL_VCONN_ENABLE)]
         else []) ++ [
          Event.write8 TCPC_COMMAND TCPC_COMMAND_DISABLE_SINK_VBUS,
          Event.write8 TCPC_COMMAND TCPC_COMMAND_SRC_VBUS_DEFAULT] ∧
      t.count (Event.write8 TCPC_COMMAND TCPC_COMMAND_SRC_VBUS_DEFAULT) = 1 ∧
      Event.write8 TCPC_COMMAND TCPC_COMMAND_DISABLE_SRC_VBUS ∉ t := by
  refine ⟨[Event.read8 TCPC_CC_STATUS b,
          Event.write8 TCPC_TCPC_CTRL (if b &&& 3 = 2 then 0 else TCPC_TCPC_CTRL_ORIENTATION)] ++
        gpio_events w.sc.sc_ss_sel (if b &&& 3 = 2 then 1 else 0) ++ [
          Event.write8 TCPC_MSG_HDR_INFO 0x0b,
          Event.printf LogLine.host_mode,
          Event.write8 TCPC_RX_DETECT 0x3f] ++
        (if (b &&& 3 = 2 ∧ (b >>> 2) &&& 3 = 1) ∨ ((b >>> 2) &&& 3 = 2 ∧ b &&& 3 = 1)
         then [Event.read8 TCPC_POWER_CTRL (w.input.getD 1 0 % 256),
               Event.write8 TCPC_POWER_CTRL
                 (w.input.getD 1 0 % 256 ||| TCPC_POWER_CTRL_VCONN_ENABLE)]
         else []) ++ [
          Event.write8 TCPC_COMMAND TCPC_COMMAND_DISABLE_SINK_VBUS,
          Event.write8 TCPC_COMMAND TCPC_COMMAND_SRC_VBUS_DEFAULT], ?_, ?_, ?_, ?_⟩
  · rw [cc_change_changed w b hb hchg, hterm, cc_to_typec_src _ (and3_le _),
      cc_to_typec_src _ (and3_le _)]
    have h1 := and3_le b
    have h2 := and3_le (b >>> 2)
    generalize b &&& 3 = c1 at *
    generalize (b >>> 2) &&& 3 = c2 at *
    rcases hone with ⟨rfl, hc⟩ | ⟨hc, rfl⟩
    · interval_cases c2 <;>
      simp [tcpci_cc_change_branches, tcpci_cc_is_source, tcpci_write_reg8, tcpci_read_reg8,
        emit, tcpci_set_vbus, tcpci_set_polarity, tcpci_set_roles, printf, rx_detect_all,
        gpio_ss_sel_eq, set_attached, set_message_id, set_cc, Outcome.andThen, byte_or_lt,
        tail_tail_eq_drop] at hc ⊢
    · interval_cases c1 <;>
      simp [tcpci_cc_change_branches, tcpci_cc_is_source, tcpci_write_reg8, tcpci_read_reg8,
        emit, tcpci_set_vbus, tcpci_set_polarity, tcpci_set_roles, printf, rx_detect_all,
        gpio_ss_sel_eq, set_attached, set_message_id, set_cc, Outcome.andThen, byte_or_lt,
        tail_tail_eq_drop] at hc ⊢
  · simp only [writes_append, writes_gpio_events]
    split_ifs <;> simp [writes, Event.isWrite]
  · simp only [List.count_append, count_gpio_events_write]
    split_ifs <;> simp [List.count_cons]
  · have hg := mem_gpio_events_not_write w.sc.sc_ss_sel
    split_ifs <;> simp [hg]

/-- C3 at a concrete input: previous byte 0, CC_STATUS reads 0x06 (pin 1 Rd,
pin 2 Ra, termination clear) and POWER_CTRL reads 0x10. -/
theorem cc_change_source_attach_witness :
    ∃ t, tcpci_cc_change (world0 [0x06, 0x10]) = Outcome.ok
        { sc := { sc0 with sc_message_id := 0, sc_data_role := TYPEC_HOST,
                           sc_power_role := TYPEC_SOURCE, sc_attached := 1, sc_cc := 0x06 },
          input := [],
          trace := [] ++ t } ∧
      writes t = [Event.write8 0x19 0, Event.write8 0x2e 0x0b, Event.write8 0x2f 0x3f] ++
        [Event.write8 0x1c 0x11] ++ [Event.write8 0x23 0x44, Event.write8 0x23 0x77] ∧
      t.count (Event.write8 0x23 0x77) = 1 ∧
      Event.write8 0x23 0x66 ∉ t :=
  cc_change_source_attach (world0 [0x06, 0x10]) 0x06
    (by decide) (by decide) (by decide) (by decide)

/-- C2: sink attach.  When the CC byte changed, the termination flag (bit 4) is
set and exactly one of the two pin codes is non-zero, tcpci_cc_change resets
sc_message_id to 0, writes TCPC_CTRL <- 0 and ROLE_CTRL <- 0x0e when pin 1 is
the non-open pin (TCPC_CTRL <- ORIENTATION and ROLE_CTRL <- 0x0b otherwise),
sets the roles (device, sink) with MSG_HDR_INFO <- 0x02, writes RX_DETECT <-
0x3f, ends with sc_attached = 1, and writes none of SRC_VBUS_DEFAULT,
SRC_VBUS_HIGH, SINK_VBUS to COMMAND. -/
theorem cc_change_sink_attach (w : World) (b : Nat)
    (hb : w.input.headD 0 % 256 = b) (hchg : w.sc.sc_cc ≠ b)
    (hterm : b &&& 0x10 ≠ 0)
    (hone : (b &&& 3 ≠ 0 ∧ (b >>> 2) &&& 3 = 0) ∨ (b &&& 3 = 0 ∧ (b >>> 2) &&& 3 ≠ 0)) :
    ∃ t, tcpci_cc_change w = Outcome.ok
        { sc := { w.sc with sc_message_id := 0, sc_data_role := TYPEC_DEVICE,
                            sc_power_role := TYPEC_SINK, sc_attached := 1, sc_cc := b },
          input := w.input.drop 2,
          trace := w.trace ++ t } ∧
      writes t = [
          Event.write8 TCPC_TCPC_CTRL (if b &&& 3 ≠ 0 then 0 else TCPC_TCPC_CTRL_ORIENTATION),
          Event.write8 TCPC_ROLE_CTRL (if b &&& 3 ≠ 0 then 0x0e else 0x0b),
          Event.write8 TCPC_MSG_HDR_INFO 0x02,
          Event.write8 TCPC_RX_DETECT 0x3f,
          Event.write8 TCPC_COMMAND TCPC_COMMAND_DISABLE_SRC_VBUS,
          Event.write8 TCPC_COMMAND TCPC_COMMAND_DISABLE_SINK_VBUS,
          Event.write8 TCPC_VBUS_VOLTAGE_ALARM_LO_CFG 0x1c,
          Event.write8 TCPC_POWER_CTRL
            (w.input.getD 1 0 % 256 ||| TCPC_POWER_CTRL_FORCEDISCH)] ∧
      Event.write8 TCPC_COMMAND TCPC_COMMAND_SRC_VBUS_DEFAULT ∉ t ∧
      Event.write8 TCPC_COMMAND TCPC_COMMAND_SRC_VBUS_HIGH ∉ t ∧
      Event.write8 TCPC_COMMAND TCPC_COMMAND_SINK_VBUS ∉ t := by
  refine ⟨[Event.read8 TCPC_CC_STATUS b,
          Event.write8 TCPC_TCPC_CTRL (if b &&& 3 ≠ 0 then 0 else TCPC_TCPC_CTRL_ORIENTATION)] ++
        gpio_events w.sc.sc_ss_sel (if b &&& 3 ≠ 0 then 1 else 0) ++ [
          Event.write8 TCPC_ROLE_CTRL (if b &&& 3 ≠ 0 then 0x0e else 0x0b),
          Event.write8 TCPC_MSG_HDR_INFO 0x02,
          Event.printf LogLine.device_mode,
          Event.write8 TCPC_RX_DETECT 0x3f,
          Event.write8 TCPC_COMMAND TCPC_COMMAND_DISABLE_SRC_VBUS,
          Event.write8 TCPC_COMMAND TCPC_COMMAND_DISABLE_SINK_VBUS,
          Event.write8 TCPC_VBUS_VOLTAGE_ALARM_LO_CFG 0x1c,
          Event.read8 TCPC_POWER_CTRL (w.input.getD 1 0 % 256),
          Event.write8 TCPC_POWER_CTRL
            (w.input.getD 1 0 % 256 ||| TCPC_POWER_CTRL_FORCEDISCH)], ?_, ?_, ?_, ?_, ?_⟩
  · rw [cc_change_changed w b hb hchg, cc_to_typec_snk _ _ hterm, cc_to_typec_snk _ _ hterm]
    have h1 := and3_le b
    have h2 := and3_le (b >>> 2)
    generalize b &&& 3 = c1 at *
    generalize (b >>> 2) &&& 3 = c2 at *
    rcases hone with ⟨hc, rfl⟩ | ⟨rfl, hc⟩
    · interval_cases c1 <;>
      simp [tcpci_cc_change_branches, tcpci_cc_is_source, tcpci_cc_is_sink, tcpci_write_reg8,
        tcpci_read_reg8, emit, tcpci_set_vbus, tcpci_set_polarity, tcpci_set_roles, printf,
        rx_detect_all, gpio_ss_sel_eq, set_attached, set_message_id, set_cc, Outcome.andThen,
        byte_or_lt, tail_tail_eq_drop] at hc ⊢
    · interval_cases c2 <;>
      simp [tcpci_cc_change_branches, tcpci_cc_is_source, tcpci_cc_is_sink, tcpci_write_reg8,
        tcpci_read_reg8, emit, tcpci_set_vbus, tcpci_set_polarity, tcpci_set_roles, printf,
        rx_detect_all, gpio_ss_sel_eq, set_attached, set_message_id, set_cc, Outcome.andThen,
        byte_or_lt, tail_tail_eq_drop] at hc ⊢
  · simp only [writes_append, writes_gpio_events]
    simp [writes, Event.isWrite]
  · have hg := mem_gpio_events_not_write w.sc.sc_ss_sel
    simp [hg]
  · have hg := mem_gpio_events_not_write w.sc.sc_ss_sel
    simp [hg]
  · have hg := mem_gpio_events_not_write w.sc.sc_ss_sel
    simp [hg]

/-- C2 at the input named in the claim: previous byte 0x00, CC_STATUS reads 0x11
(cc1 = Rp-default, cc2 = open, termination set); polarity CC1, ROLE_CTRL = 0x0e. -/
theorem cc_change_sink_attach_witness :
    ∃ t, tcpci_cc_change (world0 [0x11, 0x20]) = Outcome.ok
        { sc := { sc0 with sc_message_id := 0, sc_data_role := TYPEC_DEVICE,
                           sc_power_role := TYPEC_SINK, sc_attached := 1, sc_cc := 0x11 },
          input := [],
          trace := [] ++ t } ∧
      writes t = [
          Event.write8 0x19 0, Event.write8 0x1a 0x0e, Event.write8 0x2e 0x02,
          Event.write8 0x2f 0x3f, Event.write8 0x23 0x66, Event.write8 0x23 0x44,
          Event.write8 0x78 0x1c, Event.write8 0x1c 0x24] ∧
      Event.write8 0x23 0x77 ∉ t ∧ Event.write8 0x23 0x88 ∉ t ∧ Event.write8 0x23 0x55 ∉ t :=
  cc_change_sink_attach (world0 [0x11, 0x20]) 0x11
    (by decide) (by decide) (by decide) (by decide)

/-- After a run of tcpci_cc_change that returned, sc_cc holds the byte that was read. -/
theorem cc_change_ok_sc_cc (w w1 : World) (h : tcpci_cc_change w = Outcome.ok w1) :
    w1.sc.sc_cc = w.input.headD 0 % 256 := by
  unfold tcpci_cc_change at h
  simp only [tcpci_read_reg8] at h
  split_ifs at h with heq
  · injection h with h
    rw [← h]
    exact heq
  · revert h
    generalize tcpci_cc_change_branches _ _ _ = o
    cases o with
    | ok w2 =>
      intro h
      simp only [Outcome.andThen] at h
      injection h with h
      rw [← h]
      rfl
    | panic w2 =>
      intro h
      simp [Outcome.andThen] at h

/-- An unchanged CC byte: the call only reads CC_STATUS. -/
theorem cc_change_same (w : World) (h : w.sc.sc_cc = w.input.headD 0 % 256) :
    tcpci_cc_change w = Outcome.ok
      { w with input := w.input.tail,
               trace := w.trace ++ [Event.read8 TCPC_CC_STATUS (w.input.headD 0 % 256)] } := by
  unfold tcpci_cc_change
  simp only [tcpci_read_reg8]
  rw [if_pos h]

/-- C1: debounce by identity.  If CC_STATUS reads the stored byte sc_cc,
tcpci_cc_change only reads CC_STATUS: no register write, no state field
changed.  Hence when a run that returned is followed by a run in which
CC_STATUS reads the same byte b, the second run writes no register and leaves
the state as the first run left it. -/
theorem cc_change_debounce (w : World) (b : Nat) (hb : w.input.headD 0 % 256 = b) :
    (w.sc.sc_cc = b →
      tcpci_cc_change w = Outcome.ok
        { w with input := w.input.tail,
                 trace := w.trace ++ [Event.read8 TCPC_CC_STATUS b] }) ∧
    (∀ w1, tcpci_cc_change w = Outcome.ok w1 → w1.input.headD 0 % 256 = b →
      tcpci_cc_change w1 = Outcome.ok
        { w1 with input := w1.input.tail,
                  trace := w1.trace ++ [Event.read8 TCPC_CC_STATUS b] }) := by
  constructor
  · intro h
    subst hb
    exact cc_change_same w h
  · intro w1 h1 hb1
    have hcc := cc_change_ok_sc_cc w w1 h1
    rw [hb, ← hb1] at hcc
    rw [← hb1]
    exact cc_change_same w1 hcc

/-- C1 at a concrete input: CC_STATUS reads 0x11 twice; the first run attaches as
sink, the second run only reads CC_STATUS. -/
theorem cc_change_debounce_witness :
    tcpci_cc_change (world0 [0x11, 0x20, 0x11]) =
        Outcome.ok (tcpci_cc_change (world0 [0x11, 0x20, 0x11])).world ∧
    tcpci_cc_change (tcpci_cc_change (world0 [0x11, 0x20, 0x11])).world = Outcome.ok
      { (tcpci_cc_change (world0 [0x11, 0x20, 0x11])).world with
          input := (tcpci_cc_change (world0 [0x11, 0x20, 0x11])).world.input.tail,
          trace := (tcpci_cc_change (world0 [0x11, 0x20, 0x11])).world.trace ++
            [Event.read8 TCPC_CC_STATUS 0x11] } :=
  ⟨by decide,
   (cc_change_debounce (world0 [0x11, 0x20, 0x11]) 0x11 (by decide)).2
     (tcpci_cc_change (world0 [0x11, 0x20, 0x11])).world (by decide) (by decide)⟩

/-- C5 (code at the failing input): with previous byte 0, a CC_STATUS reading of
0x05 (both pins Ra, termination clear) is recognised by tcpci_cc_is_audio, yet
tcpci_cc_change ends in panic, with sc_cc not recorded. -/
theorem cc_change_audio_accessory_panics :
    tcpci_cc_is_audio (tcpci_cc_to_typec (0x05 &&& 3) (0x05 &&& 0x10))
      (tcpci_cc_to_typec ((0x05 >>> 2) &&& 3) (0x05 &&& 0x10)) = true ∧
    tcpci_cc_change (world0 [0x05]) = Outcome.panic
      { sc := sc0, input := [], trace := [Event.read8 TCPC_CC_STATUS 0x05] } := by
  decide

/-- Which decoded pin pairs make the branch chain panic. -/
theorem cc_branches_panicked (cc1 cc2 : typec_cc_status) (w : World) :
    (tcpci_cc_change_branches cc1 cc2 w).panicked =
      (!(decide (cc1 = TYPEC_CC_OPEN ∧ cc2 = TYPEC_CC_OPEN)) && !(tcpci_cc_is_source cc1 cc2)
        && !(tcpci_cc_is_sink cc1 cc2) && !(tcpci_cc_is_audio_detached cc1 cc2)) := by
  unfold tcpci_cc_change_branches
  split_ifs <;> simp_all [Outcome.panicked]
  tauto

theorem panicked_andThen_ok (o : Outcome) (f : World → World) :
    (o.andThen (fun w => Outcome.ok (f w))).panicked = o.panicked := by
  cases o <;> rfl

/-- A branch chain that panics does so in the world it was entered with. -/
theorem cc_branches_panic_world (cc1 cc2 : typec_cc_status) (w : World)
    (h : (tcpci_cc_change_branches cc1 cc2 w).panicked = true) :
    tcpci_cc_change_branches cc1 cc2 w = Outcome.panic w := by
  unfold tcpci_cc_change_branches at h ⊢
  split_ifs at h ⊢ <;> simp_all [Outcome.panicked]

/-- Both pins Ra (termination clear, both codes 1) on a changed byte: for every
driver state the run ends in panic right after the CC_STATUS read. -/
theorem cc_change_both_ra_panics (w : World) (b : Nat)
    (hb : w.input.headD 0 % 256 = b) (hchg : w.sc.sc_cc ≠ b)
    (hra : b &&& 0x10 = 0 ∧ b &&& 3 = 1 ∧ (b >>> 2) &&& 3 = 1) :
    tcpci_cc_change w = Outcome.panic
      { w with input := w.input.tail,
               trace := w.trace ++ [Event.read8 TCPC_CC_STATUS b] } := by
  rw [cc_change_changed w b hb hchg]
  have hp : (tcpci_cc_change_branches (tcpci_cc_to_typec (b &&& 3) (b &&& 0x10))
      (tcpci_cc_to_typec ((b >>> 2) &&& 3) (b &&& 0x10))
      { w with input := w.input.tail,
               trace := w.trace ++ [Event.read8 TCPC_CC_STATUS b] }).panicked = true := by
    rw [cc_branches_panicked, hra.1, hra.2.1, hra.2.2]
    decide
  rw [cc_branches_panic_world _ _ _ hp]
  rfl

/-- C6: protocol violation.  For a changed CC byte with both pins Rd
(termination clear, both codes 2) or both pins an Rp-class code (termination
set, both codes non-zero), tcpci_cc_change ends in panic having only read
CC_STATUS: sc_cc, the roles and sc_attached are not updated.  For a changed
byte under the detach, source-attach, sink-attach or audio-detached rule the
call does not panic. -/
theorem cc_change_violation (w : World) (b : Nat)
    (hb : w.input.headD 0 % 256 = b) (hchg : w.sc.sc_cc ≠ b) :
    (((b &&& 0x10 = 0 ∧ b &&& 3 = 2 ∧ (b >>> 2) &&& 3 = 2) ∨
      (b &&& 0x10 ≠ 0 ∧ b &&& 3 ≠ 0 ∧ (b >>> 2) &&& 3 ≠ 0)) →
      tcpci_cc_change w = Outcome.panic
        { w with input := w.input.tail,
                 trace := w.trace ++ [Event.read8 TCPC_CC_STATUS b] }) ∧
    (((b &&& 0x10 = 0 ∧ (b &&& 3 = 0 ∨ b &&& 3 = 3) ∧
          ((b >>> 2) &&& 3 = 0 ∨ (b >>> 2) &&& 3 = 3)) ∨
      (b &&& 0x10 ≠ 0 ∧ b &&& 3 = 0 ∧ (b >>> 2) &&& 3 = 0) ∨
      (b &&& 0x10 = 0 ∧
          ((b &&& 3 = 2 ∧ (b >>> 2) &&& 3 ≠ 2) ∨ (b &&& 3 ≠ 2 ∧ (b >>> 2) &&& 3 = 2))) ∨
      (b &&& 0x10 ≠ 0 ∧
          ((b &&& 3 ≠ 0 ∧ (b >>> 2) &&& 3 = 0) ∨ (b &&& 3 = 0 ∧ (b >>> 2) &&& 3 ≠ 0))) ∨
      (b &&& 0x10 = 0 ∧
          ((b &&& 3 = 1 ∧ ((b >>> 2) &&& 3 = 0 ∨ (b >>> 2) &&& 3 = 3)) ∨
           ((b >>> 2) &&& 3 = 1 ∧ (b &&& 3 = 0 ∨ b &&& 3 = 3))))) →
      (tcpci_cc_change w).panicked = false) := by
  have h1 := and3_le b
  have h2 := and3_le (b >>> 2)
  rw [cc_change_changed w b hb hchg]
  constructor
  · intro h
    have hp : (tcpci_cc_change_branches (tcpci_cc_to_typec (b &&& 3) (b &&& 0x10))
        (tcpci_cc_to_typec ((b >>> 2) &&& 3) (b &&& 0x10))
        { w with input := w.input.tail,
                 trace := w.trace ++ [Event.read8 TCPC_CC_STATUS b] }).panicked = true := by
      rw [cc_branches_panicked]
      rcases h with ⟨hs, hc1, hc2⟩ | ⟨hs, hc1, hc2⟩
      · rw [hs, hc1, hc2]; decide
      · rw [cc_to_typec_snk _ _ hs, cc_to_typec_snk _ _ hs]
        generalize b &&& 3 = c1 at *
        generalize (b >>> 2) &&& 3 = c2 at *
        interval_cases c1 <;> interval_cases c2 <;> simp at hc1 hc2 ⊢ <;> decide
    rw [cc_branches_panic_world _ _ _ hp]
    rfl
  · intro h
    rw [panicked_andThen_ok, cc_branches_panicked]
    by_cases hs : b &&& 0x10 = 0
    · rw [hs, cc_to_typec_src _ h1, cc_to_typec_src _ h2]
      simp only [hs, ne_eq, not_true_eq_false, false_and, true_and, false_or, or_false] at h
      generalize b &&& 3 = c1 at *
      generalize (b >>> 2) &&& 3 = c2 at *
      interval_cases c1 <;> interval_cases c2 <;> simp at h ⊢ <;> decide
    · rw [cc_to_typec_snk _ _ hs, cc_to_typec_snk _ _ hs]
      simp only [hs, ne_eq, not_false_eq_true, false_and, true_and, false_or, or_false] at h
      generalize b &&& 3 = c1 at *
      generalize (b >>> 2) &&& 3 = c2 at *
      interval_cases c1 <;> interval_cases c2 <;> simp at h ⊢ <;> decide

/-- C6 at concrete inputs: 0x0a (both pins Rd) stops in panic with the state
untouched; 0x01 (pin 1 Ra, pin 2 open) does not panic. -/
theorem cc_change_violation_witness :
    tcpci_cc_change (world0 [0x0a]) = Outcome.panic
      { world0 [0x0a] with input := [], trace := [] ++ [Event.read8 TCPC_CC_STATUS 0x0a] } ∧
    (tcpci_cc_change (world0 [0x01])).panicked = false :=
  ⟨(cc_change_violation (world0 [0x0a]) 0x0a (by decide) (by decide)).1 (by decide),
   (cc_change_violation (world0 [0x01]) 0x01 (by decide) (by decide)).2 (by decide)⟩

/-! ### The transmit loop -/

theorem tx_attempt_eq (k : usbpd) (pd0 : pd_message) (w : World) :
    tcpci_tx_attempt k pd0 w =
      { w with trace := w.trace ++ tx_frame_events k pd0 w.sc.sc_data_role } := by
  unfold tx_frame_events tcpci_tx_attempt
  simp only [tcpci_write_reg8, tcpci_write_reg16, tcpci_write_block, emit]
  split_ifs <;> simp

/-- The frame of one transmit attempt, written out. -/
theorem tx_frame_events_eq (k : usbpd) (pd0 : pd_message) (role : typec_data_role) :
    tx_frame_events k pd0 role =
      [Event.write8 TCPC_TX_BYTE_CNT
         ((2 + ((pd0.header >>> k.PD_HEADER_CNT_SHIFT) &&& k.PD_HEADER_CNT_MASK) % 65536 * 4)
           % 256),
       Event.write16 TCPC_TX_HDR (pd0.header % 65536)] ++
      (if ((pd0.header >>> k.PD_HEADER_CNT_SHIFT) &&& k.PD_HEADER_CNT_MASK) % 65536 ≠ 0 then
         [Event.writeBlock TCPC_TX_DATA
            (((List.range (((pd0.header >>> k.PD_HEADER_CNT_SHIFT) &&& k.PD_HEADER_CNT_MASK)
                % 65536)).map (fun i => pd0.payload.getD i 0)).flatMap bytes_of_u32)]
       else []) ++
      [Event.write8 TCPC_TRANSMIT
         (((if ((pd0.header >>> k.PD_HEADER_CNT_SHIFT) &&& k.PD_HEADER_CNT_MASK) % 65536 ≠ 0 ∧
               (pd0.header &&& k.PD_HEADER_TYPE_MASK) % 65536 = k.PD_DATA_VENDOR_DEF ∧
               role = TYPEC_HOST
            then k.TCPC_TX_SOP_DEBUG_PRIME_PRIME else k.TCPC_TX_SOP) % 256 |||
           TCPC_TRANSMIT_RETRY_DEF) % 256)] := by
  unfold tx_frame_events tcpci_tx_attempt
  simp only [tcpci_write_reg8, tcpci_write_reg16, tcpci_write_block, emit, htole16, htole32]
  split_ifs <;> simp_all

theorem tx_writes_append (s t : List Event) : tx_writes (s ++ t) = tx_writes s ++ tx_writes t := by
  simp [tx_writes]

theorem transmit_count_append (s t : List Event) :
    transmit_count (s ++ t) = transmit_count s + transmit_count t := by
  simp [transmit_count]

theorem tx_writes_frame (k : usbpd) (pd0 : pd_message) (role : typec_data_role) :
    tx_writes (tx_frame_events k pd0 role) = tx_frame_events k pd0 role := by
  unfold tx_frame_events tcpci_tx_attempt
  simp only [tcpci_write_reg8, tcpci_write_reg16, tcpci_write_block, emit]
  split_ifs <;> simp [tx_writes, Event.isTxWrite, Event.isWriteTo]

theorem transmit_count_frame (k : usbpd) (pd0 : pd_message) (role : typec_data_role) :
    transmit_count (tx_frame_events k pd0 role) = 1 := by
  unfold tx_frame_events tcpci_tx_attempt
  simp only [tcpci_write_reg8, tcpci_write_reg16, tcpci_write_block, emit]
  split_ifs <;> simp [transmit_count, Event.isWriteTo]

theorem count_success_frame (k : usbpd) (pd0 : pd_message) (role : typec_data_role) :
    (tx_frame_events k pd0 role).count (Event.printf LogLine.tx_success) = 0 := by
  unfold tx_frame_events tcpci_tx_attempt
  simp only [tcpci_write_reg8, tcpci_write_reg16, tcpci_write_block, emit]
  split_ifs <;> simp

theorem tx_writes_idle (idle : List Nat) : tx_writes (idle_events idle) = [] := by
  induction idle with
  | nil => rfl
  | cons r idle ih =>
    simp only [idle_events, List.flatMap_cons] at ih ⊢
    rw [tx_writes_append, ih]
    simp [tx_writes, Event.isTxWrite, Event.isWriteTo]

theorem transmit_count_idle (idle : List Nat) : transmit_count (idle_events idle) = 0 := by
  induction idle with
  | nil => rfl
  | cons r idle ih =>
    simp only [idle_events, List.flatMap_cons] at ih ⊢
    rw [transmit_count_append, ih]
    simp [transmit_count, Event.isWriteTo]

theorem count_success_idle (idle : List Nat) :
    (idle_events idle).count (Event.printf LogLine.tx_success) = 0 := by
  induction idle with
  | nil => rfl
  | cons r idle ih =>
    simp only [idle_events, List.flatMap_cons] at ih ⊢
    rw [List.count_append, ih]
    simp

theorem tx_writes_failure (f : Nat) (more : Bool) : tx_writes (failure_events f more) = [] := by
  cases more <;> simp [failure_events, tx_writes, Event.isTxWrite, Event.isWriteTo]

theorem transmit_count_failure (f : Nat) (more : Bool) :
    transmit_count (failure_events f more) = 0 := by
  cases more <;> simp [failure_events, transmit_count, Event.isWriteTo]

theorem count_success_failure (f : Nat) (more : Bool) :
    (failure_events f more).count (Event.printf LogLine.tx_success) = 0 := by
  cases more <;> simp [failure_events] <;> split_ifs <;> simp

theorem tx_writes_success (s : Nat) : tx_writes (success_events s) = [] := by
  simp [success_events, tx_writes, Event.isTxWrite, Event.isWriteTo]

theorem transmit_count_success (s : Nat) : transmit_count (success_events s) = 0 := by
  simp [success_events, transmit_count, Event.isWriteTo]

theorem count_success_success (s : Nat) :
    (success_events s).count (Event.printf LogLine.tx_success) = 1 := by
  simp [success_events]

theorem alert_tx_bits_lt (r : Nat) : alert_tx_bits r < 65536 :=
  lt_of_le_of_lt Nat.and_le_left (Nat.mod_lt _ (by decide))

/-- Polling passes that see no transmit-completion bit only read and wait. -/
theorem tx_poll_idle (k : usbpd) (retry : Nat) :
    ∀ (idle : List Nat) (n : Nat) (w : World) (rest : List Nat),
      (∀ r ∈ idle, alert_tx_bits r = 0) → w.input = idle ++ rest →
      tcpci_tx_poll k retry (idle.length + n) w =
        tcpci_tx_poll k retry n
          { w with input := rest, trace := w.trace ++ idle_events idle } := by
  intro idle
  induction idle with
  | nil =>
    intro n w rest _ hin
    simp only [List.nil_append] at hin
    simp [idle_events, ← hin]
  | cons r idle ih =>
    intro n w rest hidle hin
    have hr : alert_tx_bits r = 0 := hidle r (List.mem_cons_self _ _)
    have hr2 : (r % 65536) &&& (64 ||| 32 ||| 16) = 0 := hr
    have hrest : ∀ x ∈ idle, alert_tx_bits x = 0 := fun x hx => hidle x (List.mem_cons_of_mem _ hx)
    have hlen : (r :: idle).length + n = (idle.length + n) + 1 := by
      simp only [List.length_cons]; omega
    rw [hlen, tcpci_tx_poll]
    simp only [tcpci_read_reg16, hin, List.cons_append, List.headD_cons, List.tail_cons]
    simp only [TCPC_ALERT_TX_SUCCESS, TCPC_ALERT_TX_DISCARDED, TCPC_ALERT_TX_FAILED,
      Nat.reduceShiftLeft, hr2, Nat.zero_and, ne_eq, not_true_eq_false, if_false]
    rw [ih n _ rest hrest rfl]
    simp [delay, emit, idle_events]

/-- The polling pass that sees TX_SUCCESS. -/
theorem tx_poll_success (k : usbpd) (retry n : Nat) (w : World) (s : Nat) (rest : List Nat)
    (hs : alert_tx_bits s &&& TCPC_ALERT_TX_SUCCESS ≠ 0) (hin : w.input = s :: rest) :
    tcpci_tx_poll k retry (n + 1) w =
      (false,
       { sc := { w.sc with
                   sc_message_id := (w.sc.sc_message_id + 1) &&& k.PD_HEADER_ID_MASK },
         input := rest, trace := w.trace ++ success_events s }) := by
  have hne : alert_tx_bits s ≠ 0 := by
    intro h0
    rw [h0] at hs
    simp at hs
  have hlt := Nat.mod_eq_of_lt (alert_tx_bits_lt s)
  rw [tcpci_tx_poll]
  simp only [tcpci_read_reg16, hin, List.headD_cons, List.tail_cons]
  have hs2 : (s % 65536) &&& (TCPC_ALERT_TX_SUCCESS ||| TCPC_ALERT_TX_DISCARDED |||
      TCPC_ALERT_TX_FAILED) = alert_tx_bits s := rfl
  rw [hs2]
  have hs3 : alert_tx_bits s &&& 64 ≠ 0 := hs
  simp [hs3, hne, tcpci_write_reg16, emit, printf, set_message_id, success_events, hlt]

/-- The polling pass that sees TX_DISCARDED or TX_FAILED without TX_SUCCESS. -/
theorem tx_poll_failure (k : usbpd) (retry n : Nat) (w : World) (f : Nat) (rest : List Nat)
    (hns : alert_tx_bits f &&& TCPC_ALERT_TX_SUCCESS = 0)
    (hf : alert_tx_bits f &&& TCPC_ALERT_TX_DISCARDED ≠ 0 ∨
          alert_tx_bits f &&& TCPC_ALERT_TX_FAILED ≠ 0)
    (hin : w.input = f :: rest) :
    tcpci_tx_poll k retry (n + 1) w =
      (decide (retry ≠ 0),
       { w with input := rest,
                trace := w.trace ++ failure_events f (decide (retry ≠ 0)) }) := by
  have hne : alert_tx_bits f ≠ 0 := by
    intro h0
    rw [h0] at hf
    simp at hf
  have hlt := Nat.mod_eq_of_lt (alert_tx_bits_lt f)
  rw [tcpci_tx_poll]
  simp only [tcpci_read_reg16, hin, List.headD_cons, List.tail_cons]
  have hs2 : (f % 65536) &&& (TCPC_ALERT_TX_SUCCESS ||| TCPC_ALERT_TX_DISCARDED |||
      TCPC_ALERT_TX_FAILED) = alert_tx_bits f := rfl
  rw [hs2]
  have hns : alert_tx_bits f &&& 64 = 0 := hns
  by_cases hd : alert_tx_bits f &&& 32 = 0
  · have hfl : alert_tx_bits f &&& 16 ≠ 0 := by
      rcases hf with h | h
      · exact absurd hd h
      · exact h
    by_cases hr : retry = 0 <;>
    simp [hns, hd, hfl, hne, hr, tcpci_write_reg16, emit, printf, delay, failure_events, hlt]
  · by_cases hr : retry = 0 <;>
    simp [hns, hd, hne, hr, tcpci_write_reg16, emit, printf, delay, failure_events, hlt]

/-- An attempt whose polling ends with TX_SUCCESS. -/
theorem send_again_success (k : usbpd) (pd0 : pd_message) (retry : Nat) (w : World)
    (idle : List Nat) (s : Nat) (rest : List Nat)
    (hlen : idle.length < 1000) (hidle : ∀ r ∈ idle, alert_tx_bits r = 0)
    (hs : alert_tx_bits s &&& TCPC_ALERT_TX_SUCCESS ≠ 0)
    (hin : w.input = idle ++ s :: rest) :
    tcpci_send_message_hw_again k pd0 (retry + 1) w =
      { sc := { w.sc with
                  sc_message_id := (w.sc.sc_message_id + 1) &&& k.PD_HEADER_ID_MASK },
        input := rest,
        trace := w.trace ++ (tx_frame_events k pd0 w.sc.sc_data_role ++ idle_events idle ++
          success_events s) } := by
  have h1000 : 1000 = idle.length + ((999 - idle.length) + 1) := by omega
  rw [tcpci_send_message_hw_again]
  simp only [tx_attempt_eq]
  rw [h1000, tx_poll_idle k retry idle _
      { w with trace := w.trace ++ tx_frame_events k pd0 w.sc.sc_data_role }
      (s :: rest) hidle hin,
    tx_poll_success k retry _ _ s rest hs rfl]
  simp

/-- An attempt whose polling ends with a failure while retries remain. -/
theorem send_again_failure_more (k : usbpd) (pd0 : pd_message) (retry : Nat) (w : World)
    (idle : List Nat) (f : Nat) (rest : List Nat)
    (hlen : idle.length < 1000) (hidle : ∀ r ∈ idle, alert_tx_bits r = 0)
    (hns : alert_tx_bits f &&& TCPC_ALERT_TX_SUCCESS = 0)
    (hf : alert_tx_bits f &&& TCPC_ALERT_TX_DISCARDED ≠ 0 ∨
          alert_tx_bits f &&& TCPC_ALERT_TX_FAILED ≠ 0)
    (hin : w.input = idle ++ f :: rest) :
    tcpci_send_message_hw_again k pd0 (retry + 2) w =
      tcpci_send_message_hw_again k pd0 (retry + 1)
        { w with input := rest,
                 trace := w.trace ++ (tx_frame_events k pd0 w.sc.sc_data_role ++
                   idle_events idle ++ failure_events f true) } := by
  have h1000 : 1000 = idle.length + ((999 - idle.length) + 1) := by omega
  rw [tcpci_send_message_hw_again]
  simp only [tx_attempt_eq]
  rw [h1000, tx_poll_idle k (retry + 1) idle _
      { w with trace := w.trace ++ tx_frame_events k pd0 w.sc.sc_data_role }
      (f :: rest) hidle hin,
    tx_poll_failure k (retry + 1) _ _ f rest hns hf rfl]
  simp

/-- The last permitted attempt, ending with a failure. -/
theorem send_again_failure_last (k : usbpd) (pd0 : pd_message) (w : World)
    (idle : List Nat) (f : Nat) (rest : List Nat)
    (hlen : idle.length < 1000) (hidle : ∀ r ∈ idle, alert_tx_bits r = 0)
    (hns : alert_tx_bits f &&& TCPC_ALERT_TX_SUCCESS = 0)
    (hf : alert_tx_bits f &&& TCPC_ALERT_TX_DISCARDED ≠ 0 ∨
          alert_tx_bits f &&& TCPC_ALERT_TX_FAILED ≠ 0)
    (hin : w.input = idle ++ f :: rest) :
    tcpci_send_message_hw_again k pd0 1 w =
      { w with input := rest,
               trace := w.trace ++ (tx_frame_events k pd0 w.sc.sc_data_role ++
                 idle_events idle ++ failure_events f false) } := by
  have h1000 : 1000 = idle.length + ((999 - idle.length) + 1) := by omega
  rw [tcpci_send_message_hw_again]
  simp only [tx_attempt_eq]
  rw [h1000, tx_poll_idle k 0 idle _
      { w with trace := w.trace ++ tx_frame_events k pd0 w.sc.sc_data_role }
      (f :: rest) hidle hin,
    tx_poll_failure k 0 _ _ f rest hns hf rfl]
  simp

/-- Failed attempts followed by a successful one, with retries to spare. -/
theorem send_again_retries (k : usbpd) (pd0 : pd_message) :
    ∀ (answers : List (List Nat × Nat)) (retry : Nat) (w : World) (idle : List Nat) (s : Nat)
      (rest : List Nat),
      answers.length ≤ retry →
      (∀ a ∈ answers, a.1.length < 1000 ∧ (∀ r ∈ a.1, alert_tx_bits r = 0) ∧
        alert_tx_bits a.2 &&& TCPC_ALERT_TX_SUCCESS = 0 ∧
        (alert_tx_bits a.2 &&& TCPC_ALERT_TX_DISCARDED ≠ 0 ∨
         alert_tx_bits a.2 &&& TCPC_ALERT_TX_FAILED ≠ 0)) →
      idle.length < 1000 → (∀ r ∈ idle, alert_tx_bits r = 0) →
      alert_tx_bits s &&& TCPC_ALERT_TX_SUCCESS ≠ 0 →
      w.input = answers.flatMap (fun a => a.1 ++ [a.2]) ++ (idle ++ s :: rest) →
      ∃ t, tcpci_send_message_hw_again k pd0 (retry + 1) w =
          { sc := { w.sc with
                      sc_message_id := (w.sc.sc_message_id + 1) &&& k.PD_HEADER_ID_MASK },
            input := rest, trace := w.trace ++ t } ∧
        transmit_count t = answers.length + 1 ∧
        tx_writes t =
          (List.replicate (answers.length + 1)
            (tx_frame_events k pd0 w.sc.sc_data_role)).flatten ∧
        t.count (Event.printf LogLine.tx_success) = 1 := by
  intro answers
  induction answers with
  | nil =>
    intro retry w idle s rest _ _ hlen hidle hs hin
    simp only [List.flatMap_nil, List.nil_append] at hin
    refine ⟨_, send_again_success k pd0 retry w idle s rest hlen hidle hs hin, ?_, ?_, ?_⟩
    · simp [transmit_count_append, transmit_count_frame, transmit_count_idle,
        transmit_count_success]
    · simp [tx_writes_append, tx_writes_frame, tx_writes_idle, tx_writes_success]
    · simp [List.count_append, count_success_frame, count_success_idle,
        count_success_success]
  | cons a answers ih =>
    intro retry w idle s rest hle hans hlen hidle hs hin
    obtain ⟨halen, haidle, hans1, hans2⟩ := hans a (List.mem_cons_self _ _)
    have hrest : ∀ x ∈ answers, x.1.length < 1000 ∧ (∀ r ∈ x.1, alert_tx_bits r = 0) ∧
        alert_tx_bits x.2 &&& TCPC_ALERT_TX_SUCCESS = 0 ∧
        (alert_tx_bits x.2 &&& TCPC_ALERT_TX_DISCARDED ≠ 0 ∨
         alert_tx_bits x.2 &&& TCPC_ALERT_TX_FAILED ≠ 0) :=
      fun x hx => hans x (List.mem_cons_of_mem _ hx)
    simp only [List.length_cons] at hle
    obtain ⟨retry1, rfl⟩ : ∃ r, retry = r + 1 := ⟨retry - 1, by omega⟩
    have hin2 : w.input = a.1 ++ a.2 ::
        (answers.flatMap (fun a => a.1 ++ [a.2]) ++ (idle ++ s :: rest)) := by
      rw [hin]
      simp
    rw [send_again_failure_more k pd0 retry1 w a.1 a.2 _ halen haidle hans1 hans2 hin2]
    have hle2 : answers.length ≤ retry1 := by omega
    obtain ⟨t, ht, hc, hw, hsucc⟩ := ih retry1
      { w with input := answers.flatMap (fun a => a.1 ++ [a.2]) ++ (idle ++ s :: rest),
               trace := w.trace ++ (tx_frame_events k pd0 w.sc.sc_data_role ++
                 idle_events a.1 ++ failure_events a.2 true) }
      idle s rest hle2 hrest hlen hidle hs rfl
    refine ⟨(tx_frame_events k pd0 w.sc.sc_data_role ++ idle_events a.1 ++
        failure_events a.2 true) ++ t, ?_, ?_, ?_, ?_⟩
    · rw [ht]
      simp
    · simp only [transmit_count_append, transmit_count_frame, transmit_count_idle,
        transmit_count_failure, hc, List.length_cons]
      omega
    · simp only [tx_writes_append, tx_writes_frame, tx_writes_idle, tx_writes_failure, hw,
        List.length_cons, List.append_nil]
      rw [List.replicate_succ (n := answers.length + 1), List.flatten_cons]
    · simp only [List.count_append, count_success_frame, count_success_idle,
        count_success_failure, hsucc]

/-- Failed attempts that use up all retries. -/
theorem send_again_exhaust (k : usbpd) (pd0 : pd_message) :
    ∀ (answers : List (List Nat × Nat)) (retry : Nat) (w : World) (rest : List Nat),
      answers.length = retry + 1 →
      (∀ a ∈ answers, a.1.length < 1000 ∧ (∀ r ∈ a.1, alert_tx_bits r = 0) ∧
        alert_tx_bits a.2 &&& TCPC_ALERT_TX_SUCCESS = 0 ∧
        (alert_tx_bits a.2 &&& TCPC_ALERT_TX_DISCARDED ≠ 0 ∨
         alert_tx_bits a.2 &&& TCPC_ALERT_TX_FAILED ≠ 0)) →
      w.input = answers.flatMap (fun a => a.1 ++ [a.2]) ++ rest →
      ∃ t, tcpci_send_message_hw_again k pd0 (retry + 1) w =
          { w with input := rest, trace := w.trace ++ t } ∧
        transmit_count t = retry + 1 ∧
        tx_writes t =
          (List.replicate (retry + 1) (tx_frame_events k pd0 w.sc.sc_data_role)).flatten ∧
        t.count (Event.printf LogLine.tx_success) = 0 := by
  intro answers
  induction answers with
  | nil =>
    intro retry w rest hlen
    simp at hlen
  | cons a answers ih =>
    intro retry w rest hlen hans hin
    obtain ⟨halen, haidle, hans1, hans2⟩ := hans a (List.mem_cons_self _ _)
    have hrest : ∀ x ∈ answers, x.1.length < 1000 ∧ (∀ r ∈ x.1, alert_tx_bits r = 0) ∧
        alert_tx_bits x.2 &&& TCPC_ALERT_TX_SUCCESS = 0 ∧
        (alert_tx_bits x.2 &&& TCPC_ALERT_TX_DISCARDED ≠ 0 ∨
         alert_tx_bits x.2 &&& TCPC_ALERT_TX_FAILED ≠ 0) :=
      fun x hx => hans x (List.mem_cons_of_mem _ hx)
    simp only [List.length_cons] at hlen
    have hin2 : w.input = a.1 ++ a.2 :: (answers.flatMap (fun a => a.1 ++ [a.2]) ++ rest) := by
      rw [hin]
      simp
    cases retry with
    | zero =>
      have hnil : answers = [] := List.length_eq_zero.mp (by omega)
      subst hnil
      simp only [List.flatMap_nil, List.nil_append] at hin2
      refine ⟨_, send_again_failure_last k pd0 w a.1 a.2 rest halen haidle hans1 hans2 hin2,
        ?_, ?_, ?_⟩
      · simp [transmit_count_append, transmit_count_frame, transmit_count_idle,
          transmit_count_failure]
      · simp [tx_writes_append, tx_writes_frame, tx_writes_idle, tx_writes_failure]
      · simp [List.count_append, count_success_frame, count_success_idle,
          count_success_failure]
    | succ retry1 =>
      rw [send_again_failure_more k pd0 retry1 w a.1 a.2 _ halen haidle hans1 hans2 hin2]
      have hlen2 : answers.length = retry1 + 1 := by omega
      obtain ⟨t, ht, hc, hw, hsucc⟩ := ih retry1
        { w with input := answers.flatMap (fun a => a.1 ++ [a.2]) ++ rest,
                 trace := w.trace ++ (tx_frame_events k pd0 w.sc.sc_data_role ++
                   idle_events a.1 ++ failure_events a.2 true) }
        rest hlen2 hrest rfl
      refine ⟨(tx_frame_events k pd0 w.sc.sc_data_role ++ idle_events a.1 ++
        failure_events a.2 true) ++ t, ?_, ?_, ?_, ?_⟩
      · rw [ht]
        simp
      · simp only [transmit_count_append, transmit_count_frame, transmit_count_idle,
          transmit_count_failure, hc]
        omega
      · simp only [tx_writes_append, tx_writes_frame, tx_writes_idle, tx_writes_failure, hw,
          List.append_nil]
        rw [List.replicate_succ (n := retry1 + 1), List.flatten_cons]
      · simp only [List.count_append, count_success_frame, count_success_idle,
          count_success_failure, hsucc]

/-- Outcome of the polling loop for any device behaviour: either it saw
TX_SUCCESS (one more "TX success" line, message-ID advanced, loop left by
break), or it saw none (no such line, softc untouched). -/
theorem tx_poll_outcome (k : usbpd) (retry : Nat) :
    ∀ (n : Nat) (w : World),
      ((tcpci_tx_poll k retry n w).1 = false ∧
        success_count (tcpci_tx_poll k retry n w).2.trace = success_count w.trace + 1 ∧
        (tcpci_tx_poll k retry n w).2.sc = advance_message_id k w.sc) ∨
      (success_count (tcpci_tx_poll k retry n w).2.trace = success_count w.trace ∧
        (tcpci_tx_poll k retry n w).2.sc = w.sc) := by
  intro n
  induction n with
  | zero =>
    intro w
    right
    simp [tcpci_tx_poll]
  | succ n ih =>
    intro w
    rw [tcpci_tx_poll]
    simp only [tcpci_read_reg16]
    split_ifs
    all_goals first
      | (left; simp [success_count, tcpci_write_reg16, emit, printf, delay, set_message_id,
          advance_message_id]; done)
      | (right; simp [success_count, tcpci_write_reg16, emit, printf, delay, set_message_id,
          advance_message_id]; done)
      | skip
    all_goals
      refine (ih _).imp (fun h => ⟨h.1, ?_, ?_⟩) (fun h => ⟨?_, ?_⟩)
      · rw [h.2.1]
        simp [success_count, delay, emit, tcpci_write_reg16]
      · rw [h.2.2]
        simp [delay, emit, tcpci_write_reg16]
      · rw [h.1]
        simp [success_count, delay, emit, tcpci_write_reg16]
      · rw [h.2]
        simp [delay, emit, tcpci_write_reg16]

/-- Outcome of tcpci_send_message_hw from the label again on, for any device
behaviour: TX_SUCCESS was seen once and the message-ID advanced once, or it
was never seen and the softc is untouched. -/
theorem send_again_outcome (k : usbpd) (pd0 : pd_message) :
    ∀ (retry : Nat) (w : World),
      (success_count (tcpci_send_message_hw_again k pd0 retry w).trace =
          success_count w.trace + 1 ∧
        (tcpci_send_message_hw_again k pd0 retry w).sc = advance_message_id k w.sc) ∨
      (success_count (tcpci_send_message_hw_again k pd0 retry w).trace = success_count w.trace ∧
        (tcpci_send_message_hw_again k pd0 retry w).sc = w.sc) := by
  intro retry
  induction retry with
  | zero =>
    intro w
    right
    simp [tcpci_send_message_hw_again]
  | succ retry ih =>
    intro w
    rw [tcpci_send_message_hw_again]
    simp only [tx_attempt_eq]
    have hframe : success_count (w.trace ++ tx_frame_events k pd0 w.sc.sc_data_role) =
        success_count w.trace := by
      simp [success_count, count_success_frame]
    rcases tx_poll_outcome k retry 1000
      { w with trace := w.trace ++ tx_frame_events k pd0 w.sc.sc_data_role } with h | h
    · rw [h.1]
      left
      simp only [Bool.false_eq_true, if_false]
      exact ⟨by rw [h.2.1, hframe], h.2.2⟩
    · split_ifs
      · rcases ih (tcpci_tx_poll k retry 1000
          { w with trace := w.trace ++ tx_frame_events k pd0 w.sc.sc_data_role }).2 with h2 | h2
        · left
          exact ⟨by rw [h2.1, h.1, hframe], by rw [h2.2, h.2]⟩
        · right
          exact ⟨by rw [h2.1, h.1, hframe], by rw [h2.2, h.2]⟩
      · right
        exact ⟨by rw [h.1, hframe], h.2⟩

theorem and_0xf_eq_mod (x : Nat) : x &&& 0xf = x % 16 :=
  Nat.and_pow_two_sub_one_eq_mod x 4

/-- C7: transmit retry.  For every message and every N < 20: when the first N
transmit attempts are each answered (after fewer than 1000 polls without a
completion bit) by an ALERT reading with TX_DISCARDED and without TX_SUCCESS,
and attempt N+1 is answered by a reading with TX_SUCCESS, tcpci_send_message_hw
writes TRANSMIT exactly N+1 times, its writes to the transmit registers are N+1
copies of one and the same frame (TX_BYTE_CNT, TX_HDR, TX_DATA, TRANSMIT), it
logs success exactly once and advances sc_message_id exactly once. -/
theorem send_message_hw_retry (k : usbpd) (pd0 : pd_message) (w : World)
    (answers : List (List Nat × Nat)) (idle : List Nat) (s : Nat) (rest : List Nat)
    (hN : answers.length < 20)
    (hans : ∀ a ∈ answers, a.1.length < 1000 ∧ (∀ r ∈ a.1, alert_tx_bits r = 0) ∧
      alert_tx_bits a.2 &&& TCPC_ALERT_TX_SUCCESS = 0 ∧
      alert_tx_bits a.2 &&& TCPC_ALERT_TX_DISCARDED ≠ 0)
    (hlen : idle.length < 1000) (hidle : ∀ r ∈ idle, alert_tx_bits r = 0)
    (hs : alert_tx_bits s &&& TCPC_ALERT_TX_SUCCESS ≠ 0)
    (hin : w.input = answers.flatMap (fun a => a.1 ++ [a.2]) ++ (idle ++ s :: rest)) :
    ∃ t, tcpci_send_message_hw k pd0 w =
        { sc := { w.sc with
                    sc_message_id := (w.sc.sc_message_id + 1) &&& k.PD_HEADER_ID_MASK },
          input := rest, trace := w.trace ++ t } ∧
      transmit_count t = answers.length + 1 ∧
      tx_writes t =
        (List.replicate (answers.length + 1)
          (tx_frame_events k pd0 w.sc.sc_data_role)).flatten ∧
      t.count (Event.printf LogLine.tx_success) = 1 := by
  have hle : answers.length ≤ 19 := by omega
  exact send_again_retries k pd0 answers 19 w idle s rest hle
    (fun a ha => ⟨(hans a ha).1, (hans a ha).2.1, (hans a ha).2.2.1, Or.inl (hans a ha).2.2.2⟩)
    hlen hidle hs hin

/-- C7 at a concrete input (N = 2): ALERT reads 0, TX_DISCARDED, TX_DISCARDED,
TX_SUCCESS; three identical frames are sent and the message-ID goes from 0 to 1. -/
theorem send_message_hw_retry_witness :
    ∃ t, tcpci_send_message_hw usbpd0 pd_sample (world0 [0, 0x20, 0x20, 0x40, 7]) =
        { sc := { sc0 with sc_message_id := (0 + 1) &&& usbpd0.PD_HEADER_ID_MASK },
          input := [7], trace := [] ++ t } ∧
      transmit_count t = 2 + 1 ∧
      tx_writes t = (List.replicate (2 + 1) (tx_frame_events usbpd0 pd_sample TYPEC_DEVICE)).flatten ∧
      t.count (Event.printf LogLine.tx_success) = 1 :=
  send_message_hw_retry usbpd0 pd_sample (world0 [0, 0x20, 0x20, 0x40, 7])
    [([0], 0x20), ([], 0x20)] [] 0x40 [7]
    (by decide) (by decide) (by decide) (by decide) (by decide) (by decide)

/-- C8 (as amended): transmit exhaustion.  When each of the 20 transmit attempts
that the initial value retry = 20 permits is answered by TX_DISCARDED or
TX_FAILED (without TX_SUCCESS), tcpci_send_message_hw writes TRANSMIT exactly
20 times (the initial send and 19 retries), reads nothing further from the
device whatever readings remain available, and returns with the softc, so
sc_message_id, unchanged. -/
theorem send_message_hw_exhaustion (k : usbpd) (pd0 : pd_message) (w : World)
    (answers : List (List Nat × Nat)) (rest : List Nat)
    (hB : answers.length = 20)
    (hans : ∀ a ∈ answers, a.1.length < 1000 ∧ (∀ r ∈ a.1, alert_tx_bits r = 0) ∧
      alert_tx_bits a.2 &&& TCPC_ALERT_TX_SUCCESS = 0 ∧
      (alert_tx_bits a.2 &&& TCPC_ALERT_TX_DISCARDED ≠ 0 ∨
       alert_tx_bits a.2 &&& TCPC_ALERT_TX_FAILED ≠ 0))
    (hin : w.input = answers.flatMap (fun a => a.1 ++ [a.2]) ++ rest) :
    ∃ t, tcpci_send_message_hw k pd0 w = { w with input := rest, trace := w.trace ++ t } ∧
      transmit_count t = 20 ∧
      tx_writes t = (List.replicate 20 (tx_frame_events k pd0 w.sc.sc_data_role)).flatten ∧
      t.count (Event.printf LogLine.tx_success) = 0 :=
  send_again_exhaust k pd0 answers 19 w rest hB hans hin

/-- C8 (as amended) at a concrete input: 21 TX_DISCARDED readings are available;
20 attempts are made and the 21st reading is left unread. -/
theorem send_message_hw_exhaustion_witness :
    ∃ t, tcpci_send_message_hw usbpd0 pd_sample (world0 (List.replicate 21 0x20)) =
        { world0 (List.replicate 21 0x20) with input := [0x20], trace := [] ++ t } ∧
      transmit_count t = 20 ∧
      tx_writes t = (List.replicate 20 (tx_frame_events usbpd0 pd_sample TYPEC_DEVICE)).flatten ∧
      t.count (Event.printf LogLine.tx_success) = 0 :=
  send_message_hw_exhaustion usbpd0 pd_sample (world0 (List.replicate 21 0x20))
    (List.replicate 20 ([], 0x20)) [0x20] (by decide) (by decide) (by decide)

set_option maxRecDepth 1000000 in
/-- C8 as stated fails: with 21 consecutive TX_DISCARDED readings available and
retry starting at 20, TRANSMIT is written 20 times, not 21, and the 21st
failure is never read. -/
theorem send_message_hw_exhaustion_counterexample :
    transmit_count (tcpci_send_message_hw usbpd0 pd_sample
      (world0 (List.replicate 21 0x20))).trace = 20 ∧
    transmit_count (tcpci_send_message_hw usbpd0 pd_sample
      (world0 (List.replicate 21 0x20))).trace ≠ 21 ∧
    (tcpci_send_message_hw usbpd0 pd_sample (world0 (List.replicate 21 0x20))).input = [0x20] := by
  decide

/-- One run of tcpci_send_message_hw: the message-ID afterwards. -/
theorem send_message_hw_id (k : usbpd) (pd0 : pd_message) (w : World) :
    (tx_succeeded k pd0 w = true →
      (tcpci_send_message_hw k pd0 w).sc.sc_message_id =
        (w.sc.sc_message_id + 1) &&& k.PD_HEADER_ID_MASK) ∧
    (tx_succeeded k pd0 w = false →
      (tcpci_send_message_hw k pd0 w).sc.sc_message_id = w.sc.sc_message_id) := by
  unfold tx_succeeded tcpci_send_message_hw
  rcases send_again_outcome k pd0 20 w with h | h
  · constructor
    · intro _
      rw [h.2]
      rfl
    · intro hf
      simp [h.1] at hf
  · constructor
    · intro ht
      simp [h.1] at ht
    · intro _
      rw [h.2]

/-- Successive successful transmits count modulo 16 when the mask is 0xf. -/
theorem transmits_id (k : usbpd) (hk : k.PD_HEADER_ID_MASK = 0xf) :
    ∀ (pds : List pd_message) (w : World), all_succeeded k pds w = true →
      (transmits k pds w).sc.sc_message_id % 16 = (w.sc.sc_message_id + pds.length) % 16 ∧
      (pds ≠ [] ∨ w.sc.sc_message_id < 16 → (transmits k pds w).sc.sc_message_id < 16) := by
  intro pds
  induction pds with
  | nil =>
    intro w _
    simp [transmits]
  | cons pd0 pds ih =>
    intro w hall
    simp only [all_succeeded, Bool.and_eq_true] at hall
    have h1 := (send_message_hw_id k pd0 w).1 hall.1
    rw [hk, and_0xf_eq_mod] at h1
    have h2 := ih (tcpci_send_message_hw k pd0 w) hall.2
    simp only [transmits, List.length_cons]
    rw [h1] at h2
    constructor
    · rw [h2.1]
      omega
    · intro _
      exact h2.2 (Or.inr (Nat.mod_lt _ (by decide)))

/-- C9: message-ID wraparound (PD_HEADER_ID_MASK taken from the spec as 0xf).
A run of tcpci_send_message_hw that observes TX_SUCCESS leaves sc_message_id =
(old + 1) mod 16, a run that does not leaves it unchanged; hence after 16
successive runs that each observe TX_SUCCESS the counter holds its starting
value reduced mod 16, which for every value of a 4-bit counter (0..15) is the
starting value itself. -/
theorem message_id_wraparound (k : usbpd) (hk : k.PD_HEADER_ID_MASK = PD_HEADER_ID_MASK_spec) :
    (∀ (pd0 : pd_message) (w : World),
      (tx_succeeded k pd0 w = true →
        (tcpci_send_message_hw k pd0 w).sc.sc_message_id = (w.sc.sc_message_id + 1) % 16) ∧
      (tx_succeeded k pd0 w = false →
        (tcpci_send_message_hw k pd0 w).sc.sc_message_id = w.sc.sc_message_id)) ∧
    (∀ (pds : List pd_message) (w : World), pds.length = 16 →
      all_succeeded k pds w = true →
      (transmits k pds w).sc.sc_message_id = w.sc.sc_message_id % 16 ∧
      (w.sc.sc_message_id < 16 →
        (transmits k pds w).sc.sc_message_id = w.sc.sc_message_id)) := by
  have hk2 : k.PD_HEADER_ID_MASK = 0xf := hk
  constructor
  · intro pd0 w
    have h := send_message_hw_id k pd0 w
    rw [hk2, and_0xf_eq_mod] at h
    exact h
  · intro pds w hlen hall
    have h := transmits_id k hk2 pds w hall
    have hne : pds ≠ [] := by
      intro h0
      rw [h0] at hlen
      simp at hlen
    have hlt := h.2 (Or.inl hne)
    have hmod := h.1
    rw [hlen] at hmod
    constructor
    · omega
    · intro hid
      omega

set_option maxRecDepth 1000000 in
/-- C9 at a concrete input: starting from message-ID 5, sixteen transmits that
are each answered by TX_SUCCESS bring the message-ID back to 5 (and the first
one takes it to 6). -/
theorem message_id_wraparound_witness :
    (tcpci_send_message_hw usbpd_id4 pd_sample
        { sc := { sc0 with sc_message_id := 5 }, input := List.replicate 16 0x40,
          trace := [] }).sc.sc_message_id = (5 + 1) % 16 ∧
    (transmits usbpd_id4 (List.replicate 16 pd_sample)
        { sc := { sc0 with sc_message_id := 5 }, input := List.replicate 16 0x40,
          trace := [] }).sc.sc_message_id = 5 :=
  ⟨((message_id_wraparound usbpd_id4 rfl).1 pd_sample
      { sc := { sc0 with sc_message_id := 5 }, input := List.replicate 16 0x40,
        trace := [] }).1 (by decide),
   ((message_id_wraparound usbpd_id4 rfl).2 (List.replicate 16 pd_sample)
      { sc := { sc0 with sc_message_id := 5 }, input := List.replicate 16 0x40, trace := [] }
      (by decide) (by decide)).2 (by decide)⟩

/-- C10: receive rejection.  When RX_BYTE_CNT reads a value c below 3 (frame
type byte plus 2-byte header), or with c - 3 above 28 (7 payload words),
tcpci_rx_change returns with the softc unchanged; it reads RX_BYTE_CNT (and, in
the second case, the frame type and the header), prints one rejection line and
no decoder line, and its only register write is ALERT <- RX_STATUS; no transmit
register is written. -/
theorem rx_change_rejects (k : usbpd) (hmax : k.PD_PAYLOAD_MAX_LEN = 7) (w : World) (c : Nat)
    (hc : w.input.headD 0 % 256 = c) (hrej : c < 3 ∨ c - 3 > 28) :
    ∃ t, tcpci_rx_change k w = Outcome.ok
        { w with input := w.input.drop (if c < 3 then 1 else 3), trace := w.trace ++ t } ∧
      t = (if c < 3 then
            [Event.read8 TCPC_RX_BYTE_CNT c, Event.printf LogLine.short_message,
             Event.write16 TCPC_ALERT TCPC_ALERT_RX_STATUS]
          else
            [Event.read8 TCPC_RX_BYTE_CNT c,
             Event.read8 TCPC_RX_BUF_FRAME_TYPE (w.input.getD 1 0 % 256),
             Event.read16 TCPC_RX_HDR (w.input.getD 2 0 % 65536),
             Event.printf LogLine.extended_payload,
             Event.write16 TCPC_ALERT TCPC_ALERT_RX_STATUS]) ∧
      writes t = [Event.write16 TCPC_ALERT TCPC_ALERT_RX_STATUS] ∧
      tx_writes t = [] ∧
      (∀ l, Event.printf l ∈ t → l = LogLine.short_message ∨ l = LogLine.extended_payload) := by
  refine ⟨_, ?_, rfl, ?_, ?_, ?_⟩
  · unfold tcpci_rx_change
    simp only [tcpci_read_reg8, tcpci_read_reg16, hc, hmax]
    by_cases h3 : c < 3
    · simp [h3, printf, emit, tcpci_write_reg16]
    · have h28 : c - 3 > 28 := by
        rcases hrej with h | h
        · exact absurd h h3
        · exact h
      have h3b : ¬ c < 1 + 2 := h3
      have h28b : c - (1 + 2) > 4 * 7 := h28
      simp [h3, h3b, h28b, printf, emit, tcpci_write_reg16, tail_tail_tail_eq_drop]
  · split_ifs <;> simp [writes, Event.isWrite]
  · split_ifs <;> simp [tx_writes, Event.isTxWrite, Event.isWriteTo]
  · intro l
    split_ifs <;> simp <;> tauto

/-- C10 at concrete inputs: a byte count of 2 (too short) and one of 40 (payload
of 37 bytes) are both dropped. -/
theorem rx_change_rejects_witness :
    (∃ t, tcpci_rx_change usbpd0 (world0 [2, 9, 9]) = Outcome.ok
        { world0 [2, 9, 9] with input := [9, 9], trace := [] ++ t } ∧
      t = [Event.read8 TCPC_RX_BYTE_CNT 2, Event.printf LogLine.short_message,
           Event.write16 TCPC_ALERT TCPC_ALERT_RX_STATUS] ∧
      writes t = [Event.write16 TCPC_ALERT TCPC_ALERT_RX_STATUS] ∧
      tx_writes t = [] ∧
      (∀ l, Event.printf l ∈ t → l = LogLine.short_message ∨ l = LogLine.extended_payload)) ∧
    (∃ t, tcpci_rx_change usbpd0 (world0 [40, 0, 0x1042, 9]) = Outcome.ok
        { world0 [40, 0, 0x1042, 9] with input := [9], trace := [] ++ t } ∧
      t = [Event.read8 TCPC_RX_BYTE_CNT 40, Event.read8 TCPC_RX_BUF_FRAME_TYPE 0,
           Event.read16 TCPC_RX_HDR 0x1042, Event.printf LogLine.extended_payload,
           Event.write16 TCPC_ALERT TCPC_ALERT_RX_STATUS] ∧
      writes t = [Event.write16 TCPC_ALERT TCPC_ALERT_RX_STATUS] ∧
      tx_writes t = [] ∧
      (∀ l, Event.printf l ∈ t → l = LogLine.short_message ∨ l = LogLine.extended_payload)) :=
  ⟨rx_change_rejects usbpd0 rfl (world0 [2, 9, 9]) 2 (by decide) (by decide),
   rx_change_rejects usbpd0 rfl (world0 [40, 0, 0x1042, 9]) 40 (by decide) (by decide)⟩

/-! ### The transmit loop on an arbitrary device -/

theorem drop_tail_eq (l : List Nat) (n : Nat) : l.tail.drop n = l.drop (n + 1) := by
  cases l <;> simp

/-- A polling pass that reads no completion bit. -/
theorem tx_poll_step_idle (k : usbpd) (retry n : Nat) (w : World)
    (h : alert_tx_bits (w.input.headD 0) = 0) :
    tcpci_tx_poll k retry (n + 1) w =
      tcpci_tx_poll k retry n
        { w with input := w.input.tail,
                 trace := w.trace ++ idle_events [w.input.headD 0] } := by
  rw [tcpci_tx_poll]
  simp only [tcpci_read_reg16]
  generalize w.input.headD 0 = r at h ⊢
  have h2 : (r % 65536) &&& (64 ||| 32 ||| 16) = 0 := h
  simp only [TCPC_ALERT_TX_SUCCESS, TCPC_ALERT_TX_DISCARDED, TCPC_ALERT_TX_FAILED,
    Nat.reduceShiftLeft, h2, Nat.zero_and, ne_eq, not_true_eq_false, if_false]
  simp [delay, emit, idle_events]

/-- A polling pass that reads TX_SUCCESS. -/
theorem tx_poll_step_success (k : usbpd) (retry n : Nat) (w : World)
    (hs : alert_tx_bits (w.input.headD 0) &&& TCPC_ALERT_TX_SUCCESS ≠ 0) :
    tcpci_tx_poll k retry (n + 1) w =
      (false,
       { sc := advance_message_id k w.sc, input := w.input.tail,
         trace := w.trace ++ success_events (w.input.headD 0) }) := by
  rw [tcpci_tx_poll]
  simp only [tcpci_read_reg16]
  generalize w.input.headD 0 = r at hs ⊢
  have hne : alert_tx_bits r ≠ 0 := by
    intro h0
    rw [h0] at hs
    simp at hs
  have hlt := Nat.mod_eq_of_lt (alert_tx_bits_lt r)
  have hs2 : (r % 65536) &&& (TCPC_ALERT_TX_SUCCESS |||
      TCPC_ALERT_TX_DISCARDED ||| TCPC_ALERT_TX_FAILED) = alert_tx_bits r := rfl
  rw [hs2]
  have hs3 : alert_tx_bits r &&& 64 ≠ 0 := hs
  simp [hs3, hne, tcpci_write_reg16, emit, printf, set_message_id, success_events, hlt,
    advance_message_id]

/-- A polling pass that reads TX_DISCARDED or TX_FAILED without TX_SUCCESS. -/
theorem tx_poll_step_failure (k : usbpd) (retry n : Nat) (w : World)
    (hf : tx_failure_reading (w.input.headD 0)) :
    tcpci_tx_poll k retry (n + 1) w =
      (decide (retry ≠ 0),
       { w with input := w.input.tail,
                trace := w.trace ++ failure_events (w.input.headD 0) (decide (retry ≠ 0)) }) := by
  obtain ⟨hns, hf⟩ := hf
  rw [tcpci_tx_poll]
  simp only [tcpci_read_reg16]
  generalize w.input.headD 0 = r at hns hf ⊢
  have hne : alert_tx_bits r ≠ 0 := by
    intro h0
    rw [h0] at hf
    simp at hf
  have hlt := Nat.mod_eq_of_lt (alert_tx_bits_lt r)
  have hs2 : (r % 65536) &&& (TCPC_ALERT_TX_SUCCESS |||
      TCPC_ALERT_TX_DISCARDED ||| TCPC_ALERT_TX_FAILED) = alert_tx_bits r := rfl
  rw [hs2]
  have hns : alert_tx_bits r &&& 64 = 0 := hns
  by_cases hd : alert_tx_bits r &&& 32 = 0
  · have hfl : alert_tx_bits r &&& 16 ≠ 0 := by
      rcases hf with h | h
      · exact absurd hd h
      · exact h
    by_cases hr : retry = 0 <;>
    simp [hns, hd, hfl, hne, hr, tcpci_write_reg16, emit, printf, delay, failure_events, hlt]
  · by_cases hr : retry = 0 <;>
    simp [hns, hd, hne, hr, tcpci_write_reg16, emit, printf, delay, failure_events, hlt]

/-- Every ALERT reading is idle, a success or a failure. -/
theorem alert_reading_cases (r : Nat) :
    alert_tx_bits r = 0 ∨ alert_tx_bits r &&& TCPC_ALERT_TX_SUCCESS ≠ 0 ∨
      tx_failure_reading r := by
  by_cases hs : alert_tx_bits r &&& TCPC_ALERT_TX_SUCCESS = 0
  · by_cases hd : alert_tx_bits r &&& TCPC_ALERT_TX_DISCARDED = 0
    · by_cases hf : alert_tx_bits r &&& TCPC_ALERT_TX_FAILED = 0
      · left
        have h1 : alert_tx_bits r =
            alert_tx_bits r &&& (TCPC_ALERT_TX_SUCCESS ||| TCPC_ALERT_TX_DISCARDED |||
              TCPC_ALERT_TX_FAILED) := by
          unfold alert_tx_bits
          rw [Nat.and_assoc, Nat.and_self]
        rw [h1, Nat.and_or_distrib_left, Nat.and_or_distrib_left, hs, hd, hf]
        rfl
      · exact Or.inr (Or.inr ⟨hs, Or.inr hf⟩)
    · exact Or.inr (Or.inr ⟨hs, Or.inl hd⟩)
  · exact Or.inr (Or.inl hs)

/-- The polling loop on an arbitrary device: it runs out of passes, or it is
left at a TX_SUCCESS reading, or at a failure reading. -/
theorem tx_poll_structure (k : usbpd) (retry : Nat) :
    ∀ (n : Nat) (w : World),
      (∃ idle : List Nat, idle.length = n ∧ (∀ r ∈ idle, alert_tx_bits r = 0) ∧
        tcpci_tx_poll k retry n w =
          (false, { w with input := w.input.drop n,
                           trace := w.trace ++ idle_events idle })) ∨
      (∃ (idle : List Nat) (s : Nat), idle.length < n ∧ (∀ r ∈ idle, alert_tx_bits r = 0) ∧
        alert_tx_bits s &&& TCPC_ALERT_TX_SUCCESS ≠ 0 ∧
        tcpci_tx_poll k retry n w =
          (false, { sc := advance_message_id k w.sc, input := w.input.drop (idle.length + 1),
                    trace := w.trace ++ (idle_events idle ++ success_events s) })) ∨
      (∃ (idle : List Nat) (f : Nat), idle.length < n ∧ (∀ r ∈ idle, alert_tx_bits r = 0) ∧
        tx_failure_reading f ∧
        tcpci_tx_poll k retry n w =
          (decide (retry ≠ 0),
           { w with input := w.input.drop (idle.length + 1),
                    trace := w.trace ++
                      (idle_events idle ++ failure_events f (decide (retry ≠ 0))) })) := by
  intro n
  induction n with
  | zero =>
    intro w
    left
    exact ⟨[], rfl, by simp, by simp [tcpci_tx_poll, idle_events]⟩
  | succ n ih =>
    intro w
    rcases alert_reading_cases (w.input.headD 0) with h | h | h
    · rw [tx_poll_step_idle k retry n w h]
      rcases ih { w with input := w.input.tail,
                         trace := w.trace ++ idle_events [w.input.headD 0] } with
        ⟨idle, hl, hi, he⟩ | ⟨idle, s, hl, hi, hs, he⟩ | ⟨idle, f, hl, hi, hf, he⟩
      · left
        refine ⟨w.input.headD 0 :: idle, by simp [hl], ?_, ?_⟩
        · intro r hr
          rcases List.mem_cons.mp hr with rfl | hr
          · exact h
          · exact hi r hr
        · rw [he]
          simp [idle_events, drop_tail_eq]
      · right; left
        refine ⟨w.input.headD 0 :: idle, s, by simp [hl], ?_, hs, ?_⟩
        · intro r hr
          rcases List.mem_cons.mp hr with rfl | hr
          · exact h
          · exact hi r hr
        · rw [he]
          simp [idle_events, drop_tail_eq]
      · right; right
        refine ⟨w.input.headD 0 :: idle, f, by simp [hl], ?_, hf, ?_⟩
        · intro r hr
          rcases List.mem_cons.mp hr with rfl | hr
          · exact h
          · exact hi r hr
        · rw [he]
          simp [idle_events, drop_tail_eq]
    · right; left
      refine ⟨[], w.input.headD 0, by simp, by simp, h, ?_⟩
      rw [tx_poll_step_success k retry n w h]
      cases hw : w.input <;> simp [idle_events]
    · right; right
      refine ⟨[], w.input.headD 0, by simp, by simp, h, ?_⟩
      rw [tx_poll_step_failure k retry n w h]
      cases hw : w.input <;> simp [idle_events]

theorem fails_reads_cons (a : List Nat × Nat) (fails : List (List Nat × Nat)) :
    fails_reads (a :: fails) = a.1.length + 1 + fails_reads fails := by
  simp [fails_reads]

theorem run_events_cons (frame : List Event) (a : List Nat × Nat)
    (fails : List (List Nat × Nat)) (e : TxEnd) :
    run_events frame (a :: fails) e =
      frame ++ idle_events a.1 ++ failure_events a.2 true ++ run_events frame fails e := by
  simp [run_events]

/-- The last attempt of a run, whatever the device answers. -/
theorem send_again_last (k : usbpd) (pd0 : pd_message) (w : World) :
    ∃ e : TxEnd, e.valid 1000 ∧
      tcpci_send_message_hw_again k pd0 1 w =
        { sc := e.sc k w.sc, input := w.input.drop e.reads,
          trace := w.trace ++ run_events (tx_frame_events k pd0 w.sc.sc_data_role) [] e } := by
  rw [tcpci_send_message_hw_again]
  simp only [tx_attempt_eq]
  rcases tx_poll_structure k 0 1000
      { w with trace := w.trace ++ tx_frame_events k pd0 w.sc.sc_data_role } with
    ⟨idle, hl, hi, he⟩ | ⟨idle, s, hl, hi, hs, he⟩ | ⟨idle, f, hl, hi, hf, he⟩
  · refine ⟨TxEnd.timeout idle, ⟨hl, hi⟩, ?_⟩
    rw [he]
    simp [run_events, TxEnd.events, TxEnd.sc, TxEnd.reads, hl]
  · refine ⟨TxEnd.success idle s, ⟨hl, hi, hs⟩, ?_⟩
    rw [he]
    simp [run_events, TxEnd.events, TxEnd.sc, TxEnd.reads]
  · refine ⟨TxEnd.exhausted idle f, ⟨hl, hi, hf⟩, ?_⟩
    rw [he]
    simp [run_events, TxEnd.events, TxEnd.sc, TxEnd.reads]

/-- The structure of every run of the transmit loop: some failed attempts that
were retried, then a last attempt that ends with TX_SUCCESS, with a failure
when no retry is left, or with the polling passes used up. -/
theorem send_again_structure (k : usbpd) (pd0 : pd_message) :
    ∀ (retry : Nat) (w : World),
      ∃ (fails : List (List Nat × Nat)) (e : TxEnd),
        fails.length ≤ retry ∧
        (∀ a ∈ fails, a.1.length < 1000 ∧ (∀ r ∈ a.1, alert_tx_bits r = 0) ∧
          tx_failure_reading a.2) ∧
        e.valid 1000 ∧ (e.isExhausted = true → fails.length = retry) ∧
        tcpci_send_message_hw_again k pd0 (retry + 1) w =
          { sc := e.sc k w.sc, input := w.input.drop (fails_reads fails + e.reads),
            trace := w.trace ++
              run_events (tx_frame_events k pd0 w.sc.sc_data_role) fails e } := by
  intro retry
  induction retry with
  | zero =>
    intro w
    obtain ⟨e, hv, he⟩ := send_again_last k pd0 w
    exact ⟨[], e, by simp, by simp, hv, by simp, by simpa [fails_reads] using he⟩
  | succ retry ih =>
    intro w
    rw [tcpci_send_message_hw_again]
    simp only [tx_attempt_eq]
    rcases tx_poll_structure k (retry + 1) 1000
        { w with trace := w.trace ++ tx_frame_events k pd0 w.sc.sc_data_role } with
      ⟨idle, hl, hi, he⟩ | ⟨idle, s, hl, hi, hs, he⟩ | ⟨idle, f, hl, hi, hf, he⟩
    · refine ⟨[], TxEnd.timeout idle, by simp, by simp, ⟨hl, hi⟩, by simp [TxEnd.isExhausted], ?_⟩
      rw [he]
      simp [run_events, TxEnd.events, TxEnd.sc, TxEnd.reads, hl, fails_reads]
    · refine ⟨[], TxEnd.success idle s, by simp, by simp, ⟨hl, hi, hs⟩,
        by simp [TxEnd.isExhausted], ?_⟩
      rw [he]
      simp [run_events, TxEnd.events, TxEnd.sc, TxEnd.reads, fails_reads]
    · rw [he]
      simp only [ne_eq, Nat.add_one_ne_zero, not_false_eq_true, decide_True, if_true]
      obtain ⟨fails, e, hlen, hfails, hv, hex, hrun⟩ := ih
        { w with input := w.input.drop (idle.length + 1),
                 trace := w.trace ++ tx_frame_events k pd0 w.sc.sc_data_role ++
                   (idle_events idle ++ failure_events f true) }
      refine ⟨(idle, f) :: fails, e, by simp [hlen], ?_, hv, ?_, ?_⟩
      · intro a ha
        rcases List.mem_cons.mp ha with rfl | ha
        · exact ⟨hl, hi, hf⟩
        · exact hfails a ha
      · intro h
        simp [hex h]
      · rw [hrun]
        simp [run_events_cons, fails_reads_cons, Nat.add_assoc, Nat.add_comm, Nat.add_left_comm]

/-! ### Observables of a run -/

theorem isPoll_idle (idle : List Nat) : ∀ e ∈ idle_events idle, e.isPoll = true := by
  intro e he
  simp only [idle_events, List.mem_flatMap] at he
  obtain ⟨r, _, he⟩ := he
  simp at he
  rcases he with rfl | rfl <;> simp [Event.isPoll]

theorem alert_tx_bits_rx (r : Nat) : alert_tx_bits r &&& TCPC_ALERT_RX_STATUS = 0 := by
  unfold alert_tx_bits
  rw [Nat.and_assoc]
  have h : (TCPC_ALERT_TX_SUCCESS ||| TCPC_ALERT_TX_DISCARDED ||| TCPC_ALERT_TX_FAILED) &&&
      TCPC_ALERT_RX_STATUS = 0 := by decide
  rw [h]
  exact Nat.and_zero _

theorem isPoll_failure (f : Nat) (more : Bool) :
    ∀ e ∈ failure_events f more, e.isPoll = true := by
  intro e he
  have hrx : alert_tx_bits f &&& 4 = 0 := alert_tx_bits_rx f
  simp only [failure_events, List.mem_append, List.mem_cons, List.mem_singleton,
    List.not_mem_nil, or_false] at he
  rcases he with (rfl | rfl | rfl) | he
  · simp [Event.isPoll]
  · simp [Event.isPoll, hrx]
  · simp [Event.isPoll]
  · cases more
    · simp at he
    · simp at he
      rw [he]
      simp [Event.isPoll]

theorem isPoll_success (s : Nat) : ∀ e ∈ success_events s, e.isPoll = true := by
  intro e he
  have hrx : alert_tx_bits s &&& 4 = 0 := alert_tx_bits_rx s
  simp [success_events] at he
  rcases he with rfl | rfl | rfl <;> simp [Event.isPoll, hrx]

theorem isPoll_end (e0 : TxEnd) : ∀ e ∈ e0.events, e.isPoll = true := by
  intro e he
  cases e0 with
  | success idle s =>
    rcases List.mem_append.mp he with h | h
    · exact isPoll_idle idle e h
    · exact isPoll_success s e h
  | exhausted idle f =>
    rcases List.mem_append.mp he with h | h
    · exact isPoll_idle idle e h
    · exact isPoll_failure f false e h
  | timeout idle => exact isPoll_idle idle e he

/-- Every entry of the trace of a run is an entry of the frame or a polling entry. -/
theorem mem_run_events (frame : List Event) (fails : List (List Nat × Nat)) (e0 : TxEnd) :
    ∀ e ∈ run_events frame fails e0, e ∈ frame ∨ e.isPoll = true := by
  intro e he
  simp only [run_events, List.mem_append, List.mem_flatMap] at he
  rcases he with ⟨a, _, (h | h) | h⟩ | h | h
  · exact Or.inl h
  · exact Or.inr (isPoll_idle a.1 e h)
  · exact Or.inr (isPoll_failure a.2 true e h)
  · exact Or.inl h
  · exact Or.inr (isPoll_end e0 e h)

theorem tx_writes_end (e0 : TxEnd) : tx_writes e0.events = [] := by
  cases e0 <;>
    simp [TxEnd.events, tx_writes_append, tx_writes_idle, tx_writes_failure, tx_writes_success]

theorem transmit_count_end (e0 : TxEnd) : transmit_count e0.events = 0 := by
  cases e0 <;>
    simp [TxEnd.events, transmit_count_append, transmit_count_idle, transmit_count_failure,
      transmit_count_success]

theorem success_count_end (e0 : TxEnd) :
    success_count e0.events = if e0.isSuccess then 1 else 0 := by
  cases e0 <;>
    simp [TxEnd.events, success_count, TxEnd.isSuccess, count_success_idle,
      count_success_failure, count_success_success]

theorem tx_writes_run (k : usbpd) (pd0 : pd_message) (role : typec_data_role)
    (fails : List (List Nat × Nat)) (e0 : TxEnd) :
    tx_writes (run_events (tx_frame_events k pd0 role) fails e0) =
      (List.replicate (fails.length + 1) (tx_frame_events k pd0 role)).flatten := by
  induction fails with
  | nil => simp [run_events, tx_writes_append, tx_writes_frame, tx_writes_end]
  | cons a fails ih =>
    rw [run_events_cons]
    simp only [tx_writes_append, tx_writes_frame, tx_writes_idle, tx_writes_failure, ih,
      List.length_cons, List.append_nil]
    rw [List.replicate_succ (n := fails.length + 1), List.flatten_cons]

theorem transmit_count_run (k : usbpd) (pd0 : pd_message) (role : typec_data_role)
    (fails : List (List Nat × Nat)) (e0 : TxEnd) :
    transmit_count (run_events (tx_frame_events k pd0 role) fails e0) = fails.length + 1 := by
  induction fails with
  | nil => simp [run_events, transmit_count_append, transmit_count_frame, transmit_count_end]
  | cons a fails ih =>
    rw [run_events_cons]
    simp only [transmit_count_append, transmit_count_frame, transmit_count_idle,
      transmit_count_failure, ih, List.length_cons]
    omega

theorem success_count_run (k : usbpd) (pd0 : pd_message) (role : typec_data_role)
    (fails : List (List Nat × Nat)) (e0 : TxEnd) :
    success_count (run_events (tx_frame_events k pd0 role) fails e0) =
      if e0.isSuccess then 1 else 0 := by
  induction fails with
  | nil =>
    have h := success_count_end e0
    simp only [success_count] at h ⊢
    simp [run_events, count_success_frame, h]
  | cons a fails ih =>
    rw [run_events_cons]
    simp only [success_count] at ih ⊢
    simp only [List.count_append, count_success_frame, count_success_idle,
      count_success_failure, ih]
    omega

theorem getLast_idle_events (idle : List Nat) (h : idle ≠ []) :
    (idle_events idle).getLast? = some (Event.delay (10 * 1000)) := by
  obtain ⟨init, x, rfl⟩ : ∃ init x, idle = init ++ [x] :=
    ⟨idle.dropLast, idle.getLast h, (List.dropLast_append_getLast h).symm⟩
  simp [idle_events]

theorem getLast_end (e0 : TxEnd) (hv : e0.valid 1000) :
    match e0 with
    | TxEnd.success _ _ => e0.events.getLast? = some (Event.printf LogLine.tx_success)
    | TxEnd.exhausted _ _ =>
        e0.events.getLast? = some (Event.printf LogLine.tx_discarded) ∨
        e0.events.getLast? = some (Event.printf LogLine.tx_failed)
    | TxEnd.timeout _ => e0.events.getLast? = some (Event.delay (10 * 1000)) := by
  cases e0 with
  | success idle s => simp [TxEnd.events, success_events]
  | exhausted idle f =>
    simp only [TxEnd.events, failure_events]
    by_cases hd : alert_tx_bits f &&& 32 = 0
    · right
      simp [hd]
    · left
      simp [hd]
  | timeout idle =>
    have hne : idle ≠ [] := by
      intro h0
      have := hv.1
      rw [h0] at this
      simp at this
    exact getLast_idle_events idle hne

theorem getLast_run_events (frame : List Event) (fails : List (List Nat × Nat)) (e0 : TxEnd)
    (h : e0.events ≠ []) :
    (run_events frame fails e0).getLast? = e0.events.getLast? := by
  unfold run_events
  rw [← List.append_assoc, List.getLast?_append_of_ne_nil _ h]

theorem end_events_ne_nil (e0 : TxEnd) (hv : e0.valid 1000) : e0.events ≠ [] := by
  cases e0 with
  | success idle s => simp [TxEnd.events, success_events]
  | exhausted idle f => simp [TxEnd.events, failure_events]
  | timeout idle =>
    intro h
    have hl := hv.1
    have : idle = [] := by
      cases idle with
      | nil => rfl
      | cons a l => simp [TxEnd.events, idle_events] at h
    rw [this] at hl
    simp at hl

/-- C20 (as amended): outcome of a transmit.  For every message and every
sequence of ALERT readings, a run of tcpci_send_message_hw makes between 1 and
20 transmit attempts and ends in exactly one of three ways, told apart by its
last action: with TX_SUCCESS observed (one success line, sc_message_id
advanced); with the retry budget exhausted (all 20 attempts made, the last
answered by TX_DISCARDED or TX_FAILED, softc unchanged); or with a polling
timeout (the last attempt polled ALERT 1000 times without seeing a completion
bit; softc unchanged).  Without success it returns while retries remain only
by such a timeout. -/
theorem send_message_hw_outcome (k : usbpd) (pd0 : pd_message) (w : World) :
    ∃ t : List Event,
      (tcpci_send_message_hw k pd0 w).trace = w.trace ++ t ∧
      1 ≤ transmit_count t ∧ transmit_count t ≤ 20 ∧
      ((t.getLast? = some (Event.printf LogLine.tx_success) ∧ success_count t = 1 ∧
          (tcpci_send_message_hw k pd0 w).sc = advance_message_id k w.sc) ∨
       ((t.getLast? = some (Event.printf LogLine.tx_discarded) ∨
           t.getLast? = some (Event.printf LogLine.tx_failed)) ∧
          success_count t = 0 ∧ transmit_count t = 20 ∧
          (tcpci_send_message_hw k pd0 w).sc = w.sc) ∨
       (t.getLast? = some (Event.delay (10 * 1000)) ∧ success_count t = 0 ∧
          (tcpci_send_message_hw k pd0 w).sc = w.sc ∧
          ∃ (t0 : List Event) (idle : List Nat),
            t = t0 ++ (tx_frame_events k pd0 w.sc.sc_data_role ++ idle_events idle) ∧
            idle.length = 1000 ∧ ∀ r ∈ idle, alert_tx_bits r = 0)) := by
  obtain ⟨fails, e, hlen, _, hv, hex, hrun⟩ := send_again_structure k pd0 19 w
  unfold tcpci_send_message_hw
  rw [hrun]
  refine ⟨_, rfl, ?_, ?_, ?_⟩
  · rw [transmit_count_run]
    omega
  · rw [transmit_count_run]
    omega
  · have hlast := getLast_end e hv
    have hne := end_events_ne_nil e hv
    rw [getLast_run_events _ _ _ hne, success_count_run, transmit_count_run]
    cases e with
    | success idle s =>
      left
      exact ⟨hlast, by simp [TxEnd.isSuccess], rfl⟩
    | exhausted idle f =>
      right; left
      have h19 := hex rfl
      exact ⟨hlast, by simp [TxEnd.isSuccess], by omega, rfl⟩
    | timeout idle =>
      right; right
      refine ⟨hlast, by simp [TxEnd.isSuccess], rfl, ?_⟩
      refine ⟨fails.flatMap (fun a => tx_frame_events k pd0 w.sc.sc_data_role ++
        idle_events a.1 ++ failure_events a.2 true), idle, ?_, hv.1, hv.2⟩
      simp [run_events, TxEnd.events]

/-- An attempt in which 1000 polls see no completion bit: the run returns. -/
theorem send_again_timeout (k : usbpd) (pd0 : pd_message) (retry : Nat) (w : World)
    (idle rest : List Nat) (hlen : idle.length = 1000)
    (hidle : ∀ r ∈ idle, alert_tx_bits r = 0) (hin : w.input = idle ++ rest) :
    tcpci_send_message_hw_again k pd0 (retry + 1) w =
      { w with input := rest,
               trace := w.trace ++ (tx_frame_events k pd0 w.sc.sc_data_role ++
                 idle_events idle) } := by
  have h1000 : 1000 = idle.length + 0 := by omega
  rw [tcpci_send_message_hw_again]
  simp only [tx_attempt_eq]
  rw [h1000, tx_poll_idle k retry idle 0
      { w with trace := w.trace ++ tx_frame_events k pd0 w.sc.sc_data_role } rest hidle hin]
  simp [tcpci_tx_poll]

/-- C20 as stated fails: when ALERT never shows a completion bit (here: 1000
readings of 0), tcpci_send_message_hw returns after one transmit attempt and
1000 polls, with 19 of its 20 attempts unused, no TX_SUCCESS observed and the
softc unchanged. -/
theorem send_message_hw_outcome_counterexample :
    tcpci_send_message_hw usbpd0 pd_sample (world0 (List.replicate 1000 0)) =
      { world0 (List.replicate 1000 0) with
          input := [],
          trace := (world0 (List.replicate 1000 0)).trace ++
            (tx_frame_events usbpd0 pd_sample TYPEC_DEVICE ++
              idle_events (List.replicate 1000 0)) } ∧
    transmit_count (tx_frame_events usbpd0 pd_sample TYPEC_DEVICE ++
      idle_events (List.replicate 1000 0)) = 1 ∧
    success_count (tx_frame_events usbpd0 pd_sample TYPEC_DEVICE ++
      idle_events (List.replicate 1000 0)) = 0 := by
  refine ⟨?_, ?_, ?_⟩
  · exact send_again_timeout usbpd0 pd_sample 19 (world0 (List.replicate 1000 0))
      (List.replicate 1000 0) [] (List.length_replicate _ _)
      (fun r hr => by rw [List.eq_of_mem_replicate hr]; decide)
      (List.append_nil _).symm
  · rw [transmit_count_append, transmit_count_frame, transmit_count_idle]
  · simp only [success_count, List.count_append, count_success_frame, count_success_idle]

/-- C19: transmit framing.  For every message, role state and device behaviour,
every write to TRANSMIT in a run of tcpci_send_message_hw (there is at least
one) carries the same value: the debug frame type TCPC_TX_SOP_DEBUG_PRIME_PRIME
or-ed with the default retry count when the message has a non-zero word
count, its type is PD_DATA_VENDOR_DEF and the data role is host; the frame
type TCPC_TX_SOP or-ed with the default retry count in every other case. -/
theorem send_message_hw_framing (k : usbpd) (pd0 : pd_message) (w : World) :
    ∃ t : List Event,
      (tcpci_send_message_hw k pd0 w).trace = w.trace ++ t ∧
      1 ≤ transmit_count t ∧
      (∀ e ∈ t, e.isWriteTo TCPC_TRANSMIT = true →
        e = Event.write8 TCPC_TRANSMIT (transmit_value k pd0 w.sc.sc_data_role)) ∧
      transmit_value k pd0 w.sc.sc_data_role =
        (if ((pd0.header >>> k.PD_HEADER_CNT_SHIFT) &&& k.PD_HEADER_CNT_MASK) % 65536 ≠ 0 ∧
            (pd0.header &&& k.PD_HEADER_TYPE_MASK) % 65536 = k.PD_DATA_VENDOR_DEF ∧
            w.sc.sc_data_role = TYPEC_HOST
         then ((k.TCPC_TX_SOP_DEBUG_PRIME_PRIME % 256) ||| TCPC_TRANSMIT_RETRY_DEF) % 256
         else ((k.TCPC_TX_SOP % 256) ||| TCPC_TRANSMIT_RETRY_DEF) % 256) := by
  obtain ⟨fails, e0, _, _, _, _, hrun⟩ := send_again_structure k pd0 19 w
  unfold tcpci_send_message_hw
  rw [hrun]
  refine ⟨_, rfl, ?_, ?_, ?_⟩
  · rw [transmit_count_run]
    omega
  · intro e he hT
    rcases mem_run_events _ fails e0 e he with h | h
    · rw [tx_frame_events_eq] at h
      simp only [List.mem_append, List.mem_cons, List.mem_singleton, List.not_mem_nil,
        or_false] at h
      rcases h with ((rfl | rfl) | h) | rfl
      · simp [Event.isWriteTo] at hT
      · simp [Event.isWriteTo] at hT
      · split_ifs at h
        · simp only [List.mem_singleton] at h
          rw [h] at hT
          simp [Event.isWriteTo] at hT
        · simp at h
      · rfl
    · cases e <;> simp [Event.isPoll, Event.isWriteTo] at h hT
      all_goals omega
  · unfold transmit_value
    split_ifs <;> rfl

/-! ### Messages through the send path -/

/-- What tcpci_send_message does when its KASSERT holds. -/
theorem send_message_eq (k : usbpd) (type : Nat) (payload : List Nat) (nwords : Nat)
    (w : World) (h : nwords ≤ k.PD_PAYLOAD_MAX_LEN) :
    tcpci_send_message k type payload nwords w =
      Outcome.ok (tcpci_send_message_hw k (sent_message k type payload nwords w.sc)
        { w with sc := { w.sc with
                           sc_pd_message := sent_message k type payload nwords w.sc } }) := by
  unfold tcpci_send_message
  rw [if_neg (not_not.mpr h)]
  rfl

/-- When the KASSERT of tcpci_send_message fails the run stops in panic. -/
theorem send_message_panic (k : usbpd) (type : Nat) (payload : List Nat) (nwords : Nat)
    (w : World) (h : ¬ nwords ≤ k.PD_PAYLOAD_MAX_LEN) :
    tcpci_send_message k type payload nwords w = Outcome.panic w := by
  unfold tcpci_send_message
  rw [if_pos h]

/-- A run of tcpci_send_message_hw sends its one message. -/
theorem send_message_hw_sends (k : usbpd) (pd0 : pd_message) (w : World) :
    ∃ (n : Nat) (t : List Event), 1 ≤ n ∧ n ≤ 20 ∧
      (tcpci_send_message_hw k pd0 w).trace = w.trace ++ t ∧
      tx_writes t = (List.replicate n (tx_frame_events k pd0 w.sc.sc_data_role)).flatten ∧
      ((tcpci_send_message_hw k pd0 w).sc = w.sc ∨
       (tcpci_send_message_hw k pd0 w).sc = advance_message_id k w.sc) := by
  obtain ⟨fails, e0, hlen, _, _, _, hrun⟩ := send_again_structure k pd0 19 w
  unfold tcpci_send_message_hw
  rw [hrun]
  refine ⟨fails.length + 1, _, by omega, by omega, rfl, tx_writes_run k pd0 _ fails e0, ?_⟩
  cases e0 <;> simp [TxEnd.sc]

/-- A call of tcpci_send_message whose KASSERT holds returns and sends the
message it built. -/
theorem send_message_sends (k : usbpd) (type : Nat) (payload : List Nat) (nwords : Nat)
    (w : World) (h : nwords ≤ k.PD_PAYLOAD_MAX_LEN) :
    ∃ W, tcpci_send_message k type payload nwords w = Outcome.ok W ∧
      sends_one k (sent_message k type payload nwords w.sc) w W := by
  rw [send_message_eq k type payload nwords w h]
  refine ⟨_, rfl, ?_⟩
  obtain ⟨n, t, h1, h20, ht, htx, hsc⟩ := send_message_hw_sends k
    (sent_message k type payload nwords w.sc)
    { w with sc := { w.sc with sc_pd_message := sent_message k type payload nwords w.sc } }
  exact ⟨n, t, h1, h20, ht, htx, hsc⟩

/-- One call of tcpci_send_message as a sequence of sends. -/
theorem sends_seq_one (k : usbpd) (type : Nat) (payload : List Nat) (nwords : Nat)
    (w : World) (h : nwords ≤ k.PD_PAYLOAD_MAX_LEN) :
    ∃ W, tcpci_send_message k type payload nwords w = Outcome.ok W ∧
      sends_seq k [(type, payload, nwords)] w W := by
  obtain ⟨W, hW, hs⟩ := send_message_sends k type payload nwords w h
  exact ⟨W, hW, W, hW, hs, rfl⟩

/-- The payload of the built message is the given list when nwords is its length. -/
theorem sent_message_payload (k : usbpd) (type : Nat) (payload : List Nat)
    (sc : tcpci_softc) :
    (sent_message k type payload payload.length sc).payload = payload := by
  unfold sent_message
  simp only
  apply List.ext_getElem
  · simp
  · intro i h1 h2
    simp [List.getD_eq_getElem?_getD, List.getElem?_eq_getElem h2]

/-- Three calls of tcpci_send_message in a row, each with its KASSERT holding. -/
theorem sends_seq_three (k : usbpd) (m1 m2 m3 : Nat × List Nat × Nat) (w : World)
    (h1 : m1.2.2 ≤ k.PD_PAYLOAD_MAX_LEN) (h2 : m2.2.2 ≤ k.PD_PAYLOAD_MAX_LEN)
    (h3 : m3.2.2 ≤ k.PD_PAYLOAD_MAX_LEN) :
    ∃ W, ((tcpci_send_message k m1.1 m1.2.1 m1.2.2 w).andThen
          (tcpci_send_message k m2.1 m2.2.1 m2.2.2)).andThen
          (tcpci_send_message k m3.1 m3.2.1 m3.2.2) = Outcome.ok W ∧
      sends_seq k [m1, m2, m3] w W := by
  obtain ⟨W1, hW1, hs1⟩ := send_message_sends k m1.1 m1.2.1 m1.2.2 w h1
  obtain ⟨W2, hW2, hs2⟩ := send_message_sends k m2.1 m2.2.1 m2.2.2 W1 h2
  obtain ⟨W3, hW3, hs3⟩ := send_message_sends k m3.1 m3.2.1 m3.2.2 W2 h3
  refine ⟨W3, ?_, W1, hW1, hs1, W2, hW2, hs2, W3, hW3, hs3, rfl⟩
  rw [hW1]
  simp only [Outcome.andThen]
  rw [hW2]
  simp only [Outcome.andThen]
  exact hW3

/-- C12: capability replies of the control decoder.  For a received control
message of type Get_Source_Cap (Get_Sink_Cap), tcpci_recv_ctrl makes exactly
one call of the send path, which returns and sends one message: with a
configured source (sink) PDO list of at most 7 words, the Source_Capabilities
(Sink_Capabilities) message with nwords = the list length and the list itself
as payload; with no list configured, the Reject message with no payload. -/
theorem recv_ctrl_capability_replies (k : usbpd) (hlab : k.labels_distinct)
    (hmax : k.PD_PAYLOAD_MAX_LEN = 7) (pd : pd_message) (w : World) :
    ((pd.header &&& k.PD_HEADER_TYPE_MASK) % 65536 = k.PD_CTRL_GET_SOURCE_CAP →
      (∀ pdos, w.sc.sc_source_pdos = some pdos → pdos.length = w.sc.sc_source_pdolen / 4 →
        pdos.length ≤ 7 →
        ∃ W, tcpci_recv_ctrl k pd w = Outcome.ok W ∧
          sends_seq k [(k.PD_DATA_SOURCE_CAP, pdos, pdos.length)]
            (printf LogLine.get_source_cap w) W ∧
          (sent_message k k.PD_DATA_SOURCE_CAP pdos pdos.length w.sc).payload = pdos) ∧
      (w.sc.sc_source_pdos = none →
        ∃ W, tcpci_recv_ctrl k pd w = Outcome.ok W ∧
          sends_seq k [(k.PD_CTRL_REJECT, [], 0)] (printf LogLine.get_source_cap w) W)) ∧
    ((pd.header &&& k.PD_HEADER_TYPE_MASK) % 65536 = k.PD_CTRL_GET_SINK_CAP →
      (∀ pdos, w.sc.sc_sink_pdos = some pdos → pdos.length = w.sc.sc_sink_pdolen / 4 →
        pdos.length ≤ 7 →
        ∃ W, tcpci_recv_ctrl k pd w = Outcome.ok W ∧
          sends_seq k [(k.PD_DATA_SINK_CAP, pdos, pdos.length)]
            (printf LogLine.get_sink_cap w) W ∧
          (sent_message k k.PD_DATA_SINK_CAP pdos pdos.length w.sc).payload = pdos) ∧
      (w.sc.sc_sink_pdos = none →
        ∃ W, tcpci_recv_ctrl k pd w = Outcome.ok W ∧
          sends_seq k [(k.PD_CTRL_REJECT, [], 0)] (printf LogLine.get_sink_cap w) W)) := by
  obtain ⟨hnodup, _⟩ := hlab
  simp only [List.nodup_cons, List.mem_cons, List.mem_singleton, List.not_mem_nil,
    not_or, List.nodup_nil, not_false_eq_true, and_true] at hnodup
  obtain ⟨⟨ha1, ha2, ha3, ha4⟩, ⟨hr1, hr2, hr3⟩, ⟨hp1, hp2⟩, hs1⟩ := hnodup
  constructor
  · intro htype
    have hctrl : ∀ w0 : World, w0 = w →
        tcpci_recv_ctrl k pd w0 = tcpci_send_source_caps k (printf LogLine.get_source_cap w0) := by
      intro w0 _
      unfold tcpci_recv_ctrl
      simp only [htype]
      rw [if_neg (Ne.symm ha3), if_neg (Ne.symm hr2), if_neg (Ne.symm hp1), if_pos trivial]
    rw [hctrl w rfl]
    constructor
    · intro pdos hsome hlen h7
      have hsome2 : (printf LogLine.get_source_cap w).sc.sc_source_pdos = some pdos := hsome
      have hlen2 : (printf LogLine.get_source_cap w).sc.sc_source_pdolen / 4 = pdos.length :=
        hlen.symm
      unfold tcpci_send_source_caps
      rw [hsome2]
      simp only [hlen2]
      obtain ⟨W, hW, hs⟩ := sends_seq_one k k.PD_DATA_SOURCE_CAP pdos pdos.length
        (printf LogLine.get_source_cap w) (by omega)
      exact ⟨W, hW, hs, sent_message_payload k _ pdos w.sc⟩
    · intro hnone
      have hnone2 : (printf LogLine.get_source_cap w).sc.sc_source_pdos = none := hnone
      unfold tcpci_send_source_caps
      rw [hnone2]
      exact sends_seq_one k k.PD_CTRL_REJECT [] 0 (printf LogLine.get_source_cap w) (by omega)
  · intro htype
    have hctrl : ∀ w0 : World, w0 = w →
        tcpci_recv_ctrl k pd w0 = tcpci_send_sink_caps k (printf LogLine.get_sink_cap w0) := by
      intro w0 _
      unfold tcpci_recv_ctrl
      simp only [htype]
      rw [if_neg (Ne.symm ha4), if_neg (Ne.symm hr3), if_neg (Ne.symm hp2),
        if_neg (Ne.symm hs1), if_pos trivial]
    rw [hctrl w rfl]
    constructor
    · intro pdos hsome hlen h7
      have hsome2 : (printf LogLine.get_sink_cap w).sc.sc_sink_pdos = some pdos := hsome
      have hlen2 : (printf LogLine.get_sink_cap w).sc.sc_sink_pdolen / 4 = pdos.length :=
        hlen.symm
      unfold tcpci_send_sink_caps
      rw [hsome2]
      simp only [hlen2]
      obtain ⟨W, hW, hs⟩ := sends_seq_one k k.PD_DATA_SINK_CAP pdos pdos.length
        (printf LogLine.get_sink_cap w) (by omega)
      exact ⟨W, hW, hs, sent_message_payload k _ pdos w.sc⟩
    · intro hnone
      have hnone2 : (printf LogLine.get_sink_cap w).sc.sc_sink_pdos = none := hnone
      unfold tcpci_send_sink_caps
      rw [hnone2]
      exact sends_seq_one k k.PD_CTRL_REJECT [] 0 (printf LogLine.get_sink_cap w) (by omega)

/-- C12 at a concrete input: a Get_Source_Cap message (header 0x0007) arrives
while a source PDO list of two words is configured; one Source_Capabilities
message with those two words is sent. -/
theorem recv_ctrl_capability_replies_witness :
    ∃ W, tcpci_recv_ctrl usbpd0 { header := 0x0007, payload := [] }
          { sc := sc_with_source_pdos, input := [0x40], trace := [] } = Outcome.ok W ∧
      sends_seq usbpd0
        [(usbpd0.PD_DATA_SOURCE_CAP, [0x0801912c, 0x0002d12c],
          [0x0801912c, 0x0002d12c].length)]
        (printf LogLine.get_source_cap
          { sc := sc_with_source_pdos, input := [0x40], trace := [] }) W ∧
      (sent_message usbpd0 usbpd0.PD_DATA_SOURCE_CAP [0x0801912c, 0x0002d12c]
        [0x0801912c, 0x0002d12c].length sc_with_source_pdos).payload =
        [0x0801912c, 0x0002d12c] :=
  ((recv_ctrl_capability_replies usbpd0 (by unfold usbpd.labels_distinct; decide) rfl
      { header := 0x0007, payload := [] }
      { sc := sc_with_source_pdos, input := [0x40], trace := [] }).1 (by decide)).1
    [0x0801912c, 0x0002d12c] rfl (by decide) (by decide)

/-- C13: request handling.  For a received data message of type Request: when
the power role is source, the header's word count is 1 and its revision is not
PD_REV10, tcpci_recv_data calls the send path three times, for Accept (no
payload), PS_RDY (no payload) and a vendor-defined message of two words, in
this order, and each call returns and sends its message; in every other case
it calls the send path once, for Reject (no payload). -/
theorem recv_data_request (k : usbpd) (hlab : k.labels_distinct)
    (hmax : 2 ≤ k.PD_PAYLOAD_MAX_LEN) (pd : pd_message) (w : World)
    (htype : (pd.header &&& k.PD_HEADER_TYPE_MASK) % 65536 = k.PD_DATA_REQUEST) :
    ((w.sc.sc_power_role = TYPEC_SOURCE ∧
        ((pd.header >>> k.PD_HEADER_CNT_SHIFT) &&& k.PD_HEADER_CNT_MASK) % 65536 = 1 ∧
        ((pd.header >>> k.PD_HEADER_REV_SHIFT) &&& k.PD_HEADER_REV_MASK) % 65536 ≠ k.PD_REV10) →
      ∃ W, tcpci_recv_data k pd w = Outcome.ok W ∧
        sends_seq k
          [(k.PD_CTRL_ACCEPT, [], 0), (k.PD_CTRL_PS_RDY, [], 0),
           (k.PD_DATA_VENDOR_DEF, [0x5ac8012, 0x01820306], 2)]
          (printf LogLine.sink_request (printf LogLine.request w)) W) ∧
    (¬ (w.sc.sc_power_role = TYPEC_SOURCE ∧
        ((pd.header >>> k.PD_HEADER_CNT_SHIFT) &&& k.PD_HEADER_CNT_MASK) % 65536 = 1 ∧
        ((pd.header >>> k.PD_HEADER_REV_SHIFT) &&& k.PD_HEADER_REV_MASK) % 65536 ≠ k.PD_REV10) →
      ∃ W, tcpci_recv_data k pd w = Outcome.ok W ∧
        sends_seq k [(k.PD_CTRL_REJECT, [], 0)] (printf LogLine.request w) W) := by
  have hne : ¬ k.PD_DATA_REQUEST = k.PD_DATA_SOURCE_CAP := Ne.symm hlab.2
  have hrole : (printf LogLine.request w).sc.sc_power_role = w.sc.sc_power_role := rfl
  constructor
  · intro hcond
    have hc : ¬ ((printf LogLine.request w).sc.sc_power_role ≠ TYPEC_SOURCE ∨
        ((pd.header >>> k.PD_HEADER_CNT_SHIFT) &&& k.PD_HEADER_CNT_MASK) % 65536 ≠ 1 ∨
        ((pd.header >>> k.PD_HEADER_REV_SHIFT) &&& k.PD_HEADER_REV_MASK) % 65536 = k.PD_REV10) := by
      rw [hrole]
      intro h
      rcases h with h | h | h
      · exact h hcond.1
      · exact h hcond.2.1
      · exact hcond.2.2 h
    unfold tcpci_recv_data
    simp only [htype]
    rw [if_neg hne, if_pos trivial, if_neg hc]
    exact sends_seq_three k (k.PD_CTRL_ACCEPT, [], 0) (k.PD_CTRL_PS_RDY, [], 0)
      (k.PD_DATA_VENDOR_DEF, [0x5ac8012, 0x01820306], 2) _ (Nat.zero_le _) (Nat.zero_le _) hmax
  · intro hcond
    have hc : (printf LogLine.request w).sc.sc_power_role ≠ TYPEC_SOURCE ∨
        ((pd.header >>> k.PD_HEADER_CNT_SHIFT) &&& k.PD_HEADER_CNT_MASK) % 65536 ≠ 1 ∨
        ((pd.header >>> k.PD_HEADER_REV_SHIFT) &&& k.PD_HEADER_REV_MASK) % 65536 = k.PD_REV10 := by
      rw [hrole]
      by_contra hn
      simp only [not_or, ne_eq, not_not] at hn
      exact hcond ⟨hn.1, hn.2.1, hn.2.2⟩
    unfold tcpci_recv_data
    simp only [htype]
    rw [if_neg hne, if_pos trivial, if_pos hc]
    exact sends_seq_one k k.PD_CTRL_REJECT [] 0 (printf LogLine.request w) (Nat.zero_le _)

/-- C13 at concrete inputs: a Request with word count 1 and revision 2.0 (header
0x1042) received as source is answered by Accept, PS_RDY and the vendor
message; received as sink it is answered by Reject. -/
theorem recv_data_request_witness :
    (∃ W, tcpci_recv_data usbpd0 pd_sample
          { sc := { sc0 with sc_power_role := TYPEC_SOURCE, sc_data_role := TYPEC_HOST },
            input := [0x40, 0x40, 0x40], trace := [] } = Outcome.ok W ∧
        sends_seq usbpd0
          [(usbpd0.PD_CTRL_ACCEPT, [], 0), (usbpd0.PD_CTRL_PS_RDY, [], 0),
           (usbpd0.PD_DATA_VENDOR_DEF, [0x5ac8012, 0x01820306], 2)]
          (printf LogLine.sink_request (printf LogLine.request
            { sc := { sc0 with sc_power_role := TYPEC_SOURCE, sc_data_role := TYPEC_HOST },
              input := [0x40, 0x40, 0x40], trace := [] })) W) ∧
    (∃ W, tcpci_recv_data usbpd0 pd_sample (world0 [0x40]) = Outcome.ok W ∧
        sends_seq usbpd0 [(usbpd0.PD_CTRL_REJECT, [], 0)]
          (printf LogLine.request (world0 [0x40])) W) :=
  ⟨(recv_data_request usbpd0 (by unfold usbpd.labels_distinct; decide) (by decide) pd_sample
      { sc := { sc0 with sc_power_role := TYPEC_SOURCE, sc_data_role := TYPEC_HOST },
        input := [0x40, 0x40, 0x40], trace := [] } (by decide)).1 (by decide),
   (recv_data_request usbpd0 (by unfold usbpd.labels_distinct; decide) (by decide) pd_sample
      (world0 [0x40]) (by decide)).2 (by decide)⟩

/-- C14: source-capabilities handling.  For a received data message of type
Source_Capabilities: as sink, tcpci_recv_data calls the send path once, for a
Request message whose one payload word is 0x12000000, and the call returns and
sends it; not as sink, it only prints a line.  A data message of any type
other than Source_Capabilities and Request only prints a line: no register is
accessed and the softc is unchanged.  The payload of the received message
never influences the run. -/
theorem recv_data_source_cap (k : usbpd)
    (hmax : 1 ≤ k.PD_PAYLOAD_MAX_LEN) (pd : pd_message) (w : World) :
    ((pd.header &&& k.PD_HEADER_TYPE_MASK) % 65536 = k.PD_DATA_SOURCE_CAP →
      (w.sc.sc_power_role = TYPEC_SINK →
        ∃ W, tcpci_recv_data k pd w = Outcome.ok W ∧
          sends_seq k [(k.PD_DATA_REQUEST, [0x12000000], 1)]
            (printf LogLine.source_cap w) W) ∧
      (w.sc.sc_power_role ≠ TYPEC_SINK →
        tcpci_recv_data k pd w = Outcome.ok (printf LogLine.source_cap w))) ∧
    ((pd.header &&& k.PD_HEADER_TYPE_MASK) % 65536 ≠ k.PD_DATA_SOURCE_CAP →
      (pd.header &&& k.PD_HEADER_TYPE_MASK) % 65536 ≠ k.PD_DATA_REQUEST →
      tcpci_recv_data k pd w =
        Outcome.ok { w with trace := w.trace ++ [Event.printf LogLine.unknown_type] }) ∧
    (∀ payload : List Nat,
      tcpci_recv_data k { pd with payload := payload } w = tcpci_recv_data k pd w) := by
  have hrole : (printf LogLine.source_cap w).sc.sc_power_role = w.sc.sc_power_role := rfl
  refine ⟨?_, ?_, ?_⟩
  · intro htype
    constructor
    · intro hsink
      unfold tcpci_recv_data
      simp only [htype]
      rw [if_pos trivial, hrole, if_neg (not_not.mpr hsink)]
      have h12 : (1 <<< 25 ||| 1 <<< 28 : Nat) = 0x12000000 := by decide
      rw [h12]
      exact sends_seq_one k k.PD_DATA_REQUEST [0x12000000] 1 (printf LogLine.source_cap w) hmax
    · intro hsink
      unfold tcpci_recv_data
      simp only [htype]
      rw [if_pos trivial, hrole, if_pos hsink]
  · intro h1 h2
    unfold tcpci_recv_data
    simp only []
    rw [if_neg h1, if_neg h2]
    rfl
  · intro payload
    rfl

/-- C14 at concrete inputs: a Source_Capabilities message (header 0x1041) received
as sink is answered by one Request; a data message of an unknown type (header
0x1045) only prints a line. -/
theorem recv_data_source_cap_witness :
    (∃ W, tcpci_recv_data usbpd0 { header := 0x1041, payload := [0x0801912c] }
          (world0 [0x40]) = Outcome.ok W ∧
        sends_seq usbpd0 [(usbpd0.PD_DATA_REQUEST, [0x12000000], 1)]
          (printf LogLine.source_cap (world0 [0x40])) W) ∧
    tcpci_recv_data usbpd0 { header := 0x1045, payload := [0x0801912c] } (world0 [0x40]) =
      Outcome.ok { world0 [0x40] with
        trace := (world0 [0x40]).trace ++ [Event.printf LogLine.unknown_type] } :=
  ⟨((recv_data_source_cap usbpd0 (by decide)
      { header := 0x1041, payload := [0x0801912c] } (world0 [0x40])).1 (by decide)).1
      (by decide),
   (recv_data_source_cap usbpd0 (by decide)
      { header := 0x1045, payload := [0x0801912c] } (world0 [0x40])).2.1
      (by decide) (by decide)⟩

/-! ### Receive dispatch -/

theorem rx_dump_words_eq (n : Nat) (w : World) :
    rx_dump_words n w =
      { w with trace := w.trace ++ List.replicate n (Event.printf LogLine.rx_dump_word) } := by
  induction n generalizing w with
  | zero => simp [rx_dump_words]
  | succ n ih =>
    rw [rx_dump_words, ih]
    simp [printf, emit, List.replicate_succ]

/-- Masking a field in place and masking it after the shift test the same bits. -/
theorem and_shiftLeft_eq (h m s : Nat) : h &&& (m <<< s) = ((h >>> s) &&& m) <<< s := by
  apply Nat.eq_of_testBit_eq
  intro i
  simp only [Nat.testBit_and, Nat.testBit_shiftLeft, Nat.testBit_shiftRight]
  by_cases hi : s ≤ i
  · simp [hi, Nat.add_sub_cancel' hi]
  · simp [hi]

theorem field_test_iff (h m s : Nat) (hh : h < 65536) :
    h &&& (m <<< s) ≠ 0 ↔ ((h >>> s) &&& m) % 65536 ≠ 0 := by
  have hle : (h >>> s) &&& m < 65536 :=
    by
    have h1 : h >>> s ≤ h := by
      rw [Nat.shiftRight_eq_div_pow]
      exact Nat.div_le_self _ _
    exact lt_of_le_of_lt (le_trans Nat.and_le_left h1) hh
  rw [and_shiftLeft_eq, Nat.mod_eq_of_lt hle, Nat.shiftLeft_eq]
  constructor
  · intro hne h0
    rw [h0] at hne
    simp at hne
  · intro hne h0
    rcases Nat.mul_eq_zero.mp h0 with h1 | h1
    · exact hne h1
    · exact absurd h1 (by positivity)

/-- The run of tcpci_rx_change on a frame that passes both length checks, up to
the test of the frame type. -/
theorem rx_change_readout (k : usbpd) (w : World) (c : Nat)
    (hc : w.input.headD 0 % 256 = c) (h3 : 3 ≤ c) (hfit : c - 3 ≤ 4 * k.PD_PAYLOAD_MAX_LEN) :
    tcpci_rx_change k w =
      if (w.input.getD 1 0 % 256) &&& TCPC_RX_BUF_FRAME_TYPE_MASK = k.TCPC_TX_SOP then
        tcpci_recv_message k (rx_message w (c - 3)) (rx_readout w (c - 3))
      else Outcome.ok (rx_readout w (c - 3)) := by
  have h3b : ¬ c < 1 + 2 := by omega
  have hfb : ¬ c - (1 + 2) > 4 * k.PD_PAYLOAD_MAX_LEN := by
    have : c - (1 + 2) = c - 3 := rfl
    omega
  subst hc
  unfold tcpci_rx_change
  simp only [tcpci_read_reg8, tcpci_read_reg16, tcpci_read_block]
  rw [if_neg h3b, if_neg hfb]
  simp only [rx_dump_words_eq, printf, emit, tcpci_write_reg16, letoh16]
  simp [rx_message, rx_readout, rx_readout_events, rx_block, tail_tail_tail_eq_drop,
    Nat.add_comm]

/-- C11 (amended): receive dispatch.  For a frame that passes both length
checks of tcpci_rx_change (byte count c with 3 ≤ c and c - 3 within the payload
buffer), the run after the readout depends on the frame type and the header:
a frame whose type is not TCPC_TX_SOP goes to no decoder; a TCPC_TX_SOP frame
whose header has PD_HEADER_EXT set only prints a line; every other TCPC_TX_SOP
frame is handed to exactly one decoder, tcpci_recv_ctrl when the header's word
count is zero and tcpci_recv_data when it is not. -/
theorem rx_change_dispatch (k : usbpd) (w : World) (c : Nat)
    (hc : w.input.headD 0 % 256 = c) (h3 : 3 ≤ c) (hfit : c - 3 ≤ 4 * k.PD_PAYLOAD_MAX_LEN) :
    ((w.input.getD 1 0 % 256) &&& TCPC_RX_BUF_FRAME_TYPE_MASK ≠ k.TCPC_TX_SOP →
      tcpci_rx_change k w = Outcome.ok (rx_readout w (c - 3))) ∧
    ((w.input.getD 1 0 % 256) &&& TCPC_RX_BUF_FRAME_TYPE_MASK = k.TCPC_TX_SOP →
      ((rx_message w (c - 3)).header &&& k.PD_HEADER_EXT ≠ 0 →
        tcpci_rx_change k w =
          Outcome.ok (printf LogLine.extended_message (rx_readout w (c - 3)))) ∧
      ((rx_message w (c - 3)).header &&& k.PD_HEADER_EXT = 0 →
        (((rx_message w (c - 3)).header >>> k.PD_HEADER_CNT_SHIFT) &&&
            k.PD_HEADER_CNT_MASK) % 65536 = 0 →
        tcpci_rx_change k w =
          tcpci_recv_ctrl k (rx_message w (c - 3)) (rx_readout w (c - 3))) ∧
      ((rx_message w (c - 3)).header &&& k.PD_HEADER_EXT = 0 →
        (((rx_message w (c - 3)).header >>> k.PD_HEADER_CNT_SHIFT) &&&
            k.PD_HEADER_CNT_MASK) % 65536 ≠ 0 →
        tcpci_rx_change k w =
          tcpci_recv_data k (rx_message w (c - 3)) (rx_readout w (c - 3)))) := by
  have hro := rx_change_readout k w c hc h3 hfit
  have hlt : (rx_message w (c - 3)).header < 65536 := Nat.mod_lt _ (by decide)
  have hiff := field_test_iff (rx_message w (c - 3)).header k.PD_HEADER_CNT_MASK
    k.PD_HEADER_CNT_SHIFT hlt
  refine ⟨fun hf => ?_, fun hf => ⟨fun hext => ?_, fun hext hcnt => ?_, fun hext hcnt => ?_⟩⟩
  · rw [hro, if_neg hf]
  · rw [hro, if_pos hf, tcpci_recv_message, if_pos hext]
  · rw [hro, if_pos hf, tcpci_recv_message, if_neg (not_not.mpr hext),
      if_neg (fun h => hiff.mp h hcnt)]
  · rw [hro, if_pos hf, tcpci_recv_message, if_neg (not_not.mpr hext), if_pos (hiff.mpr hcnt)]

/-- C11 at concrete inputs: an SOP frame with header 0x0003 (Accept, no words)
goes to the control decoder and an SOP frame with header 0x1045 (one word) goes
to the data decoder. -/
theorem rx_change_dispatch_witness :
    tcpci_rx_change usbpd0 (world0 [3, 0, 0x0003]) =
      tcpci_recv_ctrl usbpd0 (rx_message (world0 [3, 0, 0x0003]) (3 - 3))
        (rx_readout (world0 [3, 0, 0x0003]) (3 - 3)) ∧
    tcpci_rx_change usbpd0 (world0 [7, 0, 0x1045, 1, 2, 3, 4]) =
      tcpci_recv_data usbpd0 (rx_message (world0 [7, 0, 0x1045, 1, 2, 3, 4]) (7 - 3))
        (rx_readout (world0 [7, 0, 0x1045, 1, 2, 3, 4]) (7 - 3)) :=
  ⟨((rx_change_dispatch usbpd0 (world0 [3, 0, 0x0003]) 3 (by decide) (by decide)
      (by decide)).2 (by decide)).2.1 (by decide) (by decide),
   ((rx_change_dispatch usbpd0 (world0 [7, 0, 0x1045, 1, 2, 3, 4]) 7 (by decide) (by decide)
      (by decide)).2 (by decide)).2.2 (by decide) (by decide)⟩

set_option maxRecDepth 1000000 in
/-- C11, the claim as worded fails: a frame of type 1 (not TCPC_TX_SOP) with
header 0x0003 passes both length checks and is handed to neither decoder, and
an SOP frame with the extended flag set (header 0x8003) is handed to neither
decoder either. -/
theorem rx_change_dispatch_counterexample :
    (tcpci_rx_change usbpd0 (world0 [3, 1, 0x0003]) =
        Outcome.ok (rx_readout (world0 [3, 1, 0x0003]) 0) ∧
      tcpci_rx_change usbpd0 (world0 [3, 1, 0x0003]) ≠
        tcpci_recv_ctrl usbpd0 (rx_message (world0 [3, 1, 0x0003]) 0)
          (rx_readout (world0 [3, 1, 0x0003]) 0) ∧
      tcpci_rx_change usbpd0 (world0 [3, 1, 0x0003]) ≠
        tcpci_recv_data usbpd0 (rx_message (world0 [3, 1, 0x0003]) 0)
          (rx_readout (world0 [3, 1, 0x0003]) 0)) ∧
    (tcpci_rx_change usbpd0 (world0 [3, 0, 0x8003]) =
        Outcome.ok (printf LogLine.extended_message (rx_readout (world0 [3, 0, 0x8003]) 0)) ∧
      tcpci_rx_change usbpd0 (world0 [3, 0, 0x8003]) ≠
        tcpci_recv_ctrl usbpd0 (rx_message (world0 [3, 0, 0x8003]) 0)
          (rx_readout (world0 [3, 0, 0x8003]) 0) ∧
      tcpci_rx_change usbpd0 (world0 [3, 0, 0x8003]) ≠
        tcpci_recv_data usbpd0 (rx_message (world0 [3, 0, 0x8003]) 0)
          (rx_readout (world0 [3, 0, 0x8003]) 0)) := by
  decide

/-! ### The header the send path builds -/

theorem and_or_right (a b m : Nat) : (a ||| b) &&& m = a &&& m ||| b &&& m := by
  rw [Nat.and_comm, Nat.and_or_distrib_left, Nat.and_comm m a, Nat.and_comm m b]

theorem sub_disj (x a b : Nat) (hx : x &&& a = x) (hd : a &&& b = 0) : x &&& b = 0 := by
  rw [← hx, Nat.and_assoc, hd, Nat.and_zero]

theorem sub_disj2 (x a b : Nat) (hx : x &&& a = x) (hd : b &&& a = 0) : x &&& b = 0 :=
  sub_disj x a b hx (by rw [Nat.and_comm]; exact hd)

theorem sub_shift (x m s : Nat) (hx : x &&& m = x) : (x <<< s) &&& (m <<< s) = x <<< s := by
  apply Nat.eq_of_testBit_eq
  intro i
  have hb : ∀ j, (x.testBit j && m.testBit j) = x.testBit j := by
    intro j
    rw [← Nat.testBit_and, hx]
  simp only [Nat.testBit_and, Nat.testBit_shiftLeft]
  by_cases hi : s ≤ i
  · simp [hi, hb]
  · simp [hi]

theorem sub_lt (x a : Nat) (hx : x &&& a = x) (ha : a < 65536) : x < 65536 := by
  rw [← hx]
  exact lt_of_le_of_lt Nat.and_le_right ha

theorem or_lt_65536 (a b : Nat) (ha : a < 65536) (hb : b < 65536) : a ||| b < 65536 := by
  have h : a ||| b < 2 ^ 16 := Nat.or_lt_two_pow ha hb
  exact h

theorem flag_sub (c : Prop) [Decidable c] (m : Nat) :
    (if c then m else 0) &&& m = (if c then m else 0) := by
  split_ifs <;> simp

theorem shiftLeft_cancel (a b s : Nat) (h : a <<< s = b <<< s) : a = b := by
  rw [Nat.shiftLeft_eq, Nat.shiftLeft_eq] at h
  exact Nat.eq_of_mul_eq_mul_right (by positivity) h

/-- The truncations in the header computation of tcpci_send_message change
nothing when every part lies within the 16 bits of the header. -/
theorem sent_header_eq (k : usbpd) (t n : Nat) (sc : tcpci_softc)
    (ht : t < 65536) (hD : k.PD_HEADER_DATA_ROLE < 65536) (hP : k.PD_HEADER_POWER_ROLE < 65536)
    (hr : k.PD_REV20 <<< k.PD_HEADER_REV_SHIFT < 65536)
    (hi : sc.sc_message_id <<< k.PD_HEADER_ID_SHIFT < 65536)
    (hc : n <<< k.PD_HEADER_CNT_SHIFT < 65536) :
    sent_header k t n sc = header_parts k t n sc := by
  unfold sent_header header_parts
  have m0 := Nat.mod_eq_of_lt ht
  by_cases h1 : sc.sc_data_role = TYPEC_HOST <;> by_cases h2 : sc.sc_power_role = TYPEC_SOURCE
  · have b1 := or_lt_65536 _ _ ht hD
    have b2 := or_lt_65536 _ _ b1 hP
    have b3 := or_lt_65536 _ _ b2 hr
    have b4 := or_lt_65536 _ _ b3 hi
    have b5 := or_lt_65536 _ _ b4 hc
    simp only [h1, h2, if_true, m0, Nat.mod_eq_of_lt b1, Nat.mod_eq_of_lt b2,
      Nat.mod_eq_of_lt b3, Nat.mod_eq_of_lt b4, Nat.mod_eq_of_lt b5]
  · have b1 := or_lt_65536 _ _ ht hD
    have b3 := or_lt_65536 _ _ b1 hr
    have b4 := or_lt_65536 _ _ b3 hi
    have b5 := or_lt_65536 _ _ b4 hc
    simp only [h1, h2, if_true, if_false, m0, Nat.mod_eq_of_lt b1, Nat.or_zero,
      Nat.mod_eq_of_lt b3, Nat.mod_eq_of_lt b4, Nat.mod_eq_of_lt b5]
  · have b2 := or_lt_65536 _ _ ht hP
    have b3 := or_lt_65536 _ _ b2 hr
    have b4 := or_lt_65536 _ _ b3 hi
    have b5 := or_lt_65536 _ _ b4 hc
    simp only [h1, h2, if_true, if_false, m0, Nat.mod_eq_of_lt b2, Nat.or_zero,
      Nat.mod_eq_of_lt b3, Nat.mod_eq_of_lt b4, Nat.mod_eq_of_lt b5]
  · have b3 := or_lt_65536 _ _ ht hr
    have b4 := or_lt_65536 _ _ b3 hi
    have b5 := or_lt_65536 _ _ b4 hc
    simp only [h1, h2, if_false, m0, Nat.or_zero,
      Nat.mod_eq_of_lt b3, Nat.mod_eq_of_lt b4, Nat.mod_eq_of_lt b5]

/-- Each field of the header the send path builds holds the part written to
it, and the extended flag is clear. -/
theorem header_parts_fields (k : usbpd) (hk : k.layout) (t n : Nat) (sc : tcpci_softc)
    (ht : t &&& k.PD_HEADER_TYPE_MASK = t)
    (hid : sc.sc_message_id &&& k.PD_HEADER_ID_MASK = sc.sc_message_id)
    (hcnt : n &&& k.PD_HEADER_CNT_MASK = n) :
    sent_header k t n sc = header_parts k t n sc ∧
    header_parts k t n sc < 65536 ∧
    header_parts k t n sc &&& k.PD_HEADER_TYPE_MASK = t ∧
    header_parts k t n sc &&& k.PD_HEADER_DATA_ROLE =
      (if sc.sc_data_role = TYPEC_HOST then k.PD_HEADER_DATA_ROLE else 0) ∧
    header_parts k t n sc &&& k.PD_HEADER_POWER_ROLE =
      (if sc.sc_power_role = TYPEC_SOURCE then k.PD_HEADER_POWER_ROLE else 0) ∧
    header_parts k t n sc &&& (k.PD_HEADER_REV_MASK <<< k.PD_HEADER_REV_SHIFT) =
      k.PD_REV20 <<< k.PD_HEADER_REV_SHIFT ∧
    header_parts k t n sc &&& (k.PD_HEADER_ID_MASK <<< k.PD_HEADER_ID_SHIFT) =
      sc.sc_message_id <<< k.PD_HEADER_ID_SHIFT ∧
    header_parts k t n sc &&& (k.PD_HEADER_CNT_MASK <<< k.PD_HEADER_CNT_SHIFT) =
      n <<< k.PD_HEADER_CNT_SHIFT ∧
    header_parts k t n sc &&& k.PD_HEADER_EXT = 0 := by
  obtain ⟨hpw, hlt, _, _, hrev⟩ := hk
  simp only [usbpd.header_fields, List.pairwise_cons, List.mem_cons, forall_eq_or_imp, forall_eq,
    List.not_mem_nil, IsEmpty.forall_iff, implies_true, and_true, List.Pairwise.nil,
    List.mem_singleton] at hpw hlt
  obtain ⟨⟨hTD, hTP, hTR, hTI, hTC, hTE⟩, ⟨hDP, hDR, hDI, hDC, hDE⟩, ⟨hPR, hPI, hPC, hPE⟩, ⟨hRI, hRC, hRE⟩, ⟨hIC, hIE⟩, hCE⟩ := hpw
  obtain ⟨bT, bD, bP, bR, bI, bC, _⟩ := hlt
  have hd := flag_sub (sc.sc_data_role = TYPEC_HOST) k.PD_HEADER_DATA_ROLE
  have hp := flag_sub (sc.sc_power_role = TYPEC_SOURCE) k.PD_HEADER_POWER_ROLE
  have hr := sub_shift _ _ k.PD_HEADER_REV_SHIFT hrev
  have hi := sub_shift _ _ k.PD_HEADER_ID_SHIFT hid
  have hc := sub_shift _ _ k.PD_HEADER_CNT_SHIFT hcnt
  have hdT := sub_disj2 _ _ _ hd hTD
  have hpT := sub_disj2 _ _ _ hp hTP
  have hrT := sub_disj2 _ _ _ hr hTR
  have hiT := sub_disj2 _ _ _ hi hTI
  have hcT := sub_disj2 _ _ _ hc hTC
  have htD := sub_disj _ _ _ ht hTD
  have hpD := sub_disj2 _ _ _ hp hDP
  have hrD := sub_disj2 _ _ _ hr hDR
  have hiD := sub_disj2 _ _ _ hi hDI
  have hcD := sub_disj2 _ _ _ hc hDC
  have htP := sub_disj _ _ _ ht hTP
  have hdP := sub_disj _ _ _ hd hDP
  have hrP := sub_disj2 _ _ _ hr hPR
  have hiP := sub_disj2 _ _ _ hi hPI
  have hcP := sub_disj2 _ _ _ hc hPC
  have htR := sub_disj _ _ _ ht hTR
  have hdR := sub_disj _ _ _ hd hDR
  have hpR := sub_disj _ _ _ hp hPR
  have hiR := sub_disj2 _ _ _ hi hRI
  have hcR := sub_disj2 _ _ _ hc hRC
  have htI := sub_disj _ _ _ ht hTI
  have hdI := sub_disj _ _ _ hd hDI
  have hpI := sub_disj _ _ _ hp hPI
  have hrI := sub_disj _ _ _ hr hRI
  have hcI := sub_disj2 _ _ _ hc hIC
  have htC := sub_disj _ _ _ ht hTC
  have hdC := sub_disj _ _ _ hd hDC
  have hpC := sub_disj _ _ _ hp hPC
  have hrC := sub_disj _ _ _ hr hRC
  have hiC := sub_disj _ _ _ hi hIC
  have htE := sub_disj _ _ _ ht hTE
  have hdE := sub_disj _ _ _ hd hDE
  have hpE := sub_disj _ _ _ hp hPE
  have hrE := sub_disj _ _ _ hr hRE
  have hiE := sub_disj _ _ _ hi hIE
  have hcE := sub_disj _ _ _ hc hCE
  have e := sent_header_eq k t n sc (sub_lt _ _ ht bT) bD bP (sub_lt _ _ hr bR)
    (sub_lt _ _ hi bI) (sub_lt _ _ hc bC)
  refine ⟨e, ?_, ?_, ?_, ?_, ?_, ?_, ?_, ?_⟩
  · rw [← e]
    unfold sent_header
    exact Nat.mod_lt _ (by decide)
  · unfold header_parts
    simp only [and_or_right, ht, hdT, hpT, hrT, hiT, hcT, Nat.zero_or, Nat.or_zero]
  · unfold header_parts
    simp only [and_or_right, htD, hd, hpD, hrD, hiD, hcD, Nat.zero_or, Nat.or_zero]
  · unfold header_parts
    simp only [and_or_right, htP, hdP, hp, hrP, hiP, hcP, Nat.zero_or, Nat.or_zero]
  · unfold header_parts
    simp only [and_or_right, htR, hdR, hpR, hr, hiR, hcR, Nat.zero_or, Nat.or_zero]
  · unfold header_parts
    simp only [and_or_right, htI, hdI, hpI, hrI, hi, hcI, Nat.zero_or, Nat.or_zero]
  · unfold header_parts
    simp only [and_or_right, htC, hdC, hpC, hrC, hiC, hc, Nat.zero_or, Nat.or_zero]
  · unfold header_parts
    simp only [and_or_right, htE, hdE, hpE, hrE, hiE, hcE, Nat.zero_or, Nat.or_zero]

theorem field_lt (h m s : Nat) (hh : h < 65536) : (h >>> s) &&& m < 65536 := by
  have h1 : h >>> s ≤ h := by
    rw [Nat.shiftRight_eq_div_pow]
    exact Nat.div_le_self _ _
  exact lt_of_le_of_lt (le_trans Nat.and_le_left h1) hh

/-- A field read back by shift and mask holds the part x written to it. -/
theorem field_decode (h m s x : Nat) (hh : h < 65536) (hf : h &&& (m <<< s) = x <<< s) :
    (h >>> s) &&& m = x ∧ ((h >>> s) &&& m) % 65536 = x := by
  have e : (h >>> s) &&& m = x := by
    rw [and_shiftLeft_eq] at hf
    exact shiftLeft_cancel _ _ s hf
  refine ⟨e, ?_⟩
  rw [Nat.mod_eq_of_lt (field_lt h m s hh)]
  exact e

theorem map_getD_range (f : Nat → Nat) (n : Nat) :
    (List.range n).map (fun i => ((List.range n).map f).getD i 0) = (List.range n).map f := by
  apply List.map_congr_left
  intro i hi
  have hi2 : i < n := List.mem_range.mp hi
  simp [List.getD_eq_getElem?_getD, hi2]

/-- The frame of a message built by tcpci_send_message, in terms of its
arguments. -/
theorem sent_frame_events (k : usbpd) (t nwords : Nat) (payload : List Nat) (sc : tcpci_softc)
    (role : typec_data_role) (hn : nwords ≤ 7)
    (hlt : sent_header k t nwords sc < 65536)
    (hcnt : ((sent_header k t nwords sc >>> k.PD_HEADER_CNT_SHIFT) &&&
      k.PD_HEADER_CNT_MASK) % 65536 = nwords) :
    tx_frame_events k (sent_message k t payload nwords sc) role =
      [Event.write8 TCPC_TX_BYTE_CNT (2 + 4 * nwords),
       Event.write16 TCPC_TX_HDR (sent_header k t nwords sc)] ++
      (if nwords ≠ 0 then
         [Event.writeBlock TCPC_TX_DATA
            (((List.range nwords).map (fun i => payload.getD i 0)).flatMap bytes_of_u32)]
       else []) ++
      [Event.write8 TCPC_TRANSMIT (transmit_value k (sent_message k t payload nwords sc) role)] := by
  rw [tx_frame_events_eq]
  have hb : (2 + nwords * 4) % 256 = 2 + 4 * nwords := by omega
  simp only [sent_message, hcnt, hb, Nat.mod_eq_of_lt hlt, map_getD_range, transmit_value]

/-- C18: frame construction on the send path.  Under a header layout whose
fields do not overlap, for a message type t within the type field, a word
count nwords of at most 7 (within the payload limit and the count field) and
a message-ID within the ID field, the header built by tcpci_send_message
decodes to type t, data-role bit set exactly for host, power-role bit set
exactly for source, revision PD_REV20, message-ID sc_message_id, word count
nwords and a clear extended flag; the call returns, and the writes to the
transmit registers are, once per attempt (1 to 20 attempts), TX_BYTE_CNT =
2 + 4 * nwords, TX_HDR = that header, TX_DATA = the little-endian bytes of the
first nwords payload words (no TX_DATA write when nwords = 0), and
TRANSMIT. -/
theorem send_message_frame (k : usbpd) (hk : k.layout) (t nwords : Nat) (payload : List Nat)
    (w : World) (ht : t &&& k.PD_HEADER_TYPE_MASK = t) (hn : nwords ≤ 7)
    (hmax : nwords ≤ k.PD_PAYLOAD_MAX_LEN)
    (hcnt : nwords &&& k.PD_HEADER_CNT_MASK = nwords)
    (hid : w.sc.sc_message_id &&& k.PD_HEADER_ID_MASK = w.sc.sc_message_id) :
    (sent_header k t nwords w.sc &&& k.PD_HEADER_TYPE_MASK) % 65536 = t ∧
    (sent_header k t nwords w.sc &&& k.PD_HEADER_DATA_ROLE ≠ 0 ↔
      w.sc.sc_data_role = TYPEC_HOST) ∧
    (sent_header k t nwords w.sc &&& k.PD_HEADER_POWER_ROLE ≠ 0 ↔
      w.sc.sc_power_role = TYPEC_SOURCE) ∧
    ((sent_header k t nwords w.sc >>> k.PD_HEADER_REV_SHIFT) &&& k.PD_HEADER_REV_MASK) % 65536 =
      k.PD_REV20 ∧
    (sent_header k t nwords w.sc >>> k.PD_HEADER_ID_SHIFT) &&& k.PD_HEADER_ID_MASK =
      w.sc.sc_message_id ∧
    ((sent_header k t nwords w.sc >>> k.PD_HEADER_CNT_SHIFT) &&& k.PD_HEADER_CNT_MASK) % 65536 =
      nwords ∧
    sent_header k t nwords w.sc &&& k.PD_HEADER_EXT = 0 ∧
    ∃ (W : World) (n : Nat) (tr : List Event),
      tcpci_send_message k t payload nwords w = Outcome.ok W ∧
      1 ≤ n ∧ n ≤ 20 ∧ W.trace = w.trace ++ tr ∧
      tx_writes tr = (List.replicate n
        ([Event.write8 TCPC_TX_BYTE_CNT (2 + 4 * nwords),
          Event.write16 TCPC_TX_HDR (sent_header k t nwords w.sc)] ++
         (if nwords ≠ 0 then
            [Event.writeBlock TCPC_TX_DATA
               (((List.range nwords).map (fun i => payload.getD i 0)).flatMap bytes_of_u32)]
          else []) ++
         [Event.write8 TCPC_TRANSMIT
            (transmit_value k (sent_message k t payload nwords w.sc) w.sc.sc_data_role)])).flatten := by
  obtain ⟨e, hlt, fT, fD, fP, fR, fI, fC, fE⟩ := header_parts_fields k hk t nwords w.sc ht hid hcnt
  obtain ⟨_, _, hD0, hP0, _⟩ := hk
  rw [← e] at hlt fT fD fP fR fI fC fE
  have dR := field_decode _ _ _ _ hlt fR
  have dI := field_decode _ _ _ _ hlt fI
  have dC := field_decode _ _ _ _ hlt fC
  refine ⟨?_, ?_, ?_, dR.2, dI.1, dC.2, fE, ?_⟩
  · rw [fT]
    apply Nat.mod_eq_of_lt
    rw [← fT]
    exact lt_of_le_of_lt Nat.and_le_left hlt
  · rw [fD]
    split_ifs with h
    · simp [h, hD0]
    · simp [h]
  · rw [fP]
    split_ifs with h
    · simp [h, hP0]
    · simp [h]
  · obtain ⟨W, hW, n, tr, h1, h20, htr, htx, _⟩ := send_message_sends k t payload nwords w hmax
    refine ⟨W, n, tr, hW, h1, h20, htr, ?_⟩
    rw [htx, sent_frame_events k t nwords payload w.sc w.sc.sc_data_role hn hlt dC.2]

/-- C18 at a concrete input: a Source_Capabilities message of two words sent as
host and source with message-ID 5 under the sample layout; the header is
0x2b61. -/
theorem send_message_frame_witness :
    sent_header usbpd0 1 2
        { sc0 with sc_data_role := TYPEC_HOST, sc_power_role := TYPEC_SOURCE,
                   sc_message_id := 5 } = 0x2b61 ∧
    ∃ (W : World) (n : Nat) (tr : List Event),
      tcpci_send_message usbpd0 1 [0x0801912c, 0x0002d12c] 2
        { sc := { sc0 with sc_data_role := TYPEC_HOST, sc_power_role := TYPEC_SOURCE,
                           sc_message_id := 5 },
          input := [0x40], trace := [] } = Outcome.ok W ∧
      1 ≤ n ∧ n ≤ 20 ∧ W.trace = [] ++ tr ∧
      tx_writes tr = (List.replicate n
        ([Event.write8 TCPC_TX_BYTE_CNT (2 + 4 * 2),
          Event.write16 TCPC_TX_HDR (sent_header usbpd0 1 2
            { sc0 with sc_data_role := TYPEC_HOST, sc_power_role := TYPEC_SOURCE,
                       sc_message_id := 5 })] ++
         (if 2 ≠ 0 then
            [Event.writeBlock TCPC_TX_DATA
               (((List.range 2).map
                 (fun i => [0x0801912c, 0x0002d12c].getD i 0)).flatMap bytes_of_u32)]
          else []) ++
         [Event.write8 TCPC_TRANSMIT
            (transmit_value usbpd0
              (sent_message usbpd0 1 [0x0801912c, 0x0002d12c] 2
                { sc0 with sc_data_role := TYPEC_HOST, sc_power_role := TYPEC_SOURCE,
                           sc_message_id := 5 }) TYPEC_HOST)])).flatten :=
  ⟨by decide,
   (send_message_frame usbpd0 (by unfold usbpd.layout usbpd.header_fields; decide) 1 2
      [0x0801912c, 0x0002d12c]
      { sc := { sc0 with sc_data_role := TYPEC_HOST, sc_power_role := TYPEC_SOURCE,
                         sc_message_id := 5 },
        input := [0x40], trace := [] }
      (by decide) (by decide) (by decide) (by decide) (by decide)).2.2.2.2.2.2.2⟩

/-! ### The alert task -/

theorem andThen_assoc (o : Outcome) (f g : World → Outcome) :
    (o.andThen f).andThen g = o.andThen (fun w => (f w).andThen g) := by
  cases o <;> rfl

theorem andThen_ok (w : World) (f : World → Outcome) : (Outcome.ok w).andThen f = f w := rfl

theorem andThen_congr (o : Outcome) (f g : World → Outcome) (h : ∀ w, f w = g w) :
    o.andThen f = o.andThen g := by
  cases o
  · exact h _
  · rfl

/-- The world after the entry of tcpci_task, as the source computes it. -/
theorem task_entry_eq (w : World) :
    (if (tcpci_read_reg16 TCPC_ALERT w).1 &&& not16 TCPC_ALERT_RX_STATUS ≠ 0 then
        tcpci_write_reg16 TCPC_ALERT
          ((tcpci_read_reg16 TCPC_ALERT w).1 &&& not16 TCPC_ALERT_RX_STATUS)
          (tcpci_read_reg16 TCPC_ALERT w).2
      else (tcpci_read_reg16 TCPC_ALERT w).2) = task_entry w := by
  have hlt : (w.input.headD 0 % 65536 &&& not16 TCPC_ALERT_RX_STATUS) % 65536 =
      w.input.headD 0 % 65536 &&& not16 TCPC_ALERT_RX_STATUS :=
    Nat.mod_eq_of_lt (lt_of_le_of_lt Nat.and_le_left (Nat.mod_lt _ (by decide)))
  unfold task_entry
  simp only [tcpci_read_reg16, tcpci_write_reg16, emit]
  split_ifs
  · rw [hlt, List.append_assoc]
  · rw [List.append_nil]

/-- The alert task of the source is the dispatch the specification words. -/
theorem task_eq_dispatch (k : usbpd) (w : World) :
    tcpci_task k w = tcpci_task_dispatch k w := by
  unfold tcpci_task tcpci_task_dispatch
  simp only [task_entry_eq, alert_handlers, run_handlers, andThen_assoc]
  have hs : (tcpci_read_reg16 TCPC_ALERT w).1 = w.input.headD 0 % 65536 := rfl
  simp only [hs]
  apply andThen_congr
  intro w1
  apply andThen_congr
  intro w2
  apply andThen_congr
  intro w3
  simp only [task_alarm_lo, task_fault]
  split_ifs <;> rfl

/-! ### Runs that leave RX_STATUS and the interrupt alone -/

theorem ext_refl (P : Event → Prop) (w : World) : ext P w w :=
  ⟨[], (List.append_nil _).symm, by simp⟩

theorem ext_trans (P : Event → Prop) (w w1 w2 : World) (h1 : ext P w w1) (h2 : ext P w1 w2) :
    ext P w w2 := by
  obtain ⟨t1, e1, p1⟩ := h1
  obtain ⟨t2, e2, p2⟩ := h2
  refine ⟨t1 ++ t2, by rw [e2, e1, List.append_assoc], ?_⟩
  intro e he
  rcases List.mem_append.mp he with h | h
  · exact p1 e h
  · exact p2 e h

theorem ext_mono (P Q : Event → Prop) (hPQ : ∀ e, P e → Q e) (w W : World) (h : ext P w W) :
    ext Q w W := by
  obtain ⟨t, e1, p1⟩ := h
  exact ⟨t, e1, fun e he => hPQ e (p1 e he)⟩

theorem ext_trace_eq (P : Event → Prop) (w w1 W : World) (h : ext P w w1)
    (ht : W.trace = w1.trace) : ext P w W := by
  obtain ⟨t, e1, p1⟩ := h
  exact ⟨t, by rw [ht, e1], p1⟩

theorem ext_emit (P : Event → Prop) (w w1 : World) (e : Event) (he : P e) (h : ext P w w1) :
    ext P w (emit e w1) := by
  obtain ⟨t, e1, p1⟩ := h
  refine ⟨t ++ [e], by simp [emit, e1], ?_⟩
  intro x hx
  rcases List.mem_append.mp hx with h | h
  · exact p1 x h
  · rw [List.mem_singleton.mp h]
    exact he

theorem ext_events (P : Event → Prop) (w w1 W : World) (t : List Event) (h : ext P w w1)
    (ht : W.trace = w1.trace ++ t) (hP : ∀ e ∈ t, P e) : ext P w W :=
  ext_trans P w w1 W h ⟨t, ht, hP⟩

theorem q_write8 (w w1 : World) (reg val : Nat) (hr : reg ≠ TCPC_ALERT) (h : quiet w w1) :
    quiet w (tcpci_write_reg8 reg val w1) := by
  apply ext_emit _ _ _ _ _ h
  constructor
  · simpa [Event.clearsRx] using fun h2 => absurd h2 hr
  · simp

theorem q_read8 (w w1 : World) (reg : Nat) (h : quiet w w1) :
    quiet w (tcpci_read_reg8 reg w1).2 :=
  ext_events _ w w1 _ [Event.read8 reg (w1.input.headD 0 % 256)] h rfl
    (by simp [Event.isQuiet, Event.clearsRx])

theorem q_read16 (w w1 : World) (reg : Nat) (h : quiet w w1) :
    quiet w (tcpci_read_reg16 reg w1).2 :=
  ext_events _ w w1 _ [Event.read16 reg (w1.input.headD 0 % 65536)] h rfl
    (by simp [Event.isQuiet, Event.clearsRx])

theorem q_printf (w w1 : World) (l : LogLine) (h : quiet w w1) : quiet w (printf l w1) :=
  ext_emit _ _ _ _ (by simp [Event.isQuiet, Event.clearsRx]) h

theorem q_gpio (w w1 : World) (val : Nat) (h : quiet w w1) : quiet w (gpio_ss_sel val w1) := by
  unfold gpio_ss_sel
  split
  · exact ext_emit _ _ _ _ (by simp [Event.isQuiet, Event.clearsRx]) h
  · exact h

theorem q_set_attached (w w1 : World) (v : Nat) (h : quiet w w1) :
    quiet w (set_attached v w1) := ext_trace_eq _ w w1 _ h rfl

theorem q_set_message_id (w w1 : World) (v : Nat) (h : quiet w w1) :
    quiet w (set_message_id v w1) := ext_trace_eq _ w w1 _ h rfl

theorem q_set_cc (w w1 : World) (v : Nat) (h : quiet w w1) :
    quiet w (set_cc v w1) := ext_trace_eq _ w w1 _ h rfl

theorem q_set_roles (w w1 : World) (d : typec_data_role) (p : typec_power_role)
    (h : quiet w w1) : quiet w (tcpci_set_roles d p w1) := by
  unfold tcpci_set_roles
  apply ext_trace_eq _ w _ _ _ rfl
  split_ifs <;> exact q_printf _ _ _ (q_write8 _ _ _ _ (by decide) h)

theorem q_set_polarity (w w1 : World) (cc : typec_polarity) (h : quiet w w1) :
    quiet w (tcpci_set_polarity cc w1) := by
  unfold tcpci_set_polarity
  cases cc <;> simp only [reduceCtorEq, if_true, if_false] <;>
    exact q_gpio _ _ _ (q_write8 _ _ _ _ (by decide) h)

theorem q_set_vbus (w w1 : World) (source sink : Nat) (h : quiet w w1) :
    quiet w (tcpci_set_vbus source sink w1) := by
  unfold tcpci_set_vbus
  simp only []
  split_ifs <;>
    repeat (first
      | exact h
      | refine q_write8 _ _ _ _ (by decide) ?_
      | refine q_read8 _ _ _ ?_)

theorem q_andThen (w : World) (o : Outcome) (f : World → Outcome) (h : quiet w o.world)
    (hf : ∀ w1, quiet w w1 → quiet w (f w1).world) : quiet w (o.andThen f).world := by
  cases o with
  | ok w1 => exact hf w1 h
  | panic w1 => exact h

theorem q_cc_branches (w w1 : World) (cc1 cc2 : typec_cc_status) (h : quiet w w1) :
    quiet w (tcpci_cc_change_branches cc1 cc2 w1).world := by
  unfold tcpci_cc_change_branches
  simp only []
  split_ifs <;> simp only [Outcome.world] <;>
    repeat (first
      | decide
      | with_reducible exact h
      | with_reducible refine q_set_attached _ _ _ ?_
      | with_reducible refine q_set_message_id _ _ _ ?_
      | with_reducible refine q_set_vbus _ _ _ _ ?_
      | with_reducible refine q_set_roles _ _ _ _ ?_
      | with_reducible refine q_set_polarity _ _ _ ?_
      | with_reducible refine q_write8 _ _ _ _ ?_ ?_
      | with_reducible refine q_read8 _ _ _ ?_)

theorem q_cc_change (w w1 : World) (h : quiet w w1) : quiet w (tcpci_cc_change w1).world := by
  unfold tcpci_cc_change
  simp only []
  split_ifs
  · exact q_read8 _ _ _ h
  · apply q_andThen
    · exact q_cc_branches _ _ _ _ (q_read8 _ _ _ h)
    · intro w2 h2
      exact q_set_cc _ _ _ h2

theorem isPoll_quiet (e : Event) (h : e.isPoll = true) : e.isQuiet := by
  cases e <;> simp [Event.isPoll, Event.isQuiet, Event.clearsRx] at h ⊢
  intro _
  exact h.2

theorem frame_quiet (k : usbpd) (pd0 : pd_message) (role : typec_data_role) :
    ∀ e ∈ tx_frame_events k pd0 role, e.isQuiet := by
  intro e he
  rw [tx_frame_events_eq] at he
  simp only [List.mem_append, List.mem_cons, List.mem_singleton, List.not_mem_nil,
    or_false] at he
  rcases he with ((rfl | rfl) | h) | rfl
  · simp [Event.isQuiet, Event.clearsRx]
  · simp [Event.isQuiet, Event.clearsRx]
  · split_ifs at h
    · rw [List.mem_singleton.mp h]
      simp [Event.isQuiet, Event.clearsRx]
    · simp at h
  · simp [Event.isQuiet, Event.clearsRx]

theorem q_send_hw (k : usbpd) (pd0 : pd_message) (w w1 : World) (h : quiet w w1) :
    quiet w (tcpci_send_message_hw k pd0 w1) := by
  obtain ⟨fails, e0, _, _, _, _, hrun⟩ := send_again_structure k pd0 19 w1
  unfold tcpci_send_message_hw
  rw [hrun]
  refine ext_events _ w w1 _ _ h rfl ?_
  intro e he
  rcases mem_run_events _ fails e0 e he with h1 | h1
  · exact frame_quiet k pd0 _ e h1
  · exact isPoll_quiet e h1

theorem q_send_message (k : usbpd) (t : Nat) (payload : List Nat) (n : Nat) (w w1 : World)
    (h : quiet w w1) : quiet w (tcpci_send_message k t payload n w1).world := by
  by_cases hn : n ≤ k.PD_PAYLOAD_MAX_LEN
  · rw [send_message_eq k t payload n w1 hn]
    exact q_send_hw k _ w _ (ext_trace_eq _ w w1 _ h rfl)
  · rw [send_message_panic k t payload n w1 hn]
    exact h

theorem q_send_source_caps (k : usbpd) (w w1 : World) (h : quiet w w1) :
    quiet w (tcpci_send_source_caps k w1).world := by
  unfold tcpci_send_source_caps
  split <;> exact q_send_message k _ _ _ w w1 h

theorem q_send_sink_caps (k : usbpd) (w w1 : World) (h : quiet w w1) :
    quiet w (tcpci_send_sink_caps k w1).world := by
  unfold tcpci_send_sink_caps
  split <;> exact q_send_message k _ _ _ w w1 h

theorem q_recv_data (k : usbpd) (pd : pd_message) (w w1 : World) (h : quiet w w1) :
    quiet w (tcpci_recv_data k pd w1).world := by
  unfold tcpci_recv_data
  simp only []
  split_ifs
  · exact q_printf _ _ _ h
  · exact q_send_message k _ _ _ w _ (q_printf _ _ _ h)
  · exact q_send_message k _ _ _ w _ (q_printf _ _ _ h)
  · apply q_andThen
    · apply q_andThen
      · exact q_send_message k _ _ _ w _ (q_printf _ _ _ (q_printf _ _ _ h))
      · intro w2 h2
        exact q_send_message k _ _ _ w _ h2
    · intro w2 h2
      exact q_send_message k _ _ _ w _ h2
  · exact q_printf _ _ _ h

theorem q_recv_ctrl (k : usbpd) (pd : pd_message) (w w1 : World) (h : quiet w w1) :
    quiet w (tcpci_recv_ctrl k pd w1).world := by
  unfold tcpci_recv_ctrl
  simp only []
  split_ifs
  · exact q_printf _ _ _ h
  · exact q_printf _ _ _ h
  · exact q_printf _ _ _ h
  · exact q_send_source_caps k w _ (q_printf _ _ _ h)
  · exact q_send_sink_caps k w _ (q_printf _ _ _ h)
  · exact q_printf _ _ _ h

theorem q_recv_message (k : usbpd) (pd : pd_message) (w w1 : World) (h : quiet w w1) :
    quiet w (tcpci_recv_message k pd w1).world := by
  unfold tcpci_recv_message
  split_ifs
  · exact q_printf _ _ _ h
  · exact q_recv_data k pd w w1 h
  · exact q_recv_ctrl k pd w w1 h

theorem q_power_change (k : usbpd) (w w1 : World) (h : quiet w w1) :
    quiet w (tcpci_power_change k w1).world := by
  unfold tcpci_power_change
  simp only []
  split_ifs
  · exact q_read8 _ _ _ (q_read8 _ _ _ h)
  · exact q_send_source_caps k w _ (ext_trace_eq _ w _ _ (q_read8 _ _ _ (q_read8 _ _ _ h)) rfl)
  · exact ext_trace_eq _ w _ _ (q_read8 _ _ _ (q_read8 _ _ _ h)) rfl

theorem q_alarm_lo (w w1 : World) (h : quiet w w1) : quiet w (task_alarm_lo w1) := by
  unfold task_alarm_lo
  exact q_write8 _ _ _ _ (by decide) (q_read8 _ _ _ (q_write8 _ _ _ _ (by decide) h))

theorem q_fault (w w1 : World) (h : quiet w w1) : quiet w (task_fault w1) := by
  unfold task_fault
  exact q_write8 _ _ _ _ (by decide) (q_read8 _ _ _ h)

theorem clearsRx_write16 (reg v : Nat) (h : v &&& 4 = 0) :
    (Event.write16 reg v).clearsRx = false := by
  simp [Event.clearsRx, h]

theorem q_task_entry (w : World) : quiet w (task_entry w) := by
  unfold task_entry
  refine ⟨_, List.append_assoc _ _ _, ?_⟩
  intro e he
  rcases List.mem_append.mp he with h | h
  · rw [List.mem_singleton.mp h]
    simp [Event.isQuiet, Event.clearsRx]
  · split_ifs at h
    · rw [List.mem_singleton.mp h]
      have h4 : (w.input.headD 0 % 65536 &&& not16 TCPC_ALERT_RX_STATUS) &&& 4 = 0 := by
        rw [Nat.and_assoc]
        exact Nat.and_zero _
      exact ⟨clearsRx_write16 _ _ h4, by simp⟩
    · simp at h

/-! ### The parts of a run of the alert task -/

theorem task_eq_parts (k : usbpd) (w : World) :
    tcpci_task k w =
      (task_pre k w).andThen (fun w2 =>
        (if (w.input.headD 0 % 65536) &&& TCPC_ALERT_RX_STATUS ≠ 0 then tcpci_rx_change k w2
          else Outcome.ok w2).andThen
        (fun w3 => Outcome.ok (task_tail (w.input.headD 0 % 65536) w3))) := by
  unfold tcpci_task task_pre
  simp only [task_entry_eq]
  have hs : (tcpci_read_reg16 TCPC_ALERT w).1 = w.input.headD 0 % 65536 := rfl
  simp only [hs]
  rw [andThen_assoc]
  apply andThen_congr
  intro w2
  apply andThen_congr
  intro w3
  simp only [task_tail, task_alarm_lo, task_fault]

theorem q_task_pre (k : usbpd) (w : World) : quiet (task_entry w) (task_pre k w).world := by
  unfold task_pre
  apply q_andThen
  · split_ifs
    · exact q_cc_change _ _ (ext_refl _ _)
    · exact ext_refl _ _
  intro w2 h2
  split_ifs
  · exact q_power_change k _ w2 h2
  · exact h2

theorem task_tail_quiet (status : Nat) (w : World) :
    ∃ W, task_tail status w = emit Event.intr_enable W ∧ quiet w W := by
  refine ⟨_, rfl, ?_⟩
  have h1 : quiet w (if status &&& TCPC_ALERT_V_ALARM_LO ≠ 0 then task_alarm_lo w else w) := by
    split_ifs
    · exact q_alarm_lo w w (ext_refl _ _)
    · exact ext_refl _ _
  split_ifs at h1 ⊢
  · exact q_fault w _ h1
  · exact q_fault w _ h1
  · exact h1
  · exact h1

/-- The run of tcpci_rx_change: the actions before the write to ALERT, that
write, and a rest that leaves RX_STATUS and the interrupt alone. -/
theorem rx_change_split (k : usbpd) (w : World) :
    ∃ rest, (tcpci_rx_change k w).world.trace =
        w.trace ++ (rx_before_clear k w ++ [Event.write16 TCPC_ALERT TCPC_ALERT_RX_STATUS]) ++
          rest ∧
      ∀ e ∈ rest, e.isQuiet := by
  by_cases h3 : w.input.headD 0 % 256 < 3
  · refine ⟨[], ?_, by simp⟩
    have h3b : w.input.headD 0 % 256 < 1 + 2 := h3
    unfold tcpci_rx_change rx_before_clear
    simp only [tcpci_read_reg8]
    rw [if_pos h3b, if_pos h3]
    simp [Outcome.world, printf, emit, tcpci_write_reg16]
  · by_cases h28 : w.input.headD 0 % 256 - 3 > 4 * k.PD_PAYLOAD_MAX_LEN
    · refine ⟨[], ?_, by simp⟩
      have h3b : ¬ w.input.headD 0 % 256 < 1 + 2 := h3
      have h28b : w.input.headD 0 % 256 - (1 + 2) > 4 * k.PD_PAYLOAD_MAX_LEN := h28
      unfold tcpci_rx_change rx_before_clear
      simp only [tcpci_read_reg8, tcpci_read_reg16]
      rw [if_neg h3b, if_pos h28b, if_neg h3, if_pos h28]
      simp [Outcome.world, printf, emit, tcpci_write_reg16]
    · have hro := rx_change_readout k w _ rfl (Nat.le_of_not_lt h3) (Nat.le_of_not_lt h28)
      have hq : quiet (rx_readout w (w.input.headD 0 % 256 - 3))
          (tcpci_rx_change k w).world := by
        rw [hro]
        split_ifs
        · exact q_recv_message k _ _ _ (ext_refl _ _)
        · exact ext_refl _ _
      obtain ⟨t, ht, hqt⟩ := hq
      refine ⟨[Event.printf LogLine.rx_dump] ++
        List.replicate ((w.input.headD 0 % 256 - 3) / 4) (Event.printf LogLine.rx_dump_word) ++
        [Event.printf LogLine.rx_dump_end] ++ t, ?_, ?_⟩
      · rw [ht]
        unfold rx_before_clear
        rw [if_neg h3, if_neg h28]
        simp [rx_readout, rx_readout_events, rx_reads]
      · intro e he
        simp only [List.mem_append, List.mem_singleton] at he
        rcases he with ((he | he) | he) | he
        · rw [he]
          simp [Event.isQuiet, Event.clearsRx]
        · rw [List.eq_of_mem_replicate he]
          simp [Event.isQuiet, Event.clearsRx]
        · rw [he]
          simp [Event.isQuiet, Event.clearsRx]
        · exact hqt e he

/-- Every run of tcpci_task: the entry, a part that leaves RX_STATUS and the
interrupt alone, at most one run of tcpci_rx_change up to its write to ALERT,
another part that leaves them alone, and then either a panic or the call of
fdt_intr_enable. -/
theorem task_structure (k : usbpd) (w : World) :
    ∃ (pre rx post : List Event) (W : World),
      (∀ e ∈ pre, e.isQuiet) ∧ (∀ e ∈ post, e.isQuiet) ∧
      (rx = [] ∨ ((w.input.headD 0 % 65536) &&& TCPC_ALERT_RX_STATUS ≠ 0 ∧
        ∃ wr : World, wr.trace = (task_entry w).trace ++ pre ∧
          rx = rx_before_clear k wr ++ [Event.write16 TCPC_ALERT TCPC_ALERT_RX_STATUS])) ∧
      W.trace = (task_entry w).trace ++ pre ++ rx ++ post ∧
      (tcpci_task k w = Outcome.panic W ∨
        tcpci_task k w = Outcome.ok (emit Event.intr_enable W)) := by
  rw [task_eq_parts]
  have hq := q_task_pre k w
  cases hp : task_pre k w with
  | panic wp =>
    rw [hp] at hq
    obtain ⟨t, ht, hqt⟩ := hq
    exact ⟨t, [], [], wp, hqt, by simp, Or.inl rfl, by simpa using ht, Or.inl rfl⟩
  | ok w2 =>
    rw [hp] at hq
    obtain ⟨t, ht, hqt⟩ := hq
    have ht2 : w2.trace = (task_entry w).trace ++ t := ht
    rw [andThen_ok]
    by_cases hrx : (w.input.headD 0 % 65536) &&& TCPC_ALERT_RX_STATUS ≠ 0
    · rw [if_pos hrx]
      obtain ⟨rest, hr, hqr⟩ := rx_change_split k w2
      cases h3 : tcpci_rx_change k w2 with
      | panic w3 =>
        rw [h3] at hr
        refine ⟨t, _, rest, w3, hqt, hqr, Or.inr ⟨hrx, w2, ht2, rfl⟩, ?_, Or.inl rfl⟩
        have hr2 : w3.trace = w2.trace ++
          (rx_before_clear k w2 ++ [Event.write16 TCPC_ALERT TCPC_ALERT_RX_STATUS]) ++ rest := hr
        rw [hr2, ht2]
      | ok w3 =>
        rw [h3] at hr
        have hr2 : w3.trace = w2.trace ++
          (rx_before_clear k w2 ++ [Event.write16 TCPC_ALERT TCPC_ALERT_RX_STATUS]) ++ rest := hr
        obtain ⟨W, hW, t3, ht3, hq3⟩ := task_tail_quiet (w.input.headD 0 % 65536) w3
        refine ⟨t, _, rest ++ t3, W, hqt, ?_, Or.inr ⟨hrx, w2, ht2, rfl⟩, ?_, Or.inr ?_⟩
        · intro e he
          rcases List.mem_append.mp he with h | h
          · exact hqr e h
          · exact hq3 e h
        · rw [ht3, hr2, ht2]
          simp only [List.append_assoc]
        · rw [andThen_ok, hW]
    · rw [if_neg hrx, andThen_ok]
      obtain ⟨W, hW, t3, ht3, hq3⟩ := task_tail_quiet (w.input.headD 0 % 65536) w2
      refine ⟨t, [], t3, W, hqt, hq3, Or.inl rfl, ?_, Or.inr ?_⟩
      · rw [ht3, ht2]
        simp only [List.append_assoc, List.append_nil]
      · rw [hW]

theorem rx_before_clear_quiet (k : usbpd) (w : World) :
    ∀ e ∈ rx_before_clear k w, e.isQuiet := by
  intro e he
  unfold rx_before_clear at he
  split_ifs at he
  · simp only [List.mem_cons, List.mem_singleton, List.not_mem_nil, or_false] at he
    rcases he with rfl | rfl <;> simp [Event.isQuiet, Event.clearsRx]
  · simp only [List.mem_cons, List.mem_singleton, List.not_mem_nil, or_false] at he
    rcases he with rfl | rfl | rfl | rfl <;> simp [Event.isQuiet, Event.clearsRx]
  · simp only [rx_reads, List.mem_cons, List.mem_singleton, List.not_mem_nil, or_false] at he
    rcases he with rfl | rfl | rfl | rfl <;> simp [Event.isQuiet, Event.clearsRx]

/-- Every run of tcpci_task adds actions other than fdt_intr_enable and then
either stops in panic or calls fdt_intr_enable and returns. -/
theorem task_trace_parts (k : usbpd) (w : World) :
    ∃ (t : List Event) (W : World), W.trace = w.trace ++ t ∧ Event.intr_enable ∉ t ∧
      (tcpci_task k w = Outcome.panic W ∨
        tcpci_task k w = Outcome.ok (emit Event.intr_enable W)) := by
  obtain ⟨pre, rx, post, W, hpre, hpost, hrx, hW, hres⟩ := task_structure k w
  obtain ⟨t0, ht0, hq0⟩ := q_task_entry w
  refine ⟨t0 ++ pre ++ rx ++ post, W, by rw [hW, ht0]; simp only [List.append_assoc], ?_, hres⟩
  intro hmem
  simp only [List.mem_append] at hmem
  rcases hmem with ((h | h) | h) | h
  · exact (hq0 _ h).2 rfl
  · exact (hpre _ h).2 rfl
  · rcases hrx with h0 | ⟨_, wr, _, h1⟩
    · rw [h0] at h
      simp at h
    · rw [h1] at h
      rcases List.mem_append.mp h with h2 | h2
      · exact (rx_before_clear_quiet k wr _ h2).2 rfl
      · simp at h2
  · exact (hpost _ h).2 rfl

/-- C16: alert dispatch in tcpci_task.  The task is the dispatch the
specification words: it reads ALERT and, when a bit other than RX_STATUS is
set in the reading, writes the reading without RX_STATUS back, before anything
else; it then runs the handlers of CC status, power status, RX status,
low-voltage alarm and fault in this order, each if and only if its bit is set
in the reading, and enables the interrupt.  With none of the five bits set
the run consists of the read, that clear write and the interrupt enable. -/
theorem task_dispatch_order (k : usbpd) (w : World) :
    tcpci_task k w = tcpci_task_dispatch k w ∧
    (task_entry w).trace = w.trace ++ [Event.read16 TCPC_ALERT (w.input.headD 0 % 65536)] ++
      (if (w.input.headD 0 % 65536) &&& not16 TCPC_ALERT_RX_STATUS ≠ 0 then
         [Event.write16 TCPC_ALERT ((w.input.headD 0 % 65536) &&& not16 TCPC_ALERT_RX_STATUS)]
       else []) ∧
    (∃ t, (tcpci_task k w).world.trace = (task_entry w).trace ++ t) ∧
    ((w.input.headD 0 % 65536) &&& TCPC_ALERT_CC_STATUS = 0 →
      (w.input.headD 0 % 65536) &&& TCPC_ALERT_POWER_STATUS = 0 →
      (w.input.headD 0 % 65536) &&& TCPC_ALERT_RX_STATUS = 0 →
      (w.input.headD 0 % 65536) &&& TCPC_ALERT_V_ALARM_LO = 0 →
      (w.input.headD 0 % 65536) &&& TCPC_ALERT_FAULT = 0 →
      tcpci_task k w = Outcome.ok (emit Event.intr_enable (task_entry w))) := by
  refine ⟨task_eq_dispatch k w, rfl, ?_, ?_⟩
  · obtain ⟨pre, rx, post, W, _, _, _, hW, hres⟩ := task_structure k w
    rcases hres with h | h
    · rw [h]
      exact ⟨pre ++ rx ++ post, by simp only [Outcome.world, hW, List.append_assoc]⟩
    · rw [h]
      exact ⟨pre ++ rx ++ post ++ [Event.intr_enable],
        by simp only [Outcome.world, emit, hW, List.append_assoc]⟩
  · intro h1 h2 h3 h4 h5
    rw [task_eq_dispatch]
    unfold tcpci_task_dispatch
    simp only [alert_handlers, run_handlers]
    rw [if_neg (not_not.mpr h1), andThen_ok, if_neg (not_not.mpr h2), andThen_ok,
      if_neg (not_not.mpr h3), andThen_ok, if_neg (not_not.mpr h4), andThen_ok,
      if_neg (not_not.mpr h5), andThen_ok, andThen_ok]

/-- C16 at a concrete input: an ALERT reading of 0x40 (TX_SUCCESS only) makes the
task read ALERT, write 0x40 back and enable the interrupt, nothing else. -/
theorem task_dispatch_order_witness :
    tcpci_task usbpd0 (world0 [0x40]) =
      Outcome.ok (emit Event.intr_enable (task_entry (world0 [0x40]))) ∧
    (task_entry (world0 [0x40])).trace =
      [Event.read16 TCPC_ALERT 0x40, Event.write16 TCPC_ALERT 0x40] :=
  ⟨(task_dispatch_order usbpd0 (world0 [0x40])).2.2.2 (by decide) (by decide) (by decide)
      (by decide) (by decide),
   by decide⟩

/-- C17 (amended): interrupt re-enable.  For every alert status and every
sequence of register readings, a run of tcpci_task that does not stop in panic
calls fdt_intr_enable exactly once, as its last action; a run that stops in
panic (the last branch of tcpci_cc_change, the KASSERT of tcpci_send_message)
never calls it. -/
theorem task_intr_enable (k : usbpd) (w : World) :
    ∃ t, (tcpci_task k w).world.trace = w.trace ++ t ∧
      ((tcpci_task k w).panicked = false →
        ∃ t1, t = t1 ++ [Event.intr_enable] ∧ Event.intr_enable ∉ t1) ∧
      ((tcpci_task k w).panicked = true → Event.intr_enable ∉ t) := by
  obtain ⟨t, W, hW, hno, hres⟩ := task_trace_parts k w
  rcases hres with h | h
  · rw [h]
    refine ⟨t, hW, ?_, fun _ => hno⟩
    intro hp
    simp [Outcome.panicked] at hp
  · rw [h]
    refine ⟨t ++ [Event.intr_enable], ?_, fun _ => ⟨t, rfl, hno⟩, ?_⟩
    · simp only [Outcome.world, emit, hW, List.append_assoc]
    · intro hp
      simp [Outcome.panicked] at hp

/-- C17 at a concrete input: an ALERT reading of 4 (RX_STATUS) followed by a byte
count of 2 (a rejected frame) gives a run without panic, which ends by
enabling the interrupt. -/
theorem task_intr_enable_witness :
    ∃ t1, (tcpci_task usbpd0 (world0 [4, 2])).world.trace =
        (world0 [4, 2]).trace ++ (t1 ++ [Event.intr_enable]) ∧
      Event.intr_enable ∉ t1 := by
  obtain ⟨t, ht, h1, _⟩ := task_intr_enable usbpd0 (world0 [4, 2])
  obtain ⟨t1, e1, hn⟩ := h1 (by decide)
  exact ⟨t1, by rw [ht, e1], hn⟩

set_option maxRecDepth 1000000 in
/-- C17, the claim as worded fails: with ALERT reading 1 (CC_STATUS) and a
CC_STATUS byte of 0x05 the run of tcpci_task stops in the panic of
tcpci_cc_change and fdt_intr_enable is never called. -/
theorem task_intr_enable_counterexample :
    tcpci_task usbpd0 (world0 [1, 0x05]) =
      Outcome.panic
        { sc := sc0, input := [],
          trace := [Event.read16 TCPC_ALERT 1, Event.write16 TCPC_ALERT 1,
                    Event.read8 TCPC_CC_STATUS 0x05] } ∧
    Event.intr_enable ∉ (tcpci_task usbpd0 (world0 [1, 0x05])).world.trace := by
  decide

/-- C15 (amended): RX_STATUS clearing invariant.  In every run of tcpci_task,
for every alert status and every sequence of register readings, there is at
most one write to ALERT with the RX_STATUS bit set; it happens only when
RX_STATUS is set in the status read, inside tcpci_rx_change, and what
tcpci_rx_change does before it is either the full readout (byte count, frame
type, header and payload block) or, for a frame it rejects, the reads up to
the length check that fails and the rejection line.  The initial alert clear
of tcpci_task and the transmit polling of tcpci_send_message_hw never write
the RX_STATUS bit. -/
theorem task_rx_clear (k : usbpd) (w : World) :
    (∃ pre rx post : List Event,
      (tcpci_task k w).world.trace = w.trace ++ pre ++ rx ++ post ∧
      (∀ e ∈ pre, e.clearsRx = false) ∧ (∀ e ∈ post, e.clearsRx = false) ∧
      (rx = [] ∨
        ((w.input.headD 0 % 65536) &&& TCPC_ALERT_RX_STATUS ≠ 0 ∧
          ∃ wr : World, wr.trace = w.trace ++ pre ∧
            rx = rx_before_clear k wr ++ [Event.write16 TCPC_ALERT TCPC_ALERT_RX_STATUS] ∧
            ∀ e ∈ rx_before_clear k wr, e.clearsRx = false))) ∧
    ext (fun e => e.clearsRx = false) w (task_entry w) ∧
    (∀ (pd0 : pd_message) (w1 : World),
      ext (fun e => e.clearsRx = false) w1 (tcpci_send_message_hw k pd0 w1)) := by
  refine ⟨?_, ext_mono _ _ (fun e he => he.1) _ _ (q_task_entry w),
    fun pd0 w1 => ext_mono _ _ (fun e he => he.1) _ _ (q_send_hw k pd0 w1 w1 (ext_refl _ _))⟩
  obtain ⟨pre, rx, post, W, hpre, hpost, hrx, hW, hres⟩ := task_structure k w
  obtain ⟨t0, ht0, hq0⟩ := q_task_entry w
  have hpre2 : ∀ e ∈ t0 ++ pre, e.clearsRx = false := by
    intro e he
    rcases List.mem_append.mp he with h | h
    · exact (hq0 e h).1
    · exact (hpre e h).1
  have hrx2 : rx = [] ∨
      ((w.input.headD 0 % 65536) &&& TCPC_ALERT_RX_STATUS ≠ 0 ∧
        ∃ wr : World, wr.trace = w.trace ++ (t0 ++ pre) ∧
          rx = rx_before_clear k wr ++ [Event.write16 TCPC_ALERT TCPC_ALERT_RX_STATUS] ∧
          ∀ e ∈ rx_before_clear k wr, e.clearsRx = false) := by
    rcases hrx with h | ⟨hb, wr, hwr, hr⟩
    · exact Or.inl h
    · exact Or.inr ⟨hb, wr, by rw [hwr, ht0, List.append_assoc], hr,
        fun e he => (rx_before_clear_quiet k wr e he).1⟩
  rcases hres with h | h
  · refine ⟨t0 ++ pre, rx, post, ?_, hpre2, fun e he => (hpost e he).1, hrx2⟩
    rw [h]
    simp only [Outcome.world, hW, ht0, List.append_assoc]
  · refine ⟨t0 ++ pre, rx, post ++ [Event.intr_enable], ?_, hpre2, ?_, hrx2⟩
    · rw [h]
      simp only [Outcome.world, emit, hW, ht0, List.append_assoc]
    · intro e he
      rcases List.mem_append.mp he with h1 | h1
      · exact (hpost e h1).1
      · rw [List.mem_singleton.mp h1]
        rfl

/-- C15 at a concrete input: the entry of the task on an ALERT reading of 0x45
writes 0x41 back, without the RX_STATUS bit. -/
theorem task_rx_clear_witness :
    ext (fun e => e.clearsRx = false) (world0 [0x45, 2]) (task_entry (world0 [0x45, 2])) ∧
    (task_entry (world0 [0x45, 2])).trace =
      [Event.read16 TCPC_ALERT 0x45, Event.write16 TCPC_ALERT 0x41] :=
  ⟨(task_rx_clear usbpd0 (world0 [0x45, 2])).2.1, by decide⟩

set_option maxRecDepth 1000000 in
/-- C15, the claim as worded fails: with ALERT reading 4 (RX_STATUS) and a byte
count of 2 the task writes RX_STATUS to ALERT although neither the frame type
nor the header nor the payload block has been read. -/
theorem task_rx_clear_counterexample :
    tcpci_task usbpd0 (world0 [4, 2]) =
      Outcome.ok
        { sc := sc0, input := [],
          trace := [Event.read16 TCPC_ALERT 4, Event.read8 TCPC_RX_BYTE_CNT 2,
                    Event.printf LogLine.short_message,
                    Event.write16 TCPC_ALERT TCPC_ALERT_RX_STATUS, Event.intr_enable] } ∧
    (Event.write16 TCPC_ALERT TCPC_ALERT_RX_STATUS).clearsRx = true := by
  decide

/-! ### The classification of the CC pins -/

theorem find_eq_head_filter (l : List (Bool × cc_class)) :
    l.find? (fun g => g.1) = (l.filter (fun g => g.1)).head? := by
  induction l with
  | nil => rfl
  | cons a l ih =>
    cases h : a.1 with
    | true =>
      rw [List.find?_cons_of_pos _ h, List.filter_cons_of_pos h]
      rfl
    | false =>
      rw [List.find?_cons_of_neg _ (by simp [h]), List.filter_cons_of_neg (by simp [h])]
      exact ih

/-- A chain in which at most one guard holds takes the same branch in every
order of its tests. -/
theorem first_match_perm (l l1 : List (Bool × cc_class)) (hp : l1.Perm l)
    (h : (l.filter (fun g => g.1)).length ≤ 1) : first_match l1 = first_match l := by
  have hf := List.Perm.filter (fun g : Bool × cc_class => g.1) hp
  unfold first_match
  rw [find_eq_head_filter, find_eq_head_filter]
  cases hl : l.filter (fun g => g.1) with
  | nil =>
    rw [hl] at hf
    rw [List.Perm.eq_nil hf]
  | cons a t =>
    rw [hl] at h hf
    have ht : t = [] := by
      cases t with
      | nil => rfl
      | cons b t => simp at h
    rw [ht] at hf
    rw [ht, List.perm_singleton.mp hf]

theorem cc_guards_exclusive (cc1 cc2 : typec_cc_status) :
    ((cc_guards cc1 cc2).filter (fun g => g.1)).length ≤ 1 := by
  cases cc1 <;> cases cc2 <;> decide

/-- The chain of tcpci_cc_change runs the body of the first guard that holds. -/
theorem cc_branches_eq_body (cc1 cc2 : typec_cc_status) (w : World) :
    tcpci_cc_change_branches cc1 cc2 w =
      cc_branch_body cc1 cc2 (first_match (cc_guards cc1 cc2)) w := by
  unfold tcpci_cc_change_branches
  by_cases h1 : cc1 = TYPEC_CC_OPEN ∧ cc2 = TYPEC_CC_OPEN
  · rw [if_pos h1]
    simp only [first_match, cc_guards, List.find?, h1, and_self, decide_True, Option.map,
      cc_branch_body]
  · rw [if_neg h1]
    cases h2 : tcpci_cc_is_source cc1 cc2
    · cases h3 : tcpci_cc_is_sink cc1 cc2
      · cases h4 : tcpci_cc_is_audio_detached cc1 cc2 <;>
          simp [first_match, cc_guards, List.find?, h1, h2, h3, h4, cc_branch_body]
      · simp [first_match, cc_guards, List.find?, h1, h2, h3, cc_branch_body]
    · simp [first_match, cc_guards, List.find?, h1, h2, cc_branch_body]

/-- C30: the classification predicates are mutually exclusive.  For every pair
of pin states at most one of both-open, tcpci_cc_is_source, tcpci_cc_is_sink,
tcpci_cc_is_audio, tcpci_cc_is_audio_detached holds; the chain of
tcpci_cc_change therefore runs the same branch body in whatever order its
four guards are tested; and on the pin states decoded from one CC_STATUS byte
a source attach is decided only with the termination flag clear and a sink
attach only with it set. -/
theorem cc_classes_exclusive (cc1 cc2 : typec_cc_status) :
    ((cc_predicates cc1 cc2).filter id).length ≤ 1 ∧
    (∀ (l1 : List (Bool × cc_class)) (w : World), l1.Perm (cc_guards cc1 cc2) →
      tcpci_cc_change_branches cc1 cc2 w = cc_branch_body cc1 cc2 (first_match l1) w) ∧
    (∀ c1 c2 term : Nat,
      (tcpci_cc_is_source (tcpci_cc_to_typec c1 term) (tcpci_cc_to_typec c2 term) = true →
        term = 0) ∧
      (tcpci_cc_is_sink (tcpci_cc_to_typec c1 term) (tcpci_cc_to_typec c2 term) = true →
        term ≠ 0)) := by
  refine ⟨?_, ?_, ?_⟩
  · cases cc1 <;> cases cc2 <;> decide
  · intro l1 w hp
    rw [first_match_perm _ _ hp (cc_guards_exclusive cc1 cc2)]
    exact cc_branches_eq_body cc1 cc2 w
  · intro c1 c2 term
    by_cases ht : term = 0
    · subst ht
      refine ⟨fun _ => rfl, ?_⟩
      unfold tcpci_cc_to_typec
      simp only [ne_eq, not_true_eq_false, if_false]
      split_ifs <;> decide
    · refine ⟨?_, fun _ => ht⟩
      unfold tcpci_cc_to_typec
      simp only [ne_eq, ht, not_false_eq_true, if_true]
      split_ifs <;> decide

/-- C30 at a concrete input: with the guards tested in the reverse order the
pin pair (Rd, open) still takes the source branch. -/
theorem cc_classes_exclusive_witness :
    tcpci_cc_change_branches TYPEC_CC_RD TYPEC_CC_OPEN (world0 []) =
      cc_branch_body TYPEC_CC_RD TYPEC_CC_OPEN
        (first_match (cc_guards TYPEC_CC_RD TYPEC_CC_OPEN).reverse) (world0 []) :=
  (cc_classes_exclusive TYPEC_CC_RD TYPEC_CC_OPEN).2.1 _ _ (List.reverse_perm _)

/-! ### The trace a run starts from does not influence it -/

@[simp] theorem shift_sc (pre : List Event) (w : World) : (w.shift pre).sc = w.sc := rfl

@[simp] theorem shift_input (pre : List Event) (w : World) : (w.shift pre).input = w.input := rfl

theorem shift_emit (pre : List Event) (e : Event) (w : World) :
    emit e (w.shift pre) = (emit e w).shift pre := by
  simp [emit, World.shift, List.append_assoc]

theorem shift_write8 (pre : List Event) (reg val : Nat) (w : World) :
    tcpci_write_reg8 reg val (w.shift pre) = (tcpci_write_reg8 reg val w).shift pre :=
  shift_emit pre _ w

theorem shift_read8_val (pre : List Event) (reg : Nat) (w : World) :
    (tcpci_read_reg8 reg (w.shift pre)).1 = (tcpci_read_reg8 reg w).1 := rfl

theorem shift_read8 (pre : List Event) (reg : Nat) (w : World) :
    (tcpci_read_reg8 reg (w.shift pre)).2 = (tcpci_read_reg8 reg w).2.shift pre := by
  simp [tcpci_read_reg8, World.shift, List.append_assoc]

theorem shift_printf (pre : List Event) (l : LogLine) (w : World) :
    printf l (w.shift pre) = (printf l w).shift pre :=
  shift_emit pre _ w

theorem shift_gpio (pre : List Event) (val : Nat) (w : World) :
    gpio_ss_sel val (w.shift pre) = (gpio_ss_sel val w).shift pre := by
  unfold gpio_ss_sel
  simp only [shift_sc]
  split
  · exact shift_emit pre _ w
  · rfl

theorem shift_set_attached (pre : List Event) (v : Nat) (w : World) :
    set_attached v (w.shift pre) = (set_attached v w).shift pre := rfl

theorem shift_set_message_id (pre : List Event) (v : Nat) (w : World) :
    set_message_id v (w.shift pre) = (set_message_id v w).shift pre := rfl

theorem shift_set_cc (pre : List Event) (v : Nat) (w : World) :
    set_cc v (w.shift pre) = (set_cc v w).shift pre := rfl

theorem shift_set_roles (pre : List Event) (d : typec_data_role) (p : typec_power_role)
    (w : World) :
    tcpci_set_roles d p (w.shift pre) = (tcpci_set_roles d p w).shift pre := by
  unfold tcpci_set_roles
  simp only [shift_write8, shift_printf]
  split_ifs <;> rfl

theorem shift_set_polarity (pre : List Event) (cc : typec_polarity) (w : World) :
    tcpci_set_polarity cc (w.shift pre) = (tcpci_set_polarity cc w).shift pre := by
  unfold tcpci_set_polarity
  simp only [shift_write8, shift_gpio]
  split_ifs <;> simp only [shift_write8, shift_gpio]

theorem shift_set_vbus (pre : List Event) (source sink : Nat) (w : World) :
    tcpci_set_vbus source sink (w.shift pre) = (tcpci_set_vbus source sink w).shift pre := by
  unfold tcpci_set_vbus
  simp only []
  split_ifs <;> simp only [shift_write8, shift_read8, shift_read8_val]

theorem shift_ite (pre : List Event) (c : Prop) [Decidable c] (w1 w2 : World) :
    (if c then w1.shift pre else w2.shift pre) = (if c then w1 else w2).shift pre := by
  split_ifs <;> rfl

theorem shift_cc_branches (pre : List Event) (cc1 cc2 : typec_cc_status) (w : World) :
    tcpci_cc_change_branches cc1 cc2 (w.shift pre) =
      (tcpci_cc_change_branches cc1 cc2 w).shift pre := by
  unfold tcpci_cc_change_branches
  simp only [shift_write8, shift_read8, shift_read8_val, shift_set_vbus, shift_set_polarity,
    shift_set_roles, shift_set_attached, shift_set_message_id, shift_sc, shift_ite]
  split_ifs <;> rfl

/-- Bits 0..4 of a byte determine what tcpci_cc_change decodes from it. -/
theorem cc_fields_of_low_bits (x y : Nat) (h : x &&& 0x1f = y &&& 0x1f) :
    x &&& 3 = y &&& 3 ∧ (x >>> 2) &&& 3 = (y >>> 2) &&& 3 ∧ x &&& 0x10 = y &&& 0x10 := by
  have h32 : x % 32 = y % 32 := by
    have e1 := Nat.and_pow_two_sub_one_eq_mod x 5
    have e2 := Nat.and_pow_two_sub_one_eq_mod y 5
    simp only [Nat.reducePow, Nat.add_one_sub_one, Nat.reduceSub] at e1 e2
    rw [← e1, ← e2]
    exact h
  refine ⟨?_, ?_, ?_⟩
  · have e1 := Nat.and_pow_two_sub_one_eq_mod x 2
    have e2 := Nat.and_pow_two_sub_one_eq_mod y 2
    simp only [Nat.reducePow, Nat.reduceSub] at e1 e2
    rw [e1, e2]
    omega
  · have e1 := Nat.and_pow_two_sub_one_eq_mod (x >>> 2) 2
    have e2 := Nat.and_pow_two_sub_one_eq_mod (y >>> 2) 2
    simp only [Nat.reducePow, Nat.reduceSub] at e1 e2
    rw [e1, e2, Nat.shiftRight_eq_div_pow, Nat.shiftRight_eq_div_pow]
    simp only [Nat.reducePow]
    omega
  · have e1 : x &&& 0x10 = (x &&& 0x1f) &&& 0x10 := by
      rw [Nat.and_assoc]
      rfl
    have e2 : y &&& 0x10 = (y &&& 0x1f) &&& 0x10 := by
      rw [Nat.and_assoc]
      rfl
    rw [e1, e2, h]

/-- The run of tcpci_cc_change on a changed byte b, in terms of the run of the
branch chain from an empty trace. -/
theorem cc_change_shift (w : World) (b : Nat) (rest : List Nat)
    (hchg : w.sc.sc_cc ≠ b % 256) :
    tcpci_cc_change { w with input := b :: rest } =
      ((tcpci_cc_change_branches
          (tcpci_cc_to_typec ((b % 256) &&& 3) ((b % 256) &&& 0x10))
          (tcpci_cc_to_typec (((b % 256) >>> 2) &&& 3) ((b % 256) &&& 0x10))
          { sc := w.sc, input := rest, trace := [] }).shift
        (w.trace ++ [Event.read8 TCPC_CC_STATUS (b % 256)])).andThen
        (fun w => Outcome.ok (set_cc (b % 256) w)) := by
  rw [cc_change_changed { w with input := b :: rest } (b % 256) rfl hchg,
    ← shift_cc_branches]
  simp [World.shift]

/-- C24: CC classification is a function of the pin codes and the termination
flag.  For every driver state and two CC_STATUS readings b and b1 that agree on
bits 0..4 and both differ from the stored byte, the two runs of
tcpci_cc_change perform the same actions after the read of CC_STATUS (hence
the same register writes, polarity included), consume the same readings, both
return or both panic, and end in softcs that differ at most in sc_cc. -/
theorem cc_change_low_bits (w : World) (b b1 : Nat) (rest : List Nat)
    (hbits : (b % 256) &&& 0x1f = (b1 % 256) &&& 0x1f)
    (hb : w.sc.sc_cc ≠ b % 256) (hb1 : w.sc.sc_cc ≠ b1 % 256) :
    (∃ t : List Event,
      (tcpci_cc_change { w with input := b :: rest }).world.trace =
        w.trace ++ [Event.read8 TCPC_CC_STATUS (b % 256)] ++ t ∧
      (tcpci_cc_change { w with input := b1 :: rest }).world.trace =
        w.trace ++ [Event.read8 TCPC_CC_STATUS (b1 % 256)] ++ t) ∧
    writes (tcpci_cc_change { w with input := b :: rest }).world.trace =
      writes (tcpci_cc_change { w with input := b1 :: rest }).world.trace ∧
    (tcpci_cc_change { w with input := b :: rest }).world.input =
      (tcpci_cc_change { w with input := b1 :: rest }).world.input ∧
    (tcpci_cc_change { w with input := b :: rest }).panicked =
      (tcpci_cc_change { w with input := b1 :: rest }).panicked ∧
    { (tcpci_cc_change { w with input := b :: rest }).world.sc with sc_cc := 0 } =
      { (tcpci_cc_change { w with input := b1 :: rest }).world.sc with sc_cc := 0 } := by
  obtain ⟨e1, e2, e3⟩ := cc_fields_of_low_bits _ _ hbits
  rw [cc_change_shift w b rest hb, cc_change_shift w b1 rest hb1, e1, e2, e3]
  cases tcpci_cc_change_branches
      (tcpci_cc_to_typec ((b1 % 256) &&& 3) ((b1 % 256) &&& 0x10))
      (tcpci_cc_to_typec (((b1 % 256) >>> 2) &&& 3) ((b1 % 256) &&& 0x10))
      { sc := w.sc, input := rest, trace := [] } with
  | ok W =>
    refine ⟨⟨W.trace, rfl, rfl⟩, ?_, rfl, rfl, rfl⟩
    simp [Outcome.shift, Outcome.andThen, Outcome.world, World.shift, set_cc, writes,
      Event.isWrite]
  | panic W =>
    refine ⟨⟨W.trace, rfl, rfl⟩, ?_, rfl, rfl, rfl⟩
    simp [Outcome.shift, Outcome.andThen, Outcome.world, World.shift, writes, Event.isWrite]

set_option maxRecDepth 1000000 in
/-- C24 at a concrete input: the bytes 0x02 and 0xe2 (same bits 0..4, bits 5..7
set) give the same register writes and the same softc up to sc_cc. -/
theorem cc_change_low_bits_witness :
    writes (tcpci_cc_change { world0 [] with input := 0x02 :: [0x00] }).world.trace =
      writes (tcpci_cc_change { world0 [] with input := 0xe2 :: [0x00] }).world.trace ∧
    { (tcpci_cc_change { world0 [] with input := 0x02 :: [0x00] }).world.sc with sc_cc := 0 } =
      { (tcpci_cc_change { world0 [] with input := 0xe2 :: [0x00] }).world.sc with
          sc_cc := 0 } ∧
    (tcpci_cc_change { world0 [] with input := 0xe2 :: [0x00] }).world.sc.sc_attached = 1 :=
  ⟨(cc_change_low_bits (world0 []) 0x02 0xe2 [0x00] (by decide) (by decide) (by decide)).2.1,
   (cc_change_low_bits (world0 []) 0x02 0xe2 [0x00] (by decide) (by decide)
      (by decide)).2.2.2.2,
   by decide⟩

/-! ### Bounds on the transmit polling -/

theorem alert_polls_append (s t : List Event) :
    alert_polls (s ++ t) = alert_polls s + alert_polls t := by
  simp [alert_polls]

theorem alert_polls_idle (idle : List Nat) : alert_polls (idle_events idle) = idle.length := by
  induction idle with
  | nil => rfl
  | cons r idle ih =>
    simp only [idle_events, List.flatMap_cons] at ih ⊢
    rw [alert_polls_append, ih]
    simp [alert_polls, Event.isAlertRead, Nat.add_comm]

theorem alert_polls_failure (f : Nat) (more : Bool) :
    alert_polls (failure_events f more) = 1 := by
  cases more <;> simp [failure_events, alert_polls, Event.isAlertRead]

theorem alert_polls_success (s : Nat) : alert_polls (success_events s) = 1 := by
  simp [success_events, alert_polls, Event.isAlertRead]

theorem alert_polls_end (e0 : TxEnd) (hv : e0.valid 1000) :
    1 ≤ alert_polls e0.events ∧ alert_polls e0.events ≤ 1000 := by
  cases e0 with
  | success idle s =>
    have h := hv.1
    simp only [TxEnd.events, alert_polls_append, alert_polls_idle, alert_polls_success]
    omega
  | exhausted idle f =>
    have h := hv.1
    simp only [TxEnd.events, alert_polls_append, alert_polls_idle, alert_polls_failure]
    omega
  | timeout idle =>
    have h := hv.1
    simp only [TxEnd.events, alert_polls_idle]
    omega

theorem idle_events_cons (r : Nat) (l : List Nat) :
    idle_events (r :: l) = idle_events [r] ++ idle_events l := by
  simp [idle_events]

/-- The polling loop on a device that never shows a completion bit: it runs all
its passes and is left with goto again not taken. -/
theorem tx_poll_quiet (k : usbpd) (retry : Nat) :
    ∀ (n : Nat) (w : World), (∀ r ∈ w.input, alert_tx_bits r = 0) →
      tcpci_tx_poll k retry n w =
        (false, { w with input := w.input.drop n,
                         trace := w.trace ++
                           idle_events ((List.range n).map (fun i => w.input.getD i 0)) }) := by
  intro n
  induction n with
  | zero =>
    intro w _
    simp [tcpci_tx_poll, idle_events]
  | succ n ih =>
    intro w hw
    have h0 : alert_tx_bits (w.input.headD 0) = 0 := by
      cases hi : w.input with
      | nil => rfl
      | cons a l =>
        apply hw
        rw [hi]
        simp
    have htail : ∀ r ∈ w.input.tail, alert_tx_bits r = 0 :=
      fun r hr => hw r (List.mem_of_mem_tail hr)
    rw [tx_poll_step_idle k retry n w h0,
      ih { w with input := w.input.tail,
                  trace := w.trace ++ idle_events [w.input.headD 0] } htail]
    have hr : (List.range (n + 1)).map (fun i => w.input.getD i 0) =
        w.input.headD 0 :: (List.range n).map (fun i => w.input.tail.getD i 0) := by
      rw [List.range_succ_eq_map]
      cases w.input <;> simp [Function.comp_def]
    rw [hr]
    simp [drop_tail_eq, idle_events]

theorem frame_no_alert (k : usbpd) (pd0 : pd_message) (role : typec_data_role) :
    alert_polls (tx_frame_events k pd0 role) = 0 ∧
    ∀ e ∈ tx_frame_events k pd0 role, e.isWriteTo TCPC_ALERT = false := by
  rw [tx_frame_events_eq]
  constructor
  · split_ifs <;> simp [alert_polls, Event.isAlertRead]
  · intro e he
    simp only [List.mem_append, List.mem_cons, List.mem_singleton, List.not_mem_nil,
      or_false] at he
    rcases he with ((rfl | rfl) | h) | rfl
    · simp [Event.isWriteTo]
    · simp [Event.isWriteTo]
    · split_ifs at h
      · rw [List.mem_singleton.mp h]
        simp [Event.isWriteTo]
      · simp at h
    · simp [Event.isWriteTo]

theorem idle_no_alert_write (idle : List Nat) :
    ∀ e ∈ idle_events idle, e.isWriteTo TCPC_ALERT = false := by
  intro e he
  simp only [idle_events, List.mem_flatMap, List.mem_cons, List.mem_singleton,
    List.not_mem_nil, or_false] at he
  obtain ⟨_, _, rfl | rfl⟩ := he <;> rfl

/-- C25: bounded transmit polling.  For every message and every sequence of
ALERT readings, the run of tcpci_send_message_hw (a total function: it always
returns) consists of between 1 and 20 attempts, each the frame followed by a
polling part that reads ALERT at least once and at most 1000 times and writes
no transmit register.  If no reading ever shows TX_SUCCESS, TX_DISCARDED or
TX_FAILED, the run is one attempt followed by exactly 1000 polls of ALERT,
nothing is written to ALERT and the softc, sc_message_id included, is
unchanged. -/
theorem send_message_hw_bounded (k : usbpd) (pd0 : pd_message) (w : World) :
    (∃ segs : List (List Event),
      (tcpci_send_message_hw k pd0 w).trace =
        w.trace ++ (segs.map (fun s => tx_frame_events k pd0 w.sc.sc_data_role ++ s)).flatten ∧
      1 ≤ segs.length ∧ segs.length ≤ 20 ∧
      ∀ s ∈ segs, 1 ≤ alert_polls s ∧ alert_polls s ≤ 1000 ∧ tx_writes s = []) ∧
    ((∀ r ∈ w.input, alert_tx_bits r = 0) →
      tcpci_send_message_hw k pd0 w =
        { w with
          input := w.input.drop 1000,
          trace := w.trace ++ (tx_frame_events k pd0 w.sc.sc_data_role ++
            idle_events ((List.range 1000).map (fun i => w.input.getD i 0))) } ∧
      transmit_count (tx_frame_events k pd0 w.sc.sc_data_role ++
        idle_events ((List.range 1000).map (fun i => w.input.getD i 0))) = 1 ∧
      alert_polls (tx_frame_events k pd0 w.sc.sc_data_role ++
        idle_events ((List.range 1000).map (fun i => w.input.getD i 0))) = 1000 ∧
      ∀ e ∈ tx_frame_events k pd0 w.sc.sc_data_role ++
          idle_events ((List.range 1000).map (fun i => w.input.getD i 0)),
        e.isWriteTo TCPC_ALERT = false) := by
  constructor
  · obtain ⟨fails, e0, hlen, hfails, hv, _, hrun⟩ := send_again_structure k pd0 19 w
    refine ⟨fails.map (fun a => idle_events a.1 ++ failure_events a.2 true) ++ [e0.events],
      ?_, by simp, by simp; omega, ?_⟩
    · unfold tcpci_send_message_hw
      rw [hrun]
      simp [run_events, List.flatMap, List.map_append, Function.comp_def, List.append_assoc]
    · intro s hs
      rcases List.mem_append.mp hs with h | h
      · obtain ⟨a, ha, rfl⟩ := List.mem_map.mp h
        have hl := (hfails a ha).1
        refine ⟨?_, ?_, ?_⟩
        · rw [alert_polls_append, alert_polls_failure]
          omega
        · rw [alert_polls_append, alert_polls_failure, alert_polls_idle]
          omega
        · rw [tx_writes_append, tx_writes_idle, tx_writes_failure]
          rfl
      · rw [List.mem_singleton.mp h]
        exact ⟨(alert_polls_end e0 hv).1, (alert_polls_end e0 hv).2, tx_writes_end e0⟩
  · intro hw
    refine ⟨?_, ?_, ?_, ?_⟩
    · unfold tcpci_send_message_hw
      rw [tcpci_send_message_hw_again]
      simp only [tx_attempt_eq]
      rw [tx_poll_quiet k 19 1000
        { w with trace := w.trace ++ tx_frame_events k pd0 w.sc.sc_data_role } hw]
      simp [List.append_assoc]
    · rw [transmit_count_append, transmit_count_frame, transmit_count_idle]
    · rw [alert_polls_append, (frame_no_alert k pd0 _).1, alert_polls_idle]
      simp
    · intro e he
      rcases List.mem_append.mp he with h | h
      · exact (frame_no_alert k pd0 _).2 e h
      · exact idle_no_alert_write _ e h

/-- C25 at a concrete input: on a device that answers nothing (every read of
ALERT yields 0) the sample message is sent once and ALERT is polled 1000
times. -/
theorem send_message_hw_bounded_witness :
    (tcpci_send_message_hw usbpd0 pd_sample (world0 [])).sc = sc0 ∧
    alert_polls (tx_frame_events usbpd0 pd_sample (world0 []).sc.sc_data_role ++
      idle_events ((List.range 1000).map (fun i => (world0 []).input.getD i 0))) = 1000 :=
  ⟨by rw [((send_message_hw_bounded usbpd0 pd_sample (world0 [])).2
        (fun r hr => absurd hr (List.not_mem_nil r))).1]; rfl,
   ((send_message_hw_bounded usbpd0 pd_sample (world0 [])).2
        (fun r hr => absurd hr (List.not_mem_nil r))).2.2.1⟩

/-! ### roundup and dorounding of hdtoa.c -/

theorem getElem_mid (pre : List Nat) (v : Nat) (rest : List Nat) :
    (pre ++ v :: rest)[pre.length]? = some v := by
  rw [List.getElem?_append_right (le_refl _)]
  simp

theorem store_mid (pre : List Nat) (v : Nat) (rest : List Nat) (x : Nat) (hx : x < 256) :
    store (pre ++ v :: rest) pre.length x = some (pre ++ x :: rest) := by
  simp [store, List.set_append, Nat.mod_eq_of_lt hx]

theorem hexval_snoc (l : List Nat) (x : Nat) : hexval (l ++ [x]) = 16 * hexval l + x := by
  simp [hexval, List.foldl_append]

/-- The loop of roundup on the digits pre followed by v, entered at v. -/
theorem roundup_at_spec (pre : List Nat) :
    ∀ (v : Nat), (∀ x ∈ pre, x ≤ 0xf) → v ≤ 0xf →
      ∃ (ds : List Nat) (r : Nat), ds.length = pre.length + 1 ∧
        (∀ rest : List Nat,
          roundup_at pre.length (pre ++ v :: rest) = some (ds ++ rest, r)) ∧
        (((∀ x ∈ pre, x = 0xf) ∧ v = 0xf) → r = 1 ∧ ds = 1 :: List.replicate pre.length 0) ∧
        (¬ ((∀ x ∈ pre, x = 0xf) ∧ v = 0xf) →
          r = 0 ∧ hexval ds = 16 * hexval pre + v + 1 ∧ ∀ x ∈ ds, x ≤ 0xf) := by
  induction pre using List.reverseRecOn with
  | nil =>
    intro v _ hv
    by_cases h15 : v = 0xf
    · refine ⟨[1], 1, rfl, ?_, fun _ => ⟨rfl, rfl⟩, fun hn => absurd ⟨by simp, h15⟩ hn⟩
      intro rest
      simp [roundup_at, h15, store]
    · refine ⟨[v + 1], 0, rfl, ?_, fun h => absurd h.2 h15, fun _ => ⟨rfl, ?_, ?_⟩⟩
      · intro rest
        have hlt : (v + 1) % 256 = v + 1 := by omega
        simp [roundup_at, h15, store, hlt]
      · simp [hexval]
      · intro x hx
        rw [List.mem_singleton.mp hx]
        omega
  | append_singleton pre u ih =>
    intro v hpre hv
    have hu : u ≤ 0xf := hpre u (by simp)
    have hpre2 : ∀ x ∈ pre, x ≤ 0xf := fun x hx => hpre x (by simp [hx])
    have hlen : (pre ++ [u]).length = pre.length + 1 := by simp
    by_cases h15 : v = 0xf
    · obtain ⟨ds, r, hds, hrun, hall, hnot⟩ := ih u hpre2 hu
      subst h15
      refine ⟨ds ++ [0], r, by simp [hds], ?_, ?_, ?_⟩
      · intro rest
        have hget := getElem_mid (pre ++ [u]) 0xf rest
        have hst := store_mid (pre ++ [u]) 0xf rest 0 (by decide)
        rw [hlen] at hget hst ⊢
        rw [roundup_at, hget]
        simp only [if_true, hst, Option.bind]
        have e : pre ++ [u] ++ 0 :: rest = pre ++ u :: (0 :: rest) := by simp
        rw [e, hrun (0 :: rest)]
        simp
      · intro hcond
        have hp : (∀ x ∈ pre, x = 0xf) ∧ u = 0xf :=
          ⟨fun x hx => hcond.1 x (by simp [hx]), hcond.1 u (by simp)⟩
        obtain ⟨hr, hd⟩ := hall hp
        refine ⟨hr, ?_⟩
        rw [hd, hlen]
        simp [List.replicate_succ']
      · intro hcond
        have hp : ¬ ((∀ x ∈ pre, x = 0xf) ∧ u = 0xf) := by
          intro hp
          apply hcond
          refine ⟨?_, rfl⟩
          intro x hx
          rcases List.mem_append.mp hx with h | h
          · exact hp.1 x h
          · rw [List.mem_singleton.mp h]
            exact hp.2
        obtain ⟨hr, hval, hle⟩ := hnot hp
        refine ⟨hr, ?_, ?_⟩
        · rw [hexval_snoc, hexval_snoc, hval]
          omega
        · intro x hx
          rcases List.mem_append.mp hx with h | h
          · exact hle x h
          · rw [List.mem_singleton.mp h]
            omega
    · refine ⟨pre ++ [u] ++ [v + 1], 0, by simp, ?_, fun h => absurd h.2 h15,
        fun _ => ⟨rfl, ?_, ?_⟩⟩
      · intro rest
        have hget := getElem_mid (pre ++ [u]) v rest
        have hst := store_mid (pre ++ [u]) v rest (v + 1) (by omega)
        rw [hlen] at hget hst ⊢
        rw [roundup_at, hget]
        simp only [h15, if_false, hst, Option.map]
        simp
      · rw [hexval_snoc]
        omega
      · intro x hx
        rcases List.mem_append.mp hx with h | h
        · exact hpre x h
        · rw [List.mem_singleton.mp h]
          omega

/-- C27: roundup on a digit string.  For a string of ndigits >= 1 digits
0x0..0xf at the start of a buffer: the call returns without an access outside
the string, the bytes behind the string are neither read nor written (the
result is the same function of the digits whatever follows them); when every
digit is 0xf the string becomes 1 followed by zeros and 1 is returned;
otherwise 0 is returned and the string, read as a hexadecimal number, is the
old value plus one, again of digits 0x0..0xf. -/
theorem roundup_digits (digits : List Nat) (hn : 1 ≤ digits.length)
    (hd : ∀ x ∈ digits, x ≤ 0xf) :
    ∃ (ds : List Nat) (r : Nat), ds.length = digits.length ∧
      (∀ rest : List Nat, roundup (digits ++ rest) digits.length = some (ds ++ rest, r)) ∧
      ((∀ x ∈ digits, x = 0xf) →
        r = 1 ∧ ds = 1 :: List.replicate (digits.length - 1) 0) ∧
      (¬ (∀ x ∈ digits, x = 0xf) →
        r = 0 ∧ hexval ds = hexval digits + 1 ∧ ∀ x ∈ ds, x ≤ 0xf) := by
  rcases List.eq_nil_or_concat digits with h | ⟨pre, v, h⟩
  · rw [h] at hn
    simp at hn
  · rw [List.concat_eq_append] at h
    subst h
    have hpre : ∀ x ∈ pre, x ≤ 0xf := fun x hx => hd x (by simp [hx])
    have hv : v ≤ 0xf := hd v (by simp)
    have hlen : (pre ++ [v]).length = pre.length + 1 := by simp
    obtain ⟨ds, r, hds, hrun, hall, hnot⟩ := roundup_at_spec pre v hpre hv
    refine ⟨ds, r, by rw [hds, hlen], ?_, ?_, ?_⟩
    · intro rest
      rw [hlen, roundup]
      have e : pre ++ [v] ++ rest = pre ++ v :: rest := by simp
      rw [e]
      exact hrun rest
    · intro hcond
      rw [hlen]
      exact hall ⟨fun x hx => hcond x (by simp [hx]), hcond v (by simp)⟩
    · intro hcond
      have hp : ¬ ((∀ x ∈ pre, x = 0xf) ∧ v = 0xf) := by
        intro hp
        apply hcond
        intro x hx
        rcases List.mem_append.mp hx with h | h
        · exact hp.1 x h
        · rw [List.mem_singleton.mp h]
          exact hp.2
      obtain ⟨hr, hval, hle⟩ := hnot hp
      exact ⟨hr, by rw [hval, hexval_snoc], hle⟩

/-- C27 at concrete inputs: 0x3ff becomes 0x400 with 0 returned, 0xff becomes
0x10 with 1 returned, and the byte behind the string stays. -/
theorem roundup_digits_witness :
    (∃ (ds : List Nat) (r : Nat), ds.length = [3, 0xf, 0xf].length ∧
      (∀ rest : List Nat,
        roundup ([3, 0xf, 0xf] ++ rest) [3, 0xf, 0xf].length = some (ds ++ rest, r)) ∧
      ((∀ x ∈ [3, 0xf, 0xf], x = 0xf) →
        r = 1 ∧ ds = 1 :: List.replicate ([3, 0xf, 0xf].length - 1) 0) ∧
      (¬ (∀ x ∈ [3, 0xf, 0xf], x = 0xf) →
        r = 0 ∧ hexval ds = hexval [3, 0xf, 0xf] + 1 ∧ ∀ x ∈ ds, x ≤ 0xf)) ∧
    roundup [3, 0xf, 0xf, 7] 3 = some ([4, 0, 0, 7], 0) ∧
    roundup [0xf, 0xf, 7] 2 = some ([1, 0, 7], 1) :=
  ⟨roundup_digits [3, 0xf, 0xf] (by decide) (by decide), by decide, by decide⟩

/-! ### __hdtoa at inputs where it leaves its description -/

set_option maxRecDepth 1000000 in
/-- C23 (code at the failing input): for the normal value with fraction
0x01 0000 00000000 (significand 0x81000000000000) the auto-sized call returns
the one-digit string "9": the fill phase stores dflt_frach unshifted in the
leading digit and a zero where its low nibble belongs, so the string does not
represent the value. -/
theorem hdtoa_autosize_not_exact :
    vax0.fpclassify d_frach_1 = fp_class.FP_NORMAL ∧
    significand d_frach_1 = 0x81000000000000 ∧
    hdtoa_fill vax0 d_frach_1 14 (List.replicate 15 0xaa) =
      some [9, 0, 0, 0, 0, 0, 0, 0, 0, 0, 0, 0, 0, 0, 0xaa] ∧
    __hdtoa vax0 rv_alloc0 d_frach_1 xdigs_lower (-1) =
      hdtoa_result.ok [0x39, 0, 0, 0, 0, 0, 0, 0, 0, 0, 0, 0, 0, 0, 0xaa] 1 1 0 ∧
    hexval [9, 0, 0, 0, 0, 0, 0, 0, 0, 0, 0, 0, 0, 0] ≠ significand d_frach_1 := by
  decide

set_option maxRecDepth 1000000 in
/-- C26 (code at the failing input): for the normal value with fraction
0x10 0000 00000000 the fill phase leaves the byte 0x18 in s0[0], outside
0x0..0xf, and the final conversion looks up xdigs[0x18], outside the array:
the call ends in the fault. -/
theorem hdtoa_digit_out_of_range :
    vax0.fpclassify d_frach_16 = fp_class.FP_NORMAL ∧
    hdtoa_fill vax0 d_frach_16 14 (List.replicate 15 0xaa) =
      some [0x18, 0, 0, 0, 0, 0, 0, 0, 0, 0, 0, 0, 0, 0, 0xaa] ∧
    xdigs_lower[0x18]? = none ∧
    __hdtoa vax0 rv_alloc0 d_frach_16 xdigs_lower (-1) = hdtoa_result.fault := by
  decide

set_option maxRecDepth 1000000 in
/-- C28 (code at the failing inputs): in rounding mode 1, dorounding leaves the
digits 8082 cut to 2 digits at 80 although the discarded part .82 is above one
half, and leaves the digits 8018 cut to 3 digits at 801 although the case is
exactly halfway and the last retained digit is odd; __hdtoa returns "80" and
"801" for the values with these digits. -/
theorem dorounding_not_nearest_even :
    vax0.FLT_ROUNDS = 1 ∧
    dorounding vax0 [8, 0, 8, 2, 0, 0, 0, 0, 0, 0, 0, 0, 0, 0, 0xaa] 2 0 1 =
      some ([8, 0, 8, 2, 0, 0, 0, 0, 0, 0, 0, 0, 0, 0, 0xaa], 1) ∧
    dorounding vax0 [8, 0, 1, 8, 0, 0, 0, 0, 0, 0, 0, 0, 0, 0, 0xaa] 3 0 1 =
      some ([8, 0, 1, 8, 0, 0, 0, 0, 0, 0, 0, 0, 0, 0, 0xaa], 1) ∧
    hdtoa_fill vax0 d_above_half 14 (List.replicate 15 0xaa) =
      some [8, 0, 8, 2, 0, 0, 0, 0, 0, 0, 0, 0, 0, 0, 0xaa] ∧
    __hdtoa vax0 rv_alloc0 d_above_half xdigs_lower 2 =
      hdtoa_result.ok [0x38, 0x30, 0, 2, 0, 0, 0, 0, 0, 0, 0, 0, 0, 0, 0xaa] 2 1 0 ∧
    hdtoa_fill vax0 d_half_odd 14 (List.replicate 15 0xaa) =
      some [8, 0, 1, 8, 0, 0, 0, 0, 0, 0, 0, 0, 0, 0, 0xaa] ∧
    __hdtoa vax0 rv_alloc0 d_half_odd xdigs_lower 3 =
      hdtoa_result.ok [0x38, 0x30, 0x31, 0, 0, 0, 0, 0, 0, 0, 0, 0, 0, 0, 0xaa] 3 1 0 := by
  decide

theorem and15_mod (x : Nat) : (x &&& 0xf) % 256 = x &&& 0xf :=
  Nat.mod_eq_of_lt (lt_of_le_of_lt Nat.and_le_right (by decide))

/-- The fill phase of __hdtoa under the VAX constants on a buffer of 14 digits
and one more byte: the low 8 nibbles of dflt_fracl, the low 5 nibbles of
dflt_fracm, and dflt_frach as a whole, or-ed with 8, in the leading byte. -/
theorem hdtoa_fill_vax (d : vax_d_floating)
    (b0 b1 b2 b3 b4 b5 b6 b7 b8 b9 b10 b11 b12 b13 b14 : Nat) :
    hdtoa_fill vax0 d 14 [b0, b1, b2, b3, b4, b5, b6, b7, b8, b9, b10, b11, b12, b13, b14] =
      some [(d.dflt_frach ||| 8) % 256,
        (d.dflt_fracm >>> 16) &&& 0xf, (d.dflt_fracm >>> 12) &&& 0xf,
        (d.dflt_fracm >>> 8) &&& 0xf, (d.dflt_fracm >>> 4) &&& 0xf, d.dflt_fracm &&& 0xf,
        (d.dflt_fracl >>> 28) &&& 0xf, (d.dflt_fracl >>> 24) &&& 0xf,
        (d.dflt_fracl >>> 20) &&& 0xf, (d.dflt_fracl >>> 16) &&& 0xf,
        (d.dflt_fracl >>> 12) &&& 0xf, (d.dflt_fracl >>> 8) &&& 0xf,
        (d.dflt_fracl >>> 4) &&& 0xf, d.dflt_fracl &&& 0xf, b14] := by
  have h14 : (14 - 1 : Int).toNat = 13 := by decide
  have hsig : (vax0.DBL_MANT_DIG + 3).tdiv 4 = 14 := by decide
  have hb : (14 : Int) - vax0.DFLT_FRACLBITS.tdiv 4 - 1 = 5 := by decide
  have hsh : (Int.tmod (vax0.DBL_MANT_DIG - 1) 4).toNat = 3 := by decide
  unfold hdtoa_fill
  simp only [hsig, h14, hb, hsh]
  simp [fill_pad, fill_fracl, fill_down, store, and15_mod]
  simp only [← Nat.shiftRight_add, Nat.reduceAdd, and_self]

/-! ### aplpmgr_enable -/

theorem poll_events_cons (membar : Bool) (r : Nat) (rs : List Nat) :
    poll_events membar (r :: rs) =
      (if membar then [BusEvent.membar_sync] else []) ++
        [BusEvent.read4 REG0 0 (r % 4294967296)] ++ poll_events membar rs := by
  simp [poll_events]

theorem reg0_reads_poll (membar : Bool) (rs : List Nat) :
    reg0_reads (poll_events membar rs) = rs.length := by
  induction rs with
  | nil => rfl
  | cons r rs ih =>
    rw [poll_events_cons]
    unfold reg0_reads at ih ⊢
    rw [List.countP_append, ih]
    cases membar <;> simp [Nat.add_comm]

/-- A polling loop of aplpmgr_enable on a device whose status field never
reads the target: all passes are made and i ends at 0. -/
theorem poll_never (target : Nat) (membar : Bool) :
    ∀ (n reg : Nat) (w : Bus),
      (∀ j, j < n → (w.input.getD j 0 % 4294967296) &&& REG0_STATUS ≠ target) →
      (aplpmgr_poll target membar n reg w).1 = 0 ∧
      (aplpmgr_poll target membar n reg w).2.2 =
        { input := w.input.drop n,
          trace := w.trace ++
            poll_events membar ((List.range n).map (fun j => w.input.getD j 0)) } := by
  intro n
  induction n with
  | zero =>
    intro reg w _
    simp [aplpmgr_poll, poll_events]
  | succ n ih =>
    intro reg w hw
    have h0 : ¬ (w.input.headD 0 % 4294967296) &&& REG0_STATUS = target := by
      have := hw 0 (Nat.succ_pos n)
      cases hi : w.input <;> simp_all
    have hw2 : ∀ j, j < n → (w.input.tail.getD j 0 % 4294967296) &&& REG0_STATUS ≠ target := by
      intro j hj
      have := hw (j + 1) (Nat.succ_lt_succ hj)
      cases hi : w.input <;> simp_all
    have hr : (List.range (n + 1)).map (fun j => w.input.getD j 0) =
        w.input.headD 0 :: (List.range n).map (fun j => w.input.tail.getD j 0) := by
      rw [List.range_succ_eq_map]
      cases w.input <;> simp [Function.comp_def]
    have hin : (if membar = true then w.emit BusEvent.membar_sync else w).input = w.input := by
      split_ifs <;> rfl
    rw [aplpmgr_poll]
    simp only [HREAD4, bus_space_read_4, hin]
    rw [if_neg h0]
    obtain ⟨e1, e2⟩ := ih (w.input.headD 0 % 4294967296)
      { input := w.input.tail,
        trace := (if membar = true then w.emit BusEvent.membar_sync else w).trace ++
          [BusEvent.read4 REG0 0 (w.input.headD 0 % 4294967296)] } hw2
    refine ⟨e1, ?_⟩
    rw [e2, hr, poll_events_cons]
    cases membar <;> simp [Bus.emit, drop_tail_eq]

theorem seq_loop_input (nreg : Nat) (seq : List Nat) :
    ∀ (n i : Nat) (w : Bus), (aplpmgr_seq_loop nreg seq n i w).world.input = w.input := by
  intro n
  induction n with
  | zero => intro i w; rfl
  | succ n ih =>
    intro i w
    rw [aplpmgr_seq_loop]
    split_ifs
    · rw [ih]
      rfl
    · rfl

/-- Running an action sequence consumes no reading. -/
theorem run_seq_input (sc : aplpmgr_softc) (a : pmgr_action) (w : Bus) :
    (aplpmgr_run_seq sc a w).world.input = w.input := by
  unfold aplpmgr_run_seq
  simp only []
  split_ifs
  · rfl
  · exact seq_loop_input _ _ _ _ _

/-- C22: clock-gate timeouts in aplpmgr_enable.  With r0 the first reading of
REG0: when the status field of r0 already is the requested state, the run is
that one read and no write.  When enabling and the status field reads ON in
none of the 10000 polls that follow the enable write, the run after the
pre-up sequence is: read REG0, write it back with REG0_ENABLE, 10000 polls
(each membar_sync and a read of REG0), the timeout line; REG0_POSTENABLE is
not written and post-up is not run.  When disabling and the status field
reads OFF in none of the 10000 polls, the run after the pre-down sequence is:
read REG0, write it back with REG0_DISABLE set and the ON bits cleared, 10000
reads of REG0, the timeout line; post-down is not run. -/
theorem aplpmgr_enable_timeouts (sc : aplpmgr_softc) (w : Bus) :
    (∀ on_ : Int,
      ((on_ ≠ 0 ∧ (w.input.headD 0 % 4294967296) &&& REG0_STATUS = REG0_ON) ∨
        (on_ = 0 ∧ (w.input.headD 0 % 4294967296) &&& REG0_STATUS = REG0_OFF)) →
      aplpmgr_enable sc on_ w = BusOutcome.ok
        { input := w.input.tail,
          trace := w.trace ++ [BusEvent.read4 REG0 0 (w.input.headD 0 % 4294967296)] }) ∧
    (∀ (on_ : Int) (w1 : Bus), on_ ≠ 0 →
      (w.input.headD 0 % 4294967296) &&& REG0_STATUS ≠ REG0_ON →
      aplpmgr_run_seq sc pmgr_action.pre_up
        ((bus_space_read_4 REG0 0 w).2.emit BusEvent.clock_enable_all) = BusOutcome.ok w1 →
      (∀ j, j < 10000 → (w1.input.tail.getD j 0 % 4294967296) &&& REG0_STATUS ≠ REG0_ON) →
      w1.input = w.input.tail ∧
      aplpmgr_enable sc on_ w = BusOutcome.ok
        { input := w1.input.tail.drop 10000,
          trace := w1.trace ++
            [BusEvent.read4 REG0 0 (w1.input.headD 0 % 4294967296),
             BusEvent.write4 REG0 0
               (((w1.input.headD 0 % 4294967296) ||| REG0_ENABLE) % 4294967296)] ++
            poll_events true ((List.range 10000).map (fun j => w1.input.tail.getD j 0)) ++
            [BusEvent.printf BusLine.enable_timeout] }) ∧
    (∀ (w1 : Bus),
      (w.input.headD 0 % 4294967296) &&& REG0_STATUS ≠ REG0_OFF →
      aplpmgr_run_seq sc pmgr_action.pre_down (bus_space_read_4 REG0 0 w).2 =
        BusOutcome.ok w1 →
      (∀ j, j < 10000 → (w1.input.tail.getD j 0 % 4294967296) &&& REG0_STATUS ≠ REG0_OFF) →
      w1.input = w.input.tail ∧
      aplpmgr_enable sc 0 w = BusOutcome.ok
        { input := w1.input.tail.drop 10000,
          trace := w1.trace ++
            [BusEvent.read4 REG0 0 (w1.input.headD 0 % 4294967296),
             BusEvent.write4 REG0 0
               ((((w1.input.headD 0 % 4294967296) ||| REG0_DISABLE) &&& not32 REG0_ON)
                 % 4294967296)] ++
            poll_events false ((List.range 10000).map (fun j => w1.input.tail.getD j 0)) ++
            [BusEvent.printf BusLine.disable_timeout] }) ∧
    (∀ (membar : Bool) (rs : List Nat), reg0_reads (poll_events membar rs) = rs.length) := by
  refine ⟨?_, ?_, ?_, reg0_reads_poll⟩
  · intro on_ h
    unfold aplpmgr_enable
    simp only [HREAD4, bus_space_read_4]
    rw [if_pos]
    rcases h with h | h
    · exact Or.inl h
    · exact Or.inr ⟨by simp [h.1], h.2⟩
  · intro on_ w1 hon hst hseq hpoll
    have hin : w1.input = w.input.tail := by
      have := run_seq_input sc pmgr_action.pre_up
        ((bus_space_read_4 REG0 0 w).2.emit BusEvent.clock_enable_all)
      rw [hseq] at this
      exact this
    refine ⟨hin, ?_⟩
    have hc : ¬ ((on_ ≠ 0 ∧ (w.input.headD 0 % 4294967296) &&& REG0_STATUS = REG0_ON) ∨
        (¬ on_ ≠ 0 ∧ (w.input.headD 0 % 4294967296) &&& REG0_STATUS = REG0_OFF)) := by
      intro h
      rcases h with h | h
      · exact hst h.2
      · exact h.1 hon
    obtain ⟨p1, p2⟩ := poll_never REG0_ON true 10000
      ((w1.input.headD 0 % 4294967296) ||| REG0_ENABLE)
      { input := w1.input.tail,
        trace := w1.trace ++ [BusEvent.read4 REG0 0 (w1.input.headD 0 % 4294967296)] ++
          [BusEvent.write4 REG0 0
            (((w1.input.headD 0 % 4294967296) ||| REG0_ENABLE) % 4294967296)] } hpoll
    have hval : (bus_space_read_4 REG0 0 w).1 = w.input.headD 0 % 4294967296 := rfl
    unfold aplpmgr_enable
    simp only [HREAD4, hval]
    rw [if_neg hc, if_pos hon, hseq]
    simp only [bus_space_read_4, HWRITE4, bus_space_write_4, Bus.emit]
    rw [if_pos p1, p2]
    simp [Bus.emit, List.append_assoc]
  · intro w1 hst hseq hpoll
    have hin : w1.input = w.input.tail := by
      have := run_seq_input sc pmgr_action.pre_down (bus_space_read_4 REG0 0 w).2
      rw [hseq] at this
      exact this
    refine ⟨hin, ?_⟩
    have hc : ¬ (((0 : Int) ≠ 0 ∧ (w.input.headD 0 % 4294967296) &&& REG0_STATUS = REG0_ON) ∨
        (¬ (0 : Int) ≠ 0 ∧ (w.input.headD 0 % 4294967296) &&& REG0_STATUS = REG0_OFF)) := by
      intro h
      rcases h with h | h
      · exact h.1 rfl
      · exact hst h.2
    obtain ⟨p1, p2⟩ := poll_never REG0_OFF false 10000
      (((w1.input.headD 0 % 4294967296) ||| REG0_DISABLE) &&& not32 REG0_ON)
      { input := w1.input.tail,
        trace := w1.trace ++ [BusEvent.read4 REG0 0 (w1.input.headD 0 % 4294967296)] ++
          [BusEvent.write4 REG0 0
            ((((w1.input.headD 0 % 4294967296) ||| REG0_DISABLE) &&& not32 REG0_ON)
              % 4294967296)] } hpoll
    have hval : (bus_space_read_4 REG0 0 w).1 = w.input.headD 0 % 4294967296 := rfl
    unfold aplpmgr_enable
    simp only [HREAD4, hval]
    rw [if_neg hc, if_neg (by simp), hseq]
    simp only [bus_space_read_4, HWRITE4, bus_space_write_4, Bus.emit]
    rw [if_pos p1, p2]
    simp [Bus.emit, List.append_assoc]

/-- C22 at concrete inputs: with REG0 reading ON on entry, enabling is one read;
on a device whose REG0 always reads 0, enabling the sample gate ends with the
timeout line. -/
theorem aplpmgr_enable_timeouts_witness :
    aplpmgr_enable pmgr0 1 { input := [0xf0], trace := [] } =
      BusOutcome.ok { input := [], trace := [BusEvent.read4 REG0 0 0xf0] } ∧
    ∃ W : Bus, aplpmgr_enable pmgr0 1 { input := [], trace := [] } = BusOutcome.ok W ∧
      W.trace.getLast? = some (BusEvent.printf BusLine.enable_timeout) :=
  ⟨(aplpmgr_enable_timeouts pmgr0 { input := [0xf0], trace := [] }).1 1
      (Or.inl ⟨by decide, by decide⟩),
   ⟨_, ((aplpmgr_enable_timeouts pmgr0 { input := [], trace := [] }).2.1 1
      { input := [],
        trace := [BusEvent.read4 REG0 0 0, BusEvent.clock_enable_all,
                  BusEvent.write4 0 0 0x11] }
      (by decide) (by decide) (by decide) (fun j _ => by simp)).2,
    List.getLast?_concat _⟩⟩

/-! ### The attach loop of aplintc.c -/

theorem foldl_keeps {α β : Type} (P : α → Prop) (f : α → β → α)
    (h : ∀ a x, P a → P (f a x)) : ∀ (l : List β) (a : α), P a → P (l.foldl f a) := by
  intro l
  induction l with
  | nil => intro a ha; exact ha
  | cons x l ih => intro a ha; exact ih (f a x) (h a x ha)

theorem mask_steps_refl (s : aplintc_world) : mask_steps s s :=
  ⟨rfl, rfl, rfl, [], by simp, by simp⟩

theorem mask_steps_trans {s t u : aplintc_world} (h1 : mask_steps s t) (h2 : mask_steps t u) :
    mask_steps s u := by
  obtain ⟨a1, b1, c1, l1, d1, e1⟩ := h1
  obtain ⟨a2, b2, c2, l2, d2, e2⟩ := h2
  refine ⟨a2.trans a1, b2.trans b1, c2.trans c1, l1 ++ l2, ?_, ?_⟩
  · rw [d2, d1, List.append_assoc]
  · intro e he
    rcases List.mem_append.1 he with h | h
    · exact e1 e h
    · exact e2 e h

/-- A mask write is not a write to a word of AIC_IRQ_CLEAR. -/
theorem isMaskWrite_not_clear (e : BusEvent) (h : e.isMaskWrite) (q : Nat) :
    e.isWriteAt (AIC_IRQ_CLEAR q) = false := by
  have hq : IRQ_TO_REG32 q ≤ 7 := Nat.and_le_right
  obtain ⟨i, v, rfl | rfl⟩ := h
  · have hi : IRQ_TO_REG32 i ≤ 7 := Nat.and_le_right
    simp only [BusEvent.isWriteAt, AIC_IRQ_DISABLE, AIC_IRQ_CLEAR, beq_self_eq_true,
      Bool.true_and, beq_eq_false_iff_ne, ne_eq]
    omega
  · have hi : IRQ_TO_REG32 i ≤ 7 := Nat.and_le_right
    simp only [BusEvent.isWriteAt, AIC_IRQ_ENABLE, AIC_IRQ_CLEAR, beq_self_eq_true,
      Bool.true_and, beq_eq_false_iff_ne, ne_eq]
    omega

theorem setipl_fold (f g : Nat → Nat) : ∀ (l : List Nat) (v : Bus),
    (l.foldl (fun w i =>
      bus_space_write_4 0 (AIC_IRQ_ENABLE (i * 32)) (g i)
        (bus_space_write_4 0 (AIC_IRQ_DISABLE (i * 32)) (f i) w)) v).input = v.input ∧
    ∃ added, (l.foldl (fun w i =>
      bus_space_write_4 0 (AIC_IRQ_ENABLE (i * 32)) (g i)
        (bus_space_write_4 0 (AIC_IRQ_DISABLE (i * 32)) (f i) w)) v).trace = v.trace ++ added ∧
      ∀ e ∈ added, e.isMaskWrite := by
  intro l
  induction l with
  | nil => intro v; exact ⟨rfl, [], by simp, by simp⟩
  | cons a l ih =>
    intro v
    rw [List.foldl_cons]
    obtain ⟨hin, added, ht, hm⟩ := ih (bus_space_write_4 0 (AIC_IRQ_ENABLE (a * 32)) (g a)
      (bus_space_write_4 0 (AIC_IRQ_DISABLE (a * 32)) (f a) v))
    refine ⟨hin, [BusEvent.write4 0 (AIC_IRQ_DISABLE (a * 32)) (f a % 4294967296),
      BusEvent.write4 0 (AIC_IRQ_ENABLE (a * 32)) (g a % 4294967296)] ++ added, ?_, ?_⟩
    · rw [ht]
      simp [bus_space_write_4, Bus.emit]
    · intro e he
      rcases List.mem_append.1 he with h | h
      · simp only [List.mem_cons, List.mem_singleton, List.not_mem_nil, or_false] at h
        rcases h with rfl | rfl
        · exact ⟨_, _, Or.inl rfl⟩
        · exact ⟨_, _, Or.inr rfl⟩
      · exact hm e h

/-- The writes of aplintc_setipl are mask writes. -/
theorem setipl_steps (k : aplintc_env) (ipl : Nat) (s : aplintc_world) :
    mask_steps s (aplintc_setipl k ipl s) := by
  obtain ⟨hin, added, ht, hm⟩ := setipl_fold
    (fun i => not32 (s.sc.sc_imask.getD (ipl * (k.roundup s.sc.sc_hwnintr 32 / 32) + i) 0))
    (fun i => s.sc.sc_imask.getD (ipl * (k.roundup s.sc.sc_hwnintr 32 / 32) + i) 0)
    (List.range (k.roundup s.sc.sc_hwnintr 32 / 32)) s.bus
  exact ⟨rfl, rfl, hin, added, ht, hm⟩

theorem intr_enable_counts (k : aplintc_env) (irq ipl : Nat) (sc : aplintc_softc) :
    (aplintc_intr_enable k irq ipl sc).sc_nintr = sc.sc_nintr ∧
      (aplintc_intr_enable k irq ipl sc).sc_hwnintr = sc.sc_hwnintr := by
  unfold aplintc_intr_enable
  split_ifs <;> exact ⟨rfl, rfl⟩

theorem intr_disable_counts (k : aplintc_env) (irq ipl : Nat) (sc : aplintc_softc) :
    (aplintc_intr_disable k irq ipl sc).sc_nintr = sc.sc_nintr ∧
      (aplintc_intr_disable k irq ipl sc).sc_hwnintr = sc.sc_hwnintr := by
  unfold aplintc_intr_disable
  split_ifs <;> exact ⟨rfl, rfl⟩

theorem intr_folds_counts (k : aplintc_env) (irq : Nat) (l1 l2 : List Nat)
    (sc : aplintc_softc) :
    (l2.foldl (fun sc i => aplintc_intr_disable k irq i sc)
        (l1.foldl (fun sc i => aplintc_intr_enable k irq i sc) sc)).sc_nintr = sc.sc_nintr ∧
      (l2.foldl (fun sc i => aplintc_intr_disable k irq i sc)
        (l1.foldl (fun sc i => aplintc_intr_enable k irq i sc) sc)).sc_hwnintr
          = sc.sc_hwnintr :=
  foldl_keeps (fun t => t.sc_nintr = sc.sc_nintr ∧ t.sc_hwnintr = sc.sc_hwnintr)
    _ (fun a x ha => ⟨(intr_disable_counts k irq x a).1.trans ha.1,
      (intr_disable_counts k irq x a).2.trans ha.2⟩) _ _
    (foldl_keeps (fun t => t.sc_nintr = sc.sc_nintr ∧ t.sc_hwnintr = sc.sc_hwnintr)
      _ (fun a x ha => ⟨(intr_enable_counts k irq x a).1.trans ha.1,
        (intr_enable_counts k irq x a).2.trans ha.2⟩) _ _ ⟨rfl, rfl⟩)

/-- The writes of aplintc_calc_irq are mask writes. -/
theorem calc_irq_steps (k : aplintc_env) (irq : Nat) (s : aplintc_world) :
    mask_steps s (aplintc_calc_irq k irq s) := by
  unfold aplintc_calc_irq
  simp only
  split_ifs
  all_goals first
    | exact mask_steps_refl s
    | (refine mask_steps_trans ?_ (setipl_steps k s.ci_cpl _)
       exact ⟨(intr_folds_counts k irq _ _ _).1, (intr_folds_counts k irq _ _ _).2, rfl, [],
         by simp, by simp⟩)

/-- The writes of aplintc_calc_mask are mask writes. -/
theorem calc_mask_steps (k : aplintc_env) (s : aplintc_world) :
    mask_steps s (aplintc_calc_mask k s) :=
  foldl_keeps (fun t => mask_steps s t) _
    (fun a x ha => mask_steps_trans ha (calc_irq_steps k x a)) _ _ (mask_steps_refl s)

/-- A call of aplintc_intr_establish for a number below sc_nintr returns, and
its writes are mask writes. -/
theorem intr_establish_steps (k : aplintc_env) (irqno level : Nat) (ci : Option Nat)
    (s : aplintc_world) (h : irqno < s.sc.sc_nintr) :
    ∃ t, aplintc_intr_establish k irqno level ci s = some t ∧ mask_steps s t := by
  unfold aplintc_intr_establish
  rw [if_neg (by omega)]
  simp only
  split_ifs with h1
  · exact ⟨s, rfl, mask_steps_refl s⟩
  · refine ⟨_, rfl, mask_steps_trans ?_ (calc_irq_steps k irqno _)⟩
    exact ⟨rfl, rfl, rfl, [], by simp, by simp⟩

/-- The end of aplintc_attach, from aplintc_setipl(IPL_HIGH) on, returns and
makes mask writes only. -/
theorem attach_finish (k : aplintc_env) (s0 : aplintc_world)
    (h4 : s0.sc.sc_nintr = s0.sc.sc_hwnintr + 4) :
    ∃ W, (if k.MULTIPROCESSOR = true then
        (aplintc_intr_establish k
          ((aplintc_calc_mask k (aplintc_setipl k k.IPL_HIGH s0)).sc.sc_hwnintr + AIC_NUM_FIQ + 0)
          (k.IPL_IPI ||| k.IPL_MPSAFE) none
          (aplintc_calc_mask k (aplintc_setipl k k.IPL_HIGH s0))).bind
          (fun s => aplintc_intr_establish k (s.sc.sc_hwnintr + AIC_NUM_FIQ + 1)
            (k.IPL_IPI ||| k.IPL_MPSAFE) none s)
      else some (aplintc_calc_mask k (aplintc_setipl k k.IPL_HIGH s0))) = some W ∧
      mask_steps s0 W := by
  have hs : mask_steps s0 (aplintc_calc_mask k (aplintc_setipl k k.IPL_HIGH s0)) :=
    mask_steps_trans (setipl_steps k k.IPL_HIGH s0) (calc_mask_steps k _)
  split_ifs with hmp
  · obtain ⟨t1, e1, m1⟩ := intr_establish_steps k
      ((aplintc_calc_mask k (aplintc_setipl k k.IPL_HIGH s0)).sc.sc_hwnintr + AIC_NUM_FIQ + 0)
      (k.IPL_IPI ||| k.IPL_MPSAFE) none _ (by rw [hs.1, hs.2.1, h4]; simp)
    have m01 := mask_steps_trans hs m1
    obtain ⟨t2, e2, m2⟩ := intr_establish_steps k (t1.sc.sc_hwnintr + AIC_NUM_FIQ + 1)
      (k.IPL_IPI ||| k.IPL_MPSAFE) none t1 (by rw [m01.1, m01.2.1, h4]; simp)
    refine ⟨t2, ?_, mask_steps_trans m01 m2⟩
    rw [e1]
    exact e2
  · exact ⟨_, rfl, hs⟩

/-- The run of aplintc_attach for every reading of AIC_INFO and every choice of
the header constants: it returns, and its trace is the read, the line, the
writes of the two loops for the count, and after them mask writes only. -/
theorem aplintc_attach_trace (k : aplintc_env) (cpl : Nat) (w : Bus) :
    ∃ W, aplintc_attach k cpl w = some W ∧ ∃ added,
      W.bus.trace =
        w.trace ++
          [BusEvent.read4 0 AIC_INFO (w.input.headD 0 % 4294967296),
           BusEvent.printf (BusLine.nirq ((w.input.headD 0 % 4294967296) &&& 0xffff))] ++
          (List.range (((w.input.headD 0 % 4294967296) &&& 0xffff) / 32)).flatMap (fun i =>
            [BusEvent.write4 0 (AIC_IRQ_DISABLE (i * 32)) 0xffffffff,
             BusEvent.write4 0 (AIC_IRQ_CLEAR (i * 32)) 0xffffffff]) ++
          (List.range ((w.input.headD 0 % 4294967296) &&& 0xffff)).map (fun i =>
            BusEvent.write4 0 (AIC_IRQ_AFFINITY i) 1) ++ added ∧
      ∀ e ∈ added, e.isMaskWrite := by
  have h1 : ∀ (l : List Nat) (v : Bus),
      (l.foldl (fun w i =>
        bus_space_write_4 0 (AIC_IRQ_CLEAR (i * 32)) 0xffffffff
          (bus_space_write_4 0 (AIC_IRQ_DISABLE (i * 32)) 0xffffffff w)) v).trace =
        v.trace ++ l.flatMap (fun i =>
          [BusEvent.write4 0 (AIC_IRQ_DISABLE (i * 32)) 0xffffffff,
           BusEvent.write4 0 (AIC_IRQ_CLEAR (i * 32)) 0xffffffff]) := by
    intro l
    induction l with
    | nil => intro v; simp
    | cons a l ih =>
      intro v
      rw [List.foldl_cons, ih]
      simp [bus_space_write_4, Bus.emit]
  have h2 : ∀ (l : List Nat) (v : Bus),
      (l.foldl (fun w i => bus_space_write_4 0 (AIC_IRQ_AFFINITY i) (1 <<< 0) w) v).trace =
        v.trace ++ l.map (fun i => BusEvent.write4 0 (AIC_IRQ_AFFINITY i) 1) := by
    intro l
    induction l with
    | nil => intro v; simp
    | cons a l ih =>
      intro v
      rw [List.foldl_cons, ih]
      simp [bus_space_write_4, Bus.emit]
  unfold aplintc_attach
  refine (attach_finish k _ ?_).imp (fun W hW => ⟨hW.1, ?_⟩)
  · simp
  · obtain ⟨added, ht, hm⟩ := hW.2.2.2.2
    refine ⟨added, ?_, hm⟩
    rw [ht]
    simp only [h1, h2]
    simp [bus_space_read_4, Bus.emit]

/-- The level at entry does not matter: aplintc_setipl(IPL_HIGH) replaces it
before it is read. -/
theorem aplintc_attach_cpl (k : aplintc_env) (cpl : Nat) (w : Bus) :
    aplintc_attach k cpl w = aplintc_attach k 0 w := by
  have h : ∀ (sc : aplintc_softc) (b : Bus),
      aplintc_setipl k k.IPL_HIGH { sc := sc, ci_cpl := cpl, bus := b }
        = aplintc_setipl k k.IPL_HIGH { sc := sc, ci_cpl := 0, bus := b } := fun _ _ => rfl
  unfold aplintc_attach
  simp only [h]

set_option maxRecDepth 1000000 in
/-- C29 (code at the failing input): with AIC_INFO reading 40, for every choice
of the header constants and every level at entry, aplintc_attach returns and
its trace is the read, the line, the loop's writes to the DISABLE and CLEAR
words of IRQs 0..31 only (0x4100 and 0x4080), the 40 affinity writes, and
after them mask writes only.  IRQ 35 is below the count; the loop writes
neither word of it, and the word AIC_IRQ_CLEAR(35) at 0x4084 is written nowhere
in the run.  The word AIC_IRQ_DISABLE(35) at 0x4104 is written later, by
aplintc_setipl: with the levels of OpenBSD/arm64 the writes after the loops
are those of one call of aplintc_setipl, and of three under MULTIPROCESSOR. -/
theorem aplintc_attach_skips_last_word (k : aplintc_env) (cpl : Nat) :
    (∃ W added, aplintc_attach k cpl aic40 = some W ∧
      W.bus.trace =
        [BusEvent.read4 0 AIC_INFO 40, BusEvent.printf (BusLine.nirq 40),
         BusEvent.write4 0 0x4100 0xffffffff, BusEvent.write4 0 0x4080 0xffffffff] ++
          (List.range 40).map (fun i => BusEvent.write4 0 (AIC_IRQ_AFFINITY i) 1) ++ added ∧
      (∀ e ∈ added, e.isMaskWrite) ∧
      (∀ e ∈ W.bus.trace, e.isWriteAt (AIC_IRQ_CLEAR 35) = false)) ∧
    AIC_IRQ_DISABLE 35 = 0x4104 ∧ AIC_IRQ_CLEAR 35 = 0x4084 ∧
    (aplintc_attach arm64_env cpl aic40).map (fun W => W.bus.trace.drop 44)
      = some setipl40_events ∧
    (aplintc_attach arm64_mp_env cpl aic40).map (fun W => W.bus.trace.drop 44)
      = some (setipl40_events ++ setipl40_events ++ setipl40_events) := by
  refine ⟨?_, by decide, by decide, ?_, ?_⟩
  · obtain ⟨W, hW, added, ht, hm⟩ := aplintc_attach_trace k cpl aic40
    have hp : aic40.trace ++
          [BusEvent.read4 0 AIC_INFO (aic40.input.headD 0 % 4294967296),
           BusEvent.printf (BusLine.nirq ((aic40.input.headD 0 % 4294967296) &&& 0xffff))] ++
          (List.range (((aic40.input.headD 0 % 4294967296) &&& 0xffff) / 32)).flatMap (fun i =>
            [BusEvent.write4 0 (AIC_IRQ_DISABLE (i * 32)) 0xffffffff,
             BusEvent.write4 0 (AIC_IRQ_CLEAR (i * 32)) 0xffffffff]) ++
          (List.range ((aic40.input.headD 0 % 4294967296) &&& 0xffff)).map (fun i =>
            BusEvent.write4 0 (AIC_IRQ_AFFINITY i) 1)
        = [BusEvent.read4 0 AIC_INFO 40, BusEvent.printf (BusLine.nirq 40),
           BusEvent.write4 0 0x4100 0xffffffff, BusEvent.write4 0 0x4080 0xffffffff] ++
          (List.range 40).map (fun i => BusEvent.write4 0 (AIC_IRQ_AFFINITY i) 1) := by
      decide
    rw [hp] at ht
    refine ⟨W, added, hW, ht, hm, ?_⟩
    intro e he
    rw [ht] at he
    rcases List.mem_append.1 he with h | h
    · exact (show ∀ e ∈ [BusEvent.read4 0 AIC_INFO 40, BusEvent.printf (BusLine.nirq 40),
           BusEvent.write4 0 0x4100 0xffffffff, BusEvent.write4 0 0x4080 0xffffffff] ++
          (List.range 40).map (fun i => BusEvent.write4 0 (AIC_IRQ_AFFINITY i) 1),
          e.isWriteAt (AIC_IRQ_CLEAR 35) = false by decide) e h
    · exact isMaskWrite_not_clear e (hm e h) 35
  · rw [aplintc_attach_cpl arm64_env cpl aic40]
    decide
  · rw [aplintc_attach_cpl arm64_mp_env cpl aic40]
    decide

/-! ### The wait loops of apldwusb.c -/

theorem apldwusb_tunable_empty (w : Bus) : apldwusb_tunable prop_empty w = (0, w) := rfl

theorem wait_polls_succ (off n : Nat) :
    wait_polls off (n + 1)
      = [BusEvent.read4 sc_usb_ioh off 0, BusEvent.delay 100] ++ wait_polls off n := by
  unfold wait_polls
  rw [List.replicate_succ, List.flatten_cons]

/-- A wait loop entered with a positive i is never left with i == 0. -/
theorem apldwusb_wait_left_pos (ready : Nat → Bool) (off : Nat) :
    ∀ (fuel : Nat) (i : Int) (w : Bus) (j : Int) (w' : Bus), 0 < i →
      apldwusb_wait ready off fuel i w = WaitResult.left j w' → 0 < j := by
  intro fuel
  induction fuel with
  | zero => intro i w j w' _ h; simp [apldwusb_wait] at h
  | succ fuel ih =>
    intro i w j w' hi h
    unfold apldwusb_wait at h
    rw [if_pos hi] at h
    simp only at h
    split_ifs at h with hr hm
    · injection h with h1 _; omega
    · exact ih (i + 1) _ j w' (by omega) h

/-- On a device that answers 0 to every read, a wait loop whose condition 0
does not meet runs until i++ is applied to INT_MAX. -/
theorem apldwusb_wait_silent (ready : Nat → Bool) (off : Nat) (hr : ready 0 = false) :
    ∀ (n fuel : Nat) (i : Int) (w : Bus), w.input = [] → 0 < i → i + n = 2147483647 →
      n < fuel → apldwusb_wait ready off fuel i w
        = WaitResult.overflow { input := [], trace := w.trace ++ wait_polls off (n + 1) } := by
  intro n
  induction n with
  | zero =>
    intro fuel i w hin hi hn hf
    obtain ⟨f, rfl⟩ : ∃ f, fuel = f + 1 := ⟨fuel - 1, by omega⟩
    have hm : i = INT_MAX := by simp only [INT_MAX]; omega
    unfold apldwusb_wait
    simp only [if_pos hi, bus_space_read_4, hin, List.headD_nil, Nat.zero_mod, hr,
      Bool.false_eq_true, if_false, if_pos hm, Bus.delay, Bus.emit, List.tail_nil]
    rw [wait_polls_succ off 0]
    simp only [wait_polls, List.replicate_zero, List.flatten_nil, List.append_nil,
      List.append_assoc, List.singleton_append, sc_usb_ioh, List.cons_append, List.nil_append]
  | succ n ih =>
    intro fuel i w hin hi hn hf
    obtain ⟨f, rfl⟩ : ∃ f, fuel = f + 1 := ⟨fuel - 1, by omega⟩
    have hm : ¬ i = INT_MAX := by simp only [INT_MAX]; omega
    unfold apldwusb_wait
    simp only [if_pos hi, bus_space_read_4, hin, List.headD_nil, Nat.zero_mod, hr,
      Bool.false_eq_true, if_false, if_neg hm, Bus.delay, Bus.emit, List.tail_nil]
    rw [ih f (i + 1) _ rfl (by omega) (by push_cast at hn ⊢; omega) (by omega)]
    rw [wait_polls_succ off (n + 1)]
    simp only [List.append_assoc, List.singleton_append, List.cons_append, List.nil_append,
      sc_usb_ioh]

/-- The same for a wait loop of apldwusb_init with the statements after it:
none of them is reached. -/
theorem apldwusb_wait_then_silent (ready : Nat → Bool) (off : Nat) (line : BusLine)
    (rest : Bus → InitResult) (hr : ready 0 = false) (w : Bus) (hin : w.input = []) :
    apldwusb_wait_then ready off line rest w
      = InitResult.overflow { input := [], trace := w.trace ++ wait_polls off 2147483548 } := by
  unfold apldwusb_wait_then
  rw [apldwusb_wait_silent ready off hr 2147483547 2147483648 100 w hin (by decide)
    (by norm_num) (by norm_num)]

/-- A wait loop whose condition the first reading meets is left at once. -/
theorem apldwusb_wait_ready (ready : Nat → Bool) (off fuel : Nat) (i : Int) (w : Bus)
    (hf : 0 < fuel) (hi : 0 < i) (hr : ready (w.input.headD 0 % 4294967296) = true) :
    apldwusb_wait ready off fuel i w = WaitResult.left i (bus_space_read_4 sc_usb_ioh off w).2 := by
  obtain ⟨f, rfl⟩ : ∃ f, fuel = f + 1 := ⟨fuel - 1, by omega⟩
  unfold apldwusb_wait
  simp only [if_pos hi]
  rw [if_pos (by simpa [bus_space_read_4] using hr)]

/-- A wait loop of apldwusb_init whose condition the first reading meets goes
on to the statements after it. -/
theorem apldwusb_wait_then_ready (ready : Nat → Bool) (off : Nat) (line : BusLine)
    (rest : Bus → InitResult) (w : Bus)
    (hr : ready (w.input.headD 0 % 4294967296) = true) :
    apldwusb_wait_then ready off line rest w = rest (bus_space_read_4 sc_usb_ioh off w).2 := by
  unfold apldwusb_wait_then
  rw [apldwusb_wait_ready ready off 2147483648 100 w (by decide) (by decide) hr]
  simp

theorem wait_polls_length (off n : Nat) : (wait_polls off n).length = 2 * n := by
  induction n with
  | zero => rfl
  | succ n ih => rw [wait_polls_succ, List.length_append, ih]; simp; omega

theorem wait_polls_mem (off n : Nat) (e : BusEvent) (h : e ∈ wait_polls off n) :
    e = BusEvent.read4 sc_usb_ioh off 0 ∨ e = BusEvent.delay 100 := by
  induction n with
  | zero => simp [wait_polls] at h
  | succ n ih =>
    rw [wait_polls_succ] at h
    rcases List.mem_append.1 h with h | h
    · simpa using h
    · exact ih h

set_option maxRecDepth 1000000 in
/-- C21 (code at the failing inputs): on a device whose registers all read 0,
apldwusb_init does not give up after 100 polls of the UTMI activity counter:
it polls 2147483548 times, until i++ is applied to INT_MAX, and has neither
printed the timeout line nor returned 1; on a device where the counter reads 1
at once and everything else reads 0 the same happens in the PIPE PHY ready
wait, after the writes of USB2PHY_USBCTL, PIPEHDLR_AON_GEN and GCTL. In
general a wait loop entered with i = 100 is never left with i == 0, so the
timeout branch after it is not taken. -/
theorem apldwusb_init_no_timeout :
    apldwusb_init prop_empty prop_empty usb_silent
        = InitResult.overflow
            { input := [],
              trace := phy_zero_events
                         ++ wait_polls USBCORE_AUSBEVT_UTMIACT_EVTCNT 2147483548 }
      ∧ apldwusb_init prop_empty prop_empty usb_pipe_silent
        = InitResult.overflow
            { input := [],
              trace := (phy_zero_events ++ mode_zero_events)
                         ++ wait_polls USBCORE_PIPEPHY_STATUS 2147483548 }
      ∧ (wait_polls USBCORE_AUSBEVT_UTMIACT_EVTCNT 2147483548).length = 2 * 2147483548
      ∧ BusEvent.printf BusLine.utmi_timeout
          ∉ phy_zero_events ++ wait_polls USBCORE_AUSBEVT_UTMIACT_EVTCNT 2147483548
      ∧ BusEvent.printf BusLine.pipe_phy_timeout
          ∉ (phy_zero_events ++ mode_zero_events)
              ++ wait_polls USBCORE_PIPEPHY_STATUS 2147483548
      ∧ ∀ (ready : Nat → Bool) (off fuel : Nat) (w w' : Bus),
          apldwusb_wait ready off fuel 100 w ≠ WaitResult.left 0 w' := by
  have hphy : apldwusb_init_phy usb_silent = { input := [], trace := phy_zero_events } := by
    decide
  have hmode : bus_space_read_4 sc_usb_ioh USBCORE_PIPEHDLR_MUXSEL (apldwusb_init_mode
      (bus_space_read_4 sc_usb_ioh USBCORE_AUSBEVT_UTMIACT_EVTCNT
        (apldwusb_init_phy usb_pipe_silent)).2)
      = (0, { input := [], trace := phy_zero_events ++ mode_zero_events }) := by
    decide
  refine ⟨?_, ?_, ?_, ?_, ?_, ?_⟩
  · unfold apldwusb_init
    simp only [apldwusb_tunable_empty, ne_eq, not_true_eq_false, if_false]
    rw [hphy, apldwusb_wait_then_silent _ _ _ _ (by decide) _ rfl]
  · unfold apldwusb_init
    simp only [apldwusb_tunable_empty, ne_eq, not_true_eq_false, if_false]
    rw [apldwusb_wait_then_ready _ _ _ _ _ (by decide), hmode]
    rw [if_pos (by decide), apldwusb_wait_then_silent _ _ _ _ (by decide) _ rfl]
  · exact wait_polls_length _ _
  · intro h
    rcases List.mem_append.1 h with h | h
    · exact absurd h (by decide)
    · rcases wait_polls_mem _ _ _ h with h | h <;> cases h
  · intro h
    rcases List.mem_append.1 h with h | h
    · exact absurd h (by decide)
    · rcases wait_polls_mem _ _ _ h with h | h <;> cases h
  · intro ready off fuel w w' h
    exact absurd (apldwusb_wait_left_pos ready off fuel 100 w 0 w' (by decide) h) (by decide)

end Tcpci
